import Mathlib

/-!
Shallow embedding of the color-scheme generation and color-space conversion
engine of alacritty-colors (internal/theme: colors.go and the generator /
variant functions of manager.go).

Modelling conventions:
* Go `float64` arithmetic on color values is modelled by exact rationals
  (all operations used by the converters are field operations); the WCAG
  luminance computation, which uses `math.Pow(x, 2.4)`, is modelled over the
  reals with `Real.rpow`.
* Go `int` is modelled by `ℤ`; the conversion `int(f)` (truncation toward
  zero) is `ratTrunc`.
* `math.Mod(x, 1.0)` (sign of the dividend) is `goMod1`.
* Go's `map[string]string` is modelled by an association list
  `List (String × String)`; map assignment is `setKey` (replace first
  binding or append) and map lookup is `findVal?`.  Go's nondeterministic
  map iteration order in the base-palette generators is modelled as the
  literal order of the source table (the claims proved below are
  insensitive to the order in which entries are jittered).
* The global `rand` entropy source is modelled by a stream `e : ℕ → ℚ` of
  the successive `randomFloat()` results, consumed in call order; the real
  source only produces values in `[0, 1)`, which is the `validE` hypothesis.
-/

/-- Go `int(f)` for `f : float64`: truncation toward zero. -/
def ratTrunc (x : ℚ) : ℤ :=
  if x < 0 then -(Rat.floor (-x)) else Rat.floor x

/-- Go `math.Mod(x, 1.0)`: remainder with the sign of the dividend. -/
def goMod1 (x : ℚ) : ℚ :=
  x - ratTrunc x

/-- Integer RGB triple, each channel a Go `int` (source type `RGB`). -/
structure RGB where
  R : ℤ
  G : ℤ
  B : ℤ
  deriving DecidableEq, Repr

/-- Float HSL triple (source type `HSL`), modelled over `ℚ`. -/
structure HSL where
  H : ℚ
  S : ℚ
  L : ℚ
  deriving DecidableEq, Repr

/-- Source `func (rgb RGB) ToHSL() HSL`: standard max/min channel algorithm.
The Go `switch max` on float equality is the `if mx = r` chain. -/
def RGB.ToHSL (c : RGB) : HSL :=
  let r : ℚ := (c.R : ℚ) / 255
  let g : ℚ := (c.G : ℚ) / 255
  let b : ℚ := (c.B : ℚ) / 255
  let mx := max (max r g) b
  let mn := min (min r g) b
  let l := (mx + mn) / 2
  if mx = mn then
    ⟨0, 0, l⟩
  else
    let d := mx - mn
    let s := if l > 1/2 then d / (2 - mx - mn) else d / (mx + mn)
    let h0 :=
      if mx = r then (if g < b then (g - b) / d + 6 else (g - b) / d)
      else if mx = g then (b - r) / d + 2
      else (r - g) / d + 4
    ⟨h0 / 6, s, l⟩

/-- Source `func hue2rgb(p, q, t float64) float64`. -/
def hue2rgb (p q t : ℚ) : ℚ :=
  let t1 := if t < 0 then t + 1 else t
  let t2 := if t1 > 1 then t1 - 1 else t1
  if t2 < 1/6 then p + (q - p) * 6 * t2
  else if t2 < 1/2 then q
  else if t2 < 2/3 then p + (q - p) * (2/3 - t2) * 6
  else p

/-- Source `func (hsl HSL) ToRGB() RGB`: each float in `[0,1]` is multiplied
by 255 and truncated (Go `int(r * 255)`). -/
def HSL.ToRGB (hsl : HSL) : RGB :=
  if hsl.S = 0 then
    let v := ratTrunc (hsl.L * 255)
    ⟨v, v, v⟩
  else
    let q := if hsl.L < 1/2 then hsl.L * (1 + hsl.S) else hsl.L + hsl.S - hsl.L * hsl.S
    let p := 2 * hsl.L - q
    ⟨ratTrunc (hue2rgb p q (hsl.H + 1/3) * 255),
     ratTrunc (hue2rgb p q hsl.H * 255),
     ratTrunc (hue2rgb p q (hsl.H - 1/3) * 255)⟩

/-- Lowercase hexadecimal digit character for a value below 16. -/
def hexDigitChar (n : ℕ) : Char :=
  if n < 10 then Char.ofNat (48 + n) else Char.ofNat (87 + n)

/-- Two-digit zero-padded lowercase hex rendering of one channel; faithful to
Go `%02x` on the channel range `[0, 255]` that the generators produce. -/
def hexByte (n : ℤ) : String :=
  ⟨[hexDigitChar (n.toNat / 16 % 16), hexDigitChar (n.toNat % 16)]⟩

/-- Source `func (rgb RGB) ToHex() string`: `fmt.Sprintf("#%02x%02x%02x", ...)`. -/
def RGB.ToHex (c : RGB) : String :=
  "#" ++ hexByte c.R ++ hexByte c.G ++ hexByte c.B

/-- ASCII whitespace, as skipped by `fmt` scanning verbs. -/
def isSpaceChar (ch : Char) : Bool :=
  ch == ' ' || ch == '\t' || ch == '\n' || ch == '\r'

/-- Hexadecimal digit (either case), the digit set of the `%x` scanning verb. -/
def isHexDigitChar (ch : Char) : Bool :=
  decide (('0' ≤ ch ∧ ch ≤ '9') ∨ ('a' ≤ ch ∧ ch ≤ 'f') ∨ ('A' ≤ ch ∧ ch ≤ 'F'))

/-- Numeric value of a hexadecimal digit character (0 for non-digits). -/
def hexVal (ch : Char) : ℕ :=
  if '0' ≤ ch ∧ ch ≤ '9' then ch.toNat - 48
  else if 'a' ≤ ch ∧ ch ≤ 'f' then ch.toNat - 87
  else if 'A' ≤ ch ∧ ch ≤ 'F' then ch.toNat - 55
  else 0

/-- Greedy hex-digit reader with a width budget: accumulated value, number of
digits consumed, and the remaining input. -/
def readHexDigits (w : ℕ) (acc : ℕ) (cnt : ℕ) : List Char → ℕ × ℕ × List Char
  | [] => (acc, cnt, [])
  | ch :: rest =>
    if w = 0 then (acc, cnt, ch :: rest)
    else if isHexDigitChar ch then readHexDigits (w - 1) (acc * 16 + hexVal ch) (cnt + 1) rest
    else (acc, cnt, ch :: rest)

/-- One `%x` scanning operand of Go `fmt.Sscanf` with maximum field width
`width`: leading ASCII spaces are discarded (documented `fmt` behaviour:
every verb except `%c` starts by discarding leading spaces), an optional
sign is accepted for a signed integer target (counted against the width),
then at least one and at most `width` hex digits are consumed. -/
def scanHexToken (width : ℕ) (input : List Char) : Option (ℤ × List Char) :=
  match input.dropWhile isSpaceChar with
  | [] => none
  | ch :: r =>
    if ch = '-' then
      let out := readHexDigits (width - 1) 0 0 r
      if out.2.1 = 0 then none else some (-(out.1 : ℤ), out.2.2)
    else if ch = '+' then
      let out := readHexDigits (width - 1) 0 0 r
      if out.2.1 = 0 then none else some ((out.1 : ℤ), out.2.2)
    else
      let out := readHexDigits width 0 0 (ch :: r)
      if out.2.1 = 0 then none else some ((out.1 : ℤ), out.2.2)

/-- Source `func HexToRGB(hex string) (RGB, error)`: requires length 7 and a
leading `#`, then `fmt.Sscanf(hex[1:], "%02x%02x%02x", &r, &g, &b)`. -/
def HexToRGB (s : String) : Except String RGB :=
  match s.data with
  | '#' :: rest =>
    if rest.length = 6 then
      match scanHexToken 2 rest with
      | none => .error ("failed to parse hex color: " ++ s)
      | some (r, rest1) =>
        match scanHexToken 2 rest1 with
        | none => .error ("failed to parse hex color: " ++ s)
        | some (g, rest2) =>
          match scanHexToken 2 rest2 with
          | none => .error ("failed to parse hex color: " ++ s)
          | some (b, _) => .ok ⟨r, g, b⟩
    else .error ("invalid hex color format: " ++ s)
  | _ => .error ("invalid hex color format: " ++ s)

/-- Source `rgb, _ := HexToRGB(hex)` with the error discarded: the Go zero
value `RGB{}` stands in on failure. -/
def hexToRGBOrZero (s : String) : RGB :=
  match HexToRGB s with
  | .ok c => c
  | .error _ => ⟨0, 0, 0⟩

/-- Source helper `func hexToRGB(hex string) (int, int, int)` of manager.go:
returns zeros when the shape is wrong, otherwise scans each 2-character
slice independently with `fmt.Sscanf(_, "%x", _)`, a failed scan leaving
that channel at its zero value. -/
def hexToRGBLoose (s : String) : ℤ × ℤ × ℤ :=
  match s.data with
  | '#' :: c1 :: c2 :: c3 :: c4 :: c5 :: c6 :: [] =>
    (match scanHexToken 99 [c1, c2] with | some (v, _) => v | none => 0,
     match scanHexToken 99 [c3, c4] with | some (v, _) => v | none => 0,
     match scanHexToken 99 [c5, c6] with | some (v, _) => v | none => 0)
  | _ => (0, 0, 0)

/-- Source helper `func rgbToHex(r, g, b int) string` of manager.go: clamps
each channel to `[0, 255]` before rendering. -/
def rgbToHex (r g b : ℤ) : String :=
  "#" ++ hexByte (max 0 (min 255 r)) ++ hexByte (max 0 (min 255 g)) ++ hexByte (max 0 (min 255 b))

/-- Map lookup: first binding of the key, if any (Go `v, ok := m[k]`). -/
def findVal? : List (String × String) → String → Option String
  | [], _ => none
  | (a, b) :: r, k => if a = k then some b else findVal? r k

/-- Map assignment `m[k] = v`: replace the first binding or append. -/
def setKey : List (String × String) → String → String → List (String × String)
  | [], k, v => [(k, v)]
  | (a, b) :: r, k, v => if a = k then (k, v) :: r else (a, b) :: setKey r k v

/-- The entropy stream: successive results of the source's `randomFloat()`
(crypto/rand based, uniform on `[0, 1)` with granularity `1/1000000`),
consumed in call order. -/
def Entropy : Type := ℕ → ℚ

/-- The real `randomFloat()` only returns values in `[0, 1)`. -/
def validE (e : Entropy) : Prop := ∀ n, 0 ≤ e n ∧ e n < 1

/-- A concrete entropy stream used for witnesses and counterexamples. -/
def eHalf : Entropy := fun _ => 1/2

/-- The loop order `colorNames` shared by all hue-rotation generators. -/
def roleNames : List String :=
  ["black", "red", "green", "yellow", "blue", "magenta", "cyan", "white"]

/-- Per-role hue offsets of `generateRandomColors` (`colorHues`). -/
def randomHues : List ℚ := [0, 0.0, 0.33, 0.16, 0.66, 0.83, 0.5, 0]

/-- Per-role hues of `generatePastelColors` (`pastelHues`). -/
def pastelHues : List ℚ := [0, 0.0, 0.25, 0.15, 0.6, 0.8, 0.5, 0]

/-- Per-role hues of `generateNeonColors` (`neonHues`). -/
def neonHues : List ℚ := [0, 0.0, 0.33, 0.16, 0.66, 0.83, 0.5, 0]

/-- Per-role hues of `generateWarmColors` (`warmHues`). -/
def warmHues : List ℚ := [0, 0.0, 0.08, 0.15, 0.05, 0.02, 0.12, 0]

/-- Per-role hues of `generateCoolColors` (`coolHues`). -/
def coolHues : List ℚ := [0, 0.95, 0.4, 0.45, 0.6, 0.75, 0.5, 0]

/-- Per-role hues of `generateNatureColors` (`natureHues`). -/
def natureHues : List ℚ := [0, 0.02, 0.25, 0.12, 0.55, 0.8, 0.45, 0]

/-- Per-role hues of `generateCyberpunkColors` (`cyberpunkHues`). -/
def cyberpunkHues : List ℚ := [0, 0.95, 0.33, 0.16, 0.66, 0.83, 0.5, 0]

/-- The role loop of `generateRandomColors`; `k` is the index of the next
unconsumed entropy value. -/
def randomRoleEntries (e : Entropy) (baseHue : ℚ) :
    List (ℚ × String) → ℕ → List (String × String)
  | [], _ => []
  | (hOff, name) :: rest, k =>
    if name = "black" then
      let light := e k * 0.15
      (name, (HSL.mk baseHue 0.1 light).ToRGB.ToHex) ::
      ("bright_" ++ name,
        (HSL.mk baseHue (min 1 (0.1 + 0.1)) (min 0.9 (light + 0.25))).ToRGB.ToHex) ::
      randomRoleEntries e baseHue rest (k + 1)
    else if name = "white" then
      let light := 0.85 + e k * 0.15
      (name, (HSL.mk baseHue 0.1 light).ToRGB.ToHex) ::
      ("bright_" ++ name,
        (HSL.mk baseHue (min 1 (0.1 + 0.1)) (min 0.9 (light + 0.25))).ToRGB.ToHex) ::
      randomRoleEntries e baseHue rest (k + 1)
    else
      let hue := goMod1 (baseHue + hOff * 0.618 + e k * 0.05)
      let sat := 0.7 + e (k + 1) * 0.3
      let light := 0.45 + e (k + 2) * 0.25
      (name, (HSL.mk hue sat light).ToRGB.ToHex) ::
      ("bright_" ++ name,
        (HSL.mk hue (min 1 (sat + 0.1)) (min 0.9 (light + 0.25))).ToRGB.ToHex) ::
      randomRoleEntries e baseHue rest (k + 3)

/-- Source `generateRandomColors`. -/
def generateRandomColors (e : Entropy) : List (String × String) :=
  let baseHue := e 0
  let bgLightness := e 1 * 0.2
  let fgLightness := 0.8 + e 2 * 0.2
  ("background", (HSL.mk baseHue 0.15 bgLightness).ToRGB.ToHex) ::
  ("foreground", (HSL.mk baseHue 0.1 fgLightness).ToRGB.ToHex) ::
  ("selection_background", (HSL.mk baseHue 0.4 0.25).ToRGB.ToHex) ::
  randomRoleEntries e baseHue (randomHues.zip roleNames) 3

/-- The role loop of `generatePastelColors`: `black` and `white` are fixed
literals consuming no entropy. -/
def pastelRoleEntries (e : Entropy) (baseHue : ℚ) :
    List (ℚ × String) → ℕ → List (String × String)
  | [], _ => []
  | (hOff, name) :: rest, k =>
    if name = "black" then
      (name, "#f0ede8") :: ("bright_" ++ name, "#d4ccc2") ::
      pastelRoleEntries e baseHue rest k
    else if name = "white" then
      (name, "#928374") :: ("bright_" ++ name, "#7c6f64") ::
      pastelRoleEntries e baseHue rest k
    else
      let hue := goMod1 (baseHue + hOff + e k * 0.1 - 0.05)
      let sat := 0.3 + e (k + 1) * 0.2
      let light := 0.6 + e (k + 2) * 0.15
      (name, (HSL.mk hue sat light).ToRGB.ToHex) ::
      ("bright_" ++ name,
        (HSL.mk hue (sat + 0.1) (min 0.85 (light + 0.15))).ToRGB.ToHex) ::
      pastelRoleEntries e baseHue rest (k + 3)

/-- Source `generatePastelColors`. -/
def generatePastelColors (e : Entropy) : List (String × String) :=
  let baseHue := e 0
  ("background", "#faf7f4") ::
  ("foreground", "#5c5c5c") ::
  ("selection_background", "#e8e0db") ::
  pastelRoleEntries e baseHue (pastelHues.zip roleNames) 1

/-- The role loop of `generateNeonColors`. -/
def neonRoleEntries (e : Entropy) :
    List (ℚ × String) → ℕ → List (String × String)
  | [], _ => []
  | (hOff, name) :: rest, k =>
    if name = "black" then
      (name, "#1a1a1a") :: ("bright_" ++ name, "#333333") ::
      neonRoleEntries e rest k
    else if name = "white" then
      (name, "#ffffff") :: ("bright_" ++ name, "#ffffff") ::
      neonRoleEntries e rest k
    else
      let light := 0.5 + e k * 0.3
      (name, (HSL.mk hOff 1 light).ToRGB.ToHex) ::
      ("bright_" ++ name, (HSL.mk hOff 1 (min 1 (light + 0.2))).ToRGB.ToHex) ::
      neonRoleEntries e rest (k + 1)

/-- Source `generateNeonColors`. -/
def generateNeonColors (e : Entropy) : List (String × String) :=
  ("background", "#0a0a0a") ::
  ("foreground", "#00ff00") ::
  ("selection_background", "#333333") ::
  neonRoleEntries e (neonHues.zip roleNames) 0

/-- The normal/bright lightness ramps of `generateMonochromeColors`. -/
def monoLightnesses : List ℚ := [0.1, 0.2, 0.35, 0.45, 0.55, 0.65, 0.75, 0.9]

/-- Bright lightness ramp of `generateMonochromeColors`. -/
def monoBrightLightnesses : List ℚ := [0.2, 0.3, 0.45, 0.55, 0.65, 0.75, 0.85, 1.0]

/-- The role loop of `generateMonochromeColors` over
`(name, normal lightness, bright lightness)` triples. -/
def monoRoleEntries (baseHue : ℚ) :
    List (String × (ℚ × ℚ)) → List (String × String)
  | [] => []
  | (name, ls) :: rest =>
    (name, (HSL.mk baseHue 0.1 ls.1).ToRGB.ToHex) ::
    ("bright_" ++ name, (HSL.mk baseHue 0.1 ls.2).ToRGB.ToHex) ::
    monoRoleEntries baseHue rest

/-- Source `generateMonochromeColors`. -/
def generateMonochromeColors (e : Entropy) : List (String × String) :=
  let baseHue := e 0
  ("background", (HSL.mk baseHue 0.05 0.08).ToRGB.ToHex) ::
  ("foreground", (HSL.mk baseHue 0.05 0.85).ToRGB.ToHex) ::
  ("selection_background", (HSL.mk baseHue 0.1 0.2).ToRGB.ToHex) ::
  monoRoleEntries baseHue (roleNames.zip (monoLightnesses.zip monoBrightLightnesses))

/-- Shared shape of the warm/cool/nature/cyberpunk role loops: `black` and
`white` are fixed literals; the other roles draw saturation and lightness
jitter and derive the bright tone by a lightness delta capped at 1. -/
def fixedHueRoleEntries (e : Entropy) (blackHex brightBlackHex whiteHex brightWhiteHex : String)
    (satBase satSpan lightBase lightSpan brightDelta : ℚ) :
    List (ℚ × String) → ℕ → List (String × String)
  | [], _ => []
  | (hOff, name) :: rest, k =>
    if name = "black" then
      (name, blackHex) :: ("bright_" ++ name, brightBlackHex) ::
      fixedHueRoleEntries e blackHex brightBlackHex whiteHex brightWhiteHex
        satBase satSpan lightBase lightSpan brightDelta rest k
    else if name = "white" then
      (name, whiteHex) :: ("bright_" ++ name, brightWhiteHex) ::
      fixedHueRoleEntries e blackHex brightBlackHex whiteHex brightWhiteHex
        satBase satSpan lightBase lightSpan brightDelta rest k
    else
      let sat := satBase + e k * satSpan
      let light := lightBase + e (k + 1) * lightSpan
      (name, (HSL.mk hOff sat light).ToRGB.ToHex) ::
      ("bright_" ++ name, (HSL.mk hOff sat (min 1 (light + brightDelta))).ToRGB.ToHex) ::
      fixedHueRoleEntries e blackHex brightBlackHex whiteHex brightWhiteHex
        satBase satSpan lightBase lightSpan brightDelta rest (k + 2)

/-- Source `generateWarmColors`. -/
def generateWarmColors (e : Entropy) : List (String × String) :=
  ("background", "#2d1b12") ::
  ("foreground", "#f4e8d0") ::
  ("selection_background", "#4a3426") ::
  fixedHueRoleEntries e "#1a0f08" "#3d2317" "#f4e8d0" "#fff8e7"
    0.6 0.3 0.4 0.3 0.2 (warmHues.zip roleNames) 0

/-- Source `generateCoolColors`. -/
def generateCoolColors (e : Entropy) : List (String × String) :=
  ("background", "#0f1419") ::
  ("foreground", "#e6f1ff") ::
  ("selection_background", "#1f2937") ::
  fixedHueRoleEntries e "#0b0e14" "#1f2328" "#e6f1ff" "#ffffff"
    0.6 0.3 0.4 0.3 0.2 (coolHues.zip roleNames) 0

/-- Source `generateNatureColors`. -/
def generateNatureColors (e : Entropy) : List (String × String) :=
  ("background", "#1a2318") ::
  ("foreground", "#e8f5e8") ::
  ("selection_background", "#2d3a2b") ::
  fixedHueRoleEntries e "#0f1a0e" "#2d3a2b" "#e8f5e8" "#f0fff0"
    0.5 0.3 0.4 0.2 0.15 (natureHues.zip roleNames) 0

/-- Source `generateCyberpunkColors`. -/
def generateCyberpunkColors (e : Entropy) : List (String × String) :=
  ("background", "#0d001a") ::
  ("foreground", "#00ff41") ::
  ("selection_background", "#330066") ::
  fixedHueRoleEntries e "#1a0033" "#330066" "#00ff41" "#66ff99"
    0.9 0.1 0.5 0.2 0.2 (cyberpunkHues.zip roleNames) 0

/-- Shared shape of the base-palette-perturbation loops (dracula, nord,
solarized, gruvbox): each base entry is parsed, jittered in H, S, L by
scheme-specific magnitudes, and the non-primary roles get a bright variant
with a lightness delta (and for gruvbox a saturation delta) capped at 1.
Go's nondeterministic map iteration is modelled as the literal table order. -/
def paletteRoleEntries (e : Entropy) (hJ sJ lJ brightL brightS : ℚ) :
    List (String × String) → ℕ → List (String × String)
  | [], _ => []
  | (name, hx) :: rest, k =>
    let hsl := (hexToRGBOrZero hx).ToHSL
    let h2 := goMod1 (hsl.H + (e k - 0.5) * hJ)
    let s2 := max 0 (min 1 (hsl.S + (e (k + 1) - 0.5) * sJ))
    let l2 := max 0 (min 1 (hsl.L + (e (k + 2) - 0.5) * lJ))
    if name = "background" ∨ name = "foreground" ∨ name = "selection_background" then
      (name, (HSL.mk h2 s2 l2).ToRGB.ToHex) ::
      paletteRoleEntries e hJ sJ lJ brightL brightS rest (k + 3)
    else
      (name, (HSL.mk h2 s2 l2).ToRGB.ToHex) ::
      ("bright_" ++ name,
        (HSL.mk h2 (min 1 (s2 + brightS)) (min 1 (l2 + brightL))).ToRGB.ToHex) ::
      paletteRoleEntries e hJ sJ lJ brightL brightS rest (k + 3)

/-- Base palette of `generateDraculaColors`. -/
def draculaBase : List (String × String) :=
  [("background", "#282a36"), ("foreground", "#f8f8f2"),
   ("selection_background", "#44475a"), ("black", "#21222c"), ("red", "#ff5555"),
   ("green", "#50fa7b"), ("yellow", "#f1fa8c"), ("blue", "#bd93f9"),
   ("magenta", "#ff79c6"), ("cyan", "#8be9fd"), ("white", "#f8f8f2")]

/-- Source `generateDraculaColors` (H jitter ±0.025, S ±0.05, L ±0.025,
bright delta 0.15). -/
def generateDraculaColors (e : Entropy) : List (String × String) :=
  paletteRoleEntries e 0.05 0.1 0.05 0.15 0 draculaBase 0

/-- Base palette of `generateNordColors`. -/
def nordBase : List (String × String) :=
  [("background", "#2e3440"), ("foreground", "#d8dee9"),
   ("selection_background", "#434c5e"), ("black", "#3b4252"), ("red", "#bf616a"),
   ("green", "#a3be8c"), ("yellow", "#ebcb8b"), ("blue", "#81a1c1"),
   ("magenta", "#b48ead"), ("cyan", "#88c0d0"), ("white", "#e5e9f0")]

/-- Source `generateNordColors` (H jitter ±0.015, S ±0.025, L ±0.015,
bright delta 0.1). -/
def generateNordColors (e : Entropy) : List (String × String) :=
  paletteRoleEntries e 0.03 0.05 0.03 0.1 0 nordBase 0

/-- Base palette of `generateSolarizedColors`. -/
def solarizedBase : List (String × String) :=
  [("background", "#002b36"), ("foreground", "#839496"),
   ("selection_background", "#073642"), ("black", "#073642"), ("red", "#dc322f"),
   ("green", "#859900"), ("yellow", "#b58900"), ("blue", "#268bd2"),
   ("magenta", "#d33682"), ("cyan", "#2aa198"), ("white", "#eee8d5")]

/-- Source `generateSolarizedColors` (H jitter ±0.01, S ±0.015, L ±0.01,
bright delta 0.12). -/
def generateSolarizedColors (e : Entropy) : List (String × String) :=
  paletteRoleEntries e 0.02 0.03 0.02 0.12 0 solarizedBase 0

/-- Base palette of `generateGruvboxColors`. -/
def gruvboxBase : List (String × String) :=
  [("background", "#282828"), ("foreground", "#ebdbb2"),
   ("selection_background", "#3c3836"), ("black", "#282828"), ("red", "#cc241d"),
   ("green", "#98971a"), ("yellow", "#d79921"), ("blue", "#458588"),
   ("magenta", "#b16286"), ("cyan", "#689d6a"), ("white", "#a89984")]

/-- Source `generateGruvboxColors` (H jitter ±0.02, S ±0.04, L ±0.02,
bright delta 0.15 with saturation boost 0.05). -/
def generateGruvboxColors (e : Entropy) : List (String × String) :=
  paletteRoleEntries e 0.04 0.08 0.04 0.15 0.05 gruvboxBase 0

/-- Source `func (m *Manager) generateColorScheme(scheme string)`: the
13-way dispatch (`"mono"` and `"monochrome"` share a case) with the
`unknown color scheme` error as default. -/
def generateColorScheme (e : Entropy) (scheme : String) :
    Except String (List (String × String)) :=
  if scheme = "random" then .ok (generateRandomColors e)
  else if scheme = "pastel" then .ok (generatePastelColors e)
  else if scheme = "neon" then .ok (generateNeonColors e)
  else if scheme = "mono" then .ok (generateMonochromeColors e)
  else if scheme = "monochrome" then .ok (generateMonochromeColors e)
  else if scheme = "warm" then .ok (generateWarmColors e)
  else if scheme = "cool" then .ok (generateCoolColors e)
  else if scheme = "nature" then .ok (generateNatureColors e)
  else if scheme = "cyberpunk" then .ok (generateCyberpunkColors e)
  else if scheme = "dracula" then .ok (generateDraculaColors e)
  else if scheme = "nord" then .ok (generateNordColors e)
  else if scheme = "solarized" then .ok (generateSolarizedColors e)
  else if scheme = "gruvbox" then .ok (generateGruvboxColors e)
  else .error ("unknown color scheme: " ++ scheme)

/-- Source `func (m *Manager) convertToDarkVariant(colors)`: copy, rescale
the background channels to 30% (truncated) or default `#1a1a1a`, then force
the foreground. -/
def convertToDarkVariant (colors : List (String × String)) : List (String × String) :=
  let bgNew :=
    match findVal? colors "background" with
    | some bg =>
      let c := hexToRGBLoose bg
      rgbToHex (ratTrunc ((c.1 : ℚ) * 0.3)) (ratTrunc ((c.2.1 : ℚ) * 0.3))
        (ratTrunc ((c.2.2 : ℚ) * 0.3))
    | none => "#1a1a1a"
  setKey (setKey colors "background" bgNew) "foreground" "#e5e5e5"

/-- Source `func (m *Manager) convertToLightVariant(colors)`. -/
def convertToLightVariant (colors : List (String × String)) : List (String × String) :=
  let bgNew :=
    match findVal? colors "background" with
    | some bg =>
      let c := hexToRGBLoose bg
      rgbToHex (255 - ratTrunc ((255 - (c.1 : ℚ)) * 0.1))
        (255 - ratTrunc ((255 - (c.2.1 : ℚ)) * 0.1))
        (255 - ratTrunc ((255 - (c.2.2 : ℚ)) * 0.1))
    | none => "#f8f8f8"
  setKey (setKey colors "background" bgNew) "foreground" "#2a2a2a"

/-- Source `func (m *Manager) generateColorSchemeWithVariant`: generate, then
apply the dark variant if `darkTheme`, else the light variant if
`lightTheme`, else return the mapping unchanged. -/
def generateColorSchemeWithVariant (e : Entropy) (scheme : String)
    (darkTheme lightTheme : Bool) : Except String (List (String × String)) :=
  match generateColorScheme e scheme with
  | .error msg => .error msg
  | .ok colors =>
    if darkTheme then .ok (convertToDarkVariant colors)
    else if lightTheme then .ok (convertToLightVariant colors)
    else .ok colors

/-- The sRGB-to-linear gamma helper inside `GetLuminance` (`math.Pow`
modelled with `Real.rpow`). -/
noncomputable def toLinear (c : ℚ) : ℝ :=
  if (c : ℝ) ≤ 0.03928 then (c : ℝ) / 12.92
  else (((c : ℝ) + 0.055) / 1.055) ^ (2.4 : ℝ)

/-- Source `func GetLuminance(rgb RGB) float64`: WCAG relative luminance. -/
noncomputable def GetLuminance (c : RGB) : ℝ :=
  0.2126 * toLinear ((c.R : ℚ) / 255) + 0.7152 * toLinear ((c.G : ℚ) / 255) +
    0.0722 * toLinear ((c.B : ℚ) / 255)

/-- Source `func GetContrastRatio(color1, color2 RGB) float64`. -/
noncomputable def GetContrastRatioR (c1 c2 : RGB) : ℝ :=
  (max (GetLuminance c1) (GetLuminance c2) + 0.05) /
    (min (GetLuminance c1) (GetLuminance c2) + 0.05)

/-- The adjustment loop of `EnsureContrast`: `n` remaining iterations; each
step moves the lightness by `±0.01` (saturating at the `[0,1]` bounds via Go
`math.Min`/`math.Max`), the direction fixed by `bgLum > 0.5`, and returns the
first candidate whose contrast ratio reaches `minR`, else the original
foreground. -/
noncomputable def ensureLoop (bg : RGB) (minR : ℝ) (bgLum : ℝ) (orig : RGB) :
    ℕ → HSL → RGB
  | 0, _ => orig
  | n + 1, hsl =>
    let l2 := if bgLum > 1/2 then min 1 (hsl.L + 0.01) else max 0 (hsl.L - 0.01)
    let newFg := (HSL.mk hsl.H hsl.S l2).ToRGB
    if GetContrastRatioR newFg bg ≥ minR then newFg
    else ensureLoop bg minR bgLum orig n (HSL.mk hsl.H hsl.S l2)

/-- Source `func EnsureContrast(foreground, background RGB, minRatio float64) RGB`. -/
noncomputable def EnsureContrast (foreground background : RGB) (minR : ℝ) : RGB :=
  if GetContrastRatioR foreground background ≥ minR then foreground
  else ensureLoop background minR (GetLuminance background) foreground 100 foreground.ToHSL

/-- Lightness of the `k`-th candidate tested by `EnsureContrast` (step `k` of
the `±0.01` saturating walk started at the foreground's lightness, direction
fixed once by the background luminance). -/
noncomputable def candL (fg bg : RGB) : ℕ → ℚ
  | 0 => fg.ToHSL.L
  | k + 1 =>
    if GetLuminance bg > 1/2 then min 1 (candL fg bg k + 0.01)
    else max 0 (candL fg bg k - 0.01)

/-- The `k`-th candidate color tested by `EnsureContrast` (hue and saturation
of the foreground, lightness after `k` steps). -/
noncomputable def contrastCandidate (fg bg : RGB) (k : ℕ) : RGB :=
  (HSL.mk fg.ToHSL.H fg.ToHSL.S (candL fg bg k)).ToRGB

/-- Specification-side restatement of the claim: the first of the 100
candidates that passes the ratio test, else the original foreground. -/
noncomputable def contrastSearchSpec (fg bg : RGB) (minR : ℝ) : RGB :=
  (((List.range 100).map fun i => contrastCandidate fg bg (i + 1)).find?
    fun c => decide (GetContrastRatioR c bg ≥ minR)).getD fg

/-- The set of characters Go's `%x` scanning accepts as digits. -/
def hexDigitChars : List Char :=
  "0123456789abcdefABCDEF".data

/-- Lowercase hexadecimal digits, the output alphabet of `%02x`. -/
def lowerHexDigits : List Char :=
  "0123456789abcdef".data

/-- Specification-side predicate: a syntactically valid lowercase `#rrggbb`
hex color string. -/
def isValidHex (s : String) : Bool :=
  match s.data with
  | '#' :: rest => rest.length == 6 && rest.all fun ch => lowerHexDigits.contains ch
  | _ => false

/-- The 19 role names enumerated by the claim (the claim counts them as 18). -/
def requiredKeys : List String :=
  ["background", "foreground", "selection_background",
   "black", "red", "green", "yellow", "blue", "magenta", "cyan", "white",
   "bright_black", "bright_red", "bright_green", "bright_yellow",
   "bright_blue", "bright_magenta", "bright_cyan", "bright_white"]

/-- The 12 scheme identifiers enumerated by the spec. -/
def twelveIds : List String :=
  ["random", "pastel", "neon", "mono", "warm", "cool", "nature", "cyberpunk",
   "dracula", "nord", "solarized", "gruvbox"]

/-- The identifiers the dispatch actually accepts: the 12 plus the
`"monochrome"` alias of `"mono"`. -/
def acceptedIds : List String :=
  ["random", "pastel", "neon", "mono", "monochrome", "warm", "cool", "nature",
   "cyberpunk", "dracula", "nord", "solarized", "gruvbox"]

/-- Specification-side lowercase normalization of a string. -/
def lowerStr (s : String) : String :=
  ⟨s.data.map Char.toLower⟩

/-- HSL lightness of the color denoted by a hex string (0 when unparsable);
used to state the bright-versus-normal lightness comparisons. -/
def lightnessOfHex (s : String) : ℚ :=
  match HexToRGB s with
  | .ok c => c.ToHSL.L
  | .error _ => 0

/-- The chromatic role names (the eight roles minus black and white). -/
def chromaticRoles : List String :=
  ["red", "green", "yellow", "blue", "magenta", "cyan"]

/-- Claim-side statement: in mapping `m`, for every role in `roles` the bright
variant is at least as light as the base color, up to the `1/255` loss of the
integer hex rendering. -/
def brightPairsOK (m : List (String × String)) (roles : List String) : Prop :=
  ∀ r ∈ roles,
    lightnessOfHex ((findVal? m r).getD "") - 1/255 ≤
      lightnessOfHex ((findVal? m ("bright_" ++ r)).getD "")

/-! ### Basic facts about truncation and `goMod1` -/

theorem ratFloor_eq_intFloor (x : ℚ) : Rat.floor x = ⌊x⌋ := by
  rw [Rat.floor_def', Rat.floor_def]

theorem ratTrunc_of_nonneg {x : ℚ} (h : 0 ≤ x) : ratTrunc x = ⌊x⌋ := by
  rw [ratTrunc, if_neg (not_lt.2 h), ratFloor_eq_intFloor]

theorem ratTrunc_le {x : ℚ} (h : 0 ≤ x) : (ratTrunc x : ℚ) ≤ x := by
  rw [ratTrunc_of_nonneg h]
  exact Int.floor_le x

theorem lt_ratTrunc_add_one {x : ℚ} (h : 0 ≤ x) : x < ratTrunc x + 1 := by
  rw [ratTrunc_of_nonneg h]
  exact Int.lt_floor_add_one x

theorem ratTrunc_nonneg {x : ℚ} (h : 0 ≤ x) : 0 ≤ ratTrunc x := by
  rw [ratTrunc_of_nonneg h]
  exact Int.floor_nonneg.2 h

theorem ratTrunc_le_intCast {x : ℚ} {n : ℤ} (h0 : 0 ≤ x) (h : x ≤ (n : ℚ)) :
    ratTrunc x ≤ n := by
  rw [ratTrunc_of_nonneg h0]
  calc ⌊x⌋ ≤ ⌊(n : ℚ)⌋ := Int.floor_le_floor h
  _ = n := Int.floor_intCast n

theorem ratTrunc_mono {x y : ℚ} (h0 : 0 ≤ x) (h : x ≤ y) :
    ratTrunc x ≤ ratTrunc y := by
  rw [ratTrunc_of_nonneg h0, ratTrunc_of_nonneg (h0.trans h)]
  exact Int.floor_le_floor h

theorem ratTrunc_intCast (n : ℤ) : ratTrunc ((n : ℤ) : ℚ) = n := by
  rcases lt_or_le (n : ℚ) 0 with h | h
  · rw [ratTrunc, if_pos h, ← Int.cast_neg, ratFloor_eq_intFloor, Int.floor_intCast, neg_neg]
  · rw [ratTrunc_of_nonneg h, Int.floor_intCast]

theorem goMod1_bounds {x : ℚ} (h1 : -(1/3) ≤ x) :
    -(1/3) ≤ goMod1 x ∧ goMod1 x < 1 := by
  rcases lt_or_le x 0 with hx | hx
  · have hfl : Rat.floor (-x) = 0 := by
      rw [ratFloor_eq_intFloor]
      rw [Int.floor_eq_zero_iff]
      constructor
      · linarith
      · linarith
    rw [goMod1, ratTrunc, if_pos hx, hfl]
    norm_num
    exact ⟨h1, by linarith⟩
  · have : goMod1 x = Int.fract x := by
      rw [goMod1, ratTrunc_of_nonneg hx, Int.fract]
    rw [this]
    constructor
    · have := Int.fract_nonneg x
      linarith
    · exact Int.fract_lt_one x

/-! ### Branch behaviour of `hue2rgb` -/

theorem hue2rgb_flatq {p q t : ℚ} (h1 : 1/6 ≤ t) (h2 : t ≤ 1/2) :
    hue2rgb p q t = q := by
  rw [hue2rgb]
  simp only [if_neg (not_lt.2 (by linarith : (0:ℚ) ≤ t)),
    if_neg (not_lt.2 (by linarith : t ≤ 1))]
  rw [if_neg (not_lt.2 h1)]
  rcases lt_or_le t (1/2) with h | h
  · rw [if_pos h]
  · have ht : t = 1/2 := le_antisymm h2 h
    subst ht
    norm_num
    ring

theorem hue2rgb_flatp {p q t : ℚ} (h1 : 2/3 ≤ t) (h2 : t ≤ 1) :
    hue2rgb p q t = p := by
  rw [hue2rgb]
  simp only [if_neg (not_lt.2 (by linarith : (0:ℚ) ≤ t)),
    if_neg (not_lt.2 h2)]
  rw [if_neg (not_lt.2 (by linarith : 1/6 ≤ t)),
    if_neg (not_lt.2 (by linarith : 1/2 ≤ t)), if_neg (not_lt.2 h1)]

theorem hue2rgb_rise {p q t : ℚ} (h1 : 0 ≤ t) (h2 : t ≤ 1/6) :
    hue2rgb p q t = p + (q - p) * 6 * t := by
  rw [hue2rgb]
  simp only [if_neg (not_lt.2 h1), if_neg (not_lt.2 (by linarith : t ≤ 1))]
  rcases lt_or_le t (1/6) with h | h
  · rw [if_pos h]
  · have ht : t = 1/6 := le_antisymm h2 h
    subst ht
    norm_num
    ring

theorem hue2rgb_fall {p q t : ℚ} (h1 : 1/2 ≤ t) (h2 : t ≤ 2/3) :
    hue2rgb p q t = p + (q - p) * (2/3 - t) * 6 := by
  rw [hue2rgb]
  simp only [if_neg (not_lt.2 (by linarith : (0:ℚ) ≤ t)),
    if_neg (not_lt.2 (by linarith : t ≤ 1))]
  rw [if_neg (not_lt.2 (by linarith : 1/6 ≤ t))]
  rcases lt_or_le t (1/2) with h | h
  · linarith
  · rw [if_neg (not_lt.2 h)]
    rcases lt_or_le t (2/3) with h3 | h3
    · rw [if_pos h3]
    · have ht : t = 2/3 := le_antisymm h2 h3
      subst ht
      norm_num

theorem hue2rgb_wrap_neg {p q t : ℚ} (h1 : -1 ≤ t) (h2 : t < 0) :
    hue2rgb p q t = hue2rgb p q (t + 1) := by
  rw [hue2rgb, hue2rgb]
  simp only [if_pos h2, if_neg (not_lt.2 (by linarith : (0:ℚ) ≤ t + 1)),
    if_neg (not_lt.2 (by linarith : t + 1 ≤ 1))]

theorem hue2rgb_wrap_gt {p q t : ℚ} (h1 : 1 < t) (h2 : t ≤ 2) :
    hue2rgb p q t = hue2rgb p q (t - 1) := by
  rw [hue2rgb, hue2rgb]
  simp only [if_neg (not_lt.2 (by linarith : (0:ℚ) ≤ t)), if_pos h1,
    if_neg (not_lt.2 (by linarith : (0:ℚ) ≤ t - 1)),
    if_neg (not_lt.2 (by linarith : t - 1 ≤ 1))]

theorem hue2rgb_between {p q t : ℚ} (hp : p ≤ q) (h1 : -1 ≤ t) (h2 : t ≤ 2) :
    p ≤ hue2rgb p q t ∧ hue2rgb p q t ≤ q := by
  rw [hue2rgb]
  set t1 := if t < 0 then t + 1 else t with ht1
  have ht1b : 0 ≤ t1 ∧ t1 ≤ 2 := by
    rw [ht1]
    split_ifs with h
    · constructor <;> linarith
    · constructor <;> linarith [not_lt.1 h]
  set t2 := if t1 > 1 then t1 - 1 else t1 with ht2
  have ht2b : 0 ≤ t2 := by
    rw [ht2]
    split_ifs with h
    · linarith [ht1b.1, ht1b.2]
    · exact ht1b.1
  split_ifs with hA hB hC
  · constructor <;> nlinarith
  · exact ⟨hp, le_refl q⟩
  · constructor <;> nlinarith [not_lt.1 hB]
  · exact ⟨le_refl p, hp⟩

/-! ### Channel ranges of the converters -/

theorem pq_bounds {s l : ℚ} (hs1 : 0 < s) (hs2 : s ≤ 1) (hl1 : 0 ≤ l) (hl2 : l ≤ 1) :
    0 ≤ 2 * l - (if l < 1/2 then l * (1 + s) else l + s - l * s) ∧
      2 * l - (if l < 1/2 then l * (1 + s) else l + s - l * s) ≤
        (if l < 1/2 then l * (1 + s) else l + s - l * s) ∧
      (if l < 1/2 then l * (1 + s) else l + s - l * s) ≤ 1 := by
  split_ifs with h
  · refine ⟨by nlinarith, by nlinarith, by nlinarith⟩
  · have h' : 1/2 ≤ l := not_lt.1 h
    refine ⟨by nlinarith, by nlinarith, by nlinarith⟩

theorem ToRGB_bounds {h s l : ℚ} (hh1 : -(1/3) ≤ h) (hh2 : h ≤ 1)
    (hs1 : 0 ≤ s) (hs2 : s ≤ 1) (hl1 : 0 ≤ l) (hl2 : l ≤ 1) :
    (0 ≤ ((HSL.mk h s l).ToRGB).R ∧ ((HSL.mk h s l).ToRGB).R ≤ 255) ∧
      (0 ≤ ((HSL.mk h s l).ToRGB).G ∧ ((HSL.mk h s l).ToRGB).G ≤ 255) ∧
      (0 ≤ ((HSL.mk h s l).ToRGB).B ∧ ((HSL.mk h s l).ToRGB).B ≤ 255) := by
  have channel : ∀ v : ℚ, 0 ≤ v → v ≤ 1 → 0 ≤ ratTrunc (v * 255) ∧ ratTrunc (v * 255) ≤ 255 := by
    intro v h0 h1
    constructor
    · exact ratTrunc_nonneg (by nlinarith)
    · exact ratTrunc_le_intCast (by nlinarith) (by push_cast; nlinarith)
  rw [HSL.ToRGB]
  rcases eq_or_ne s 0 with hs | hs
  · subst hs
    simp only [if_pos rfl]
    exact ⟨channel l hl1 hl2, channel l hl1 hl2, channel l hl1 hl2⟩
  · rw [if_neg hs]
    have hs0 : 0 < s := lt_of_le_of_ne hs1 (Ne.symm hs)
    obtain ⟨hp0, hpq, hq1⟩ := pq_bounds hs0 hs2 hl1 hl2
    set q := if l < 1/2 then l * (1 + s) else l + s - l * s with hqdef
    set p := 2 * l - q with hpdef
    have hval : ∀ t : ℚ, -1 ≤ t → t ≤ 2 →
        0 ≤ ratTrunc (hue2rgb p q t * 255) ∧ ratTrunc (hue2rgb p q t * 255) ≤ 255 := by
      intro t ht1 ht2
      obtain ⟨hv1, hv2⟩ := hue2rgb_between hpq ht1 ht2
      exact channel _ (hp0.trans hv1) (hv2.trans hq1)
    exact ⟨hval (h + 1/3) (by linarith) (by linarith),
      hval h (by linarith) (by linarith),
      hval (h - 1/3) (by linarith) (by linarith)⟩

/-! ### Validity of the hex rendering -/

theorem hexDigitChar_mem {n : ℕ} (h : n < 16) :
    lowerHexDigits.contains (hexDigitChar n) = true := by
  interval_cases n <;> decide

theorem hexByte_data (n : ℤ) :
    (hexByte n).data = [hexDigitChar (n.toNat / 16 % 16), hexDigitChar (n.toNat % 16)] := rfl

theorem isValidHex_ToHex (c : RGB) (hR1 : 0 ≤ c.R) (hR2 : c.R ≤ 255)
    (hG1 : 0 ≤ c.G) (hG2 : c.G ≤ 255) (hB1 : 0 ≤ c.B) (hB2 : c.B ≤ 255) :
    isValidHex c.ToHex = true := by
  have hall : ∀ n : ℤ, ((hexByte n).data.all fun ch => lowerHexDigits.contains ch) = true := by
    intro n
    rw [hexByte_data]
    simp only [List.all_cons, List.all_nil, Bool.and_true]
    rw [hexDigitChar_mem (Nat.mod_lt _ (by norm_num)),
      hexDigitChar_mem (Nat.mod_lt _ (by norm_num))]
    rfl
  have hdata : (RGB.ToHex c).data =
      '#' :: ((hexByte c.R).data ++ (hexByte c.G).data ++ (hexByte c.B).data) := by
    rw [RGB.ToHex]
    simp [String.data_append]
  have hmod : ∀ m : ℕ, lowerHexDigits.contains (hexDigitChar (m % 16)) = true := by
    intro m
    exact hexDigitChar_mem (Nat.mod_lt _ (by norm_num))
  rw [isValidHex, hdata]
  simp only [List.length_append, List.all_append, hexByte_data, List.length_cons,
    List.length_nil, List.all_cons, List.all_nil, Bool.and_true, hmod]
  rfl

theorem validHex_ofHSL {h s l : ℚ} (hh1 : -(1/3) ≤ h) (hh2 : h ≤ 1)
    (hs1 : 0 ≤ s) (hs2 : s ≤ 1) (hl1 : 0 ≤ l) (hl2 : l ≤ 1) :
    isValidHex ((HSL.mk h s l).ToRGB).ToHex = true := by
  obtain ⟨⟨a1, a2⟩, ⟨b1, b2⟩, ⟨c1, c2⟩⟩ := ToRGB_bounds hh1 hh2 hs1 hs2 hl1 hl2
  exact isValidHex_ToHex _ a1 a2 b1 b2 c1 c2


/-! ### Output ranges of `RGB.ToHSL` -/

theorem ToHSL_bounds (c : RGB) (hR1 : 0 ≤ c.R) (hR2 : c.R ≤ 255)
    (hG1 : 0 ≤ c.G) (hG2 : c.G ≤ 255) (hB1 : 0 ≤ c.B) (hB2 : c.B ≤ 255) :
    (0 ≤ c.ToHSL.H ∧ c.ToHSL.H < 1) ∧ (0 ≤ c.ToHSL.S ∧ c.ToHSL.S ≤ 1) ∧
      (0 ≤ c.ToHSL.L ∧ c.ToHSL.L ≤ 1) := by
  rw [RGB.ToHSL]
  simp only
  set r : ℚ := (c.R : ℚ) / 255 with hr
  set g : ℚ := (c.G : ℚ) / 255 with hg
  set b : ℚ := (c.B : ℚ) / 255 with hb
  have hr1 : 0 ≤ r := by rw [hr]; positivity
  have hr2 : r ≤ 1 := by rw [hr, div_le_one (by norm_num)]; exact_mod_cast hR2
  have hg1 : 0 ≤ g := by rw [hg]; positivity
  have hg2 : g ≤ 1 := by rw [hg, div_le_one (by norm_num)]; exact_mod_cast hG2
  have hb1 : 0 ≤ b := by rw [hb]; positivity
  have hb2 : b ≤ 1 := by rw [hb, div_le_one (by norm_num)]; exact_mod_cast hB2
  have hmx1 : max (max r g) b ≤ 1 := max_le (max_le hr2 hg2) hb2
  have hmn0 : 0 ≤ min (min r g) b := le_min (le_min hr1 hg1) hb1
  have hrmx : r ≤ max (max r g) b := le_trans (le_max_left _ _) (le_max_left _ _)
  have hgmx : g ≤ max (max r g) b := le_trans (le_max_right _ _) (le_max_left _ _)
  have hbmx : b ≤ max (max r g) b := le_max_right _ _
  have hrmn : min (min r g) b ≤ r := le_trans (min_le_left _ _) (min_le_left _ _)
  have hgmn : min (min r g) b ≤ g := le_trans (min_le_left _ _) (min_le_right _ _)
  have hbmn : min (min r g) b ≤ b := min_le_right _ _
  set mx := max (max r g) b
  set mn := min (min r g) b
  rcases eq_or_ne mx mn with heq | hne
  · rw [if_pos heq]
    exact ⟨⟨le_refl 0, by norm_num⟩, ⟨le_refl 0, by norm_num⟩, by constructor <;> linarith⟩
  · rw [if_neg hne]
    have hlt : mn < mx := lt_of_le_of_ne (le_trans hrmn hrmx) fun hc => hne hc.symm
    have hd : (0:ℚ) < mx - mn := by linarith
    have h6pos : (0:ℚ) < 6 := by norm_num
    refine ⟨?_, ?_, by constructor <;> linarith⟩
    · simp only
      by_cases hxr : mx = r
      · rw [if_pos hxr]
        by_cases hgb : g < b
        · rw [if_pos hgb]
          have hE1 : -1 ≤ (g - b) / (mx - mn) := by rw [le_div_iff hd]; linarith
          have hE2 : (g - b) / (mx - mn) < 0 :=
            div_neg_of_neg_of_pos (by linarith) hd
          constructor
          · rw [le_div_iff h6pos]
            linarith
          · rw [div_lt_one h6pos]
            linarith
        · rw [if_neg hgb]
          have hE1 : 0 ≤ (g - b) / (mx - mn) :=
            div_nonneg (by linarith [not_lt.1 hgb]) (le_of_lt hd)
          have hE2 : (g - b) / (mx - mn) ≤ 1 := by rw [div_le_one hd]; linarith
          constructor
          · rw [le_div_iff h6pos]
            linarith
          · rw [div_lt_one h6pos]
            linarith
      · rw [if_neg hxr]
        by_cases hxg : mx = g
        · rw [if_pos hxg]
          have hE1 : -1 ≤ (b - r) / (mx - mn) := by rw [le_div_iff hd]; linarith
          have hE2 : (b - r) / (mx - mn) ≤ 1 := by rw [div_le_one hd]; linarith
          constructor
          · rw [le_div_iff h6pos]
            linarith
          · rw [div_lt_one h6pos]
            linarith
        · rw [if_neg hxg]
          have hE1 : -1 ≤ (r - g) / (mx - mn) := by rw [le_div_iff hd]; linarith
          have hE2 : (r - g) / (mx - mn) ≤ 1 := by rw [div_le_one hd]; linarith
          constructor
          · rw [le_div_iff h6pos]
            linarith
          · rw [div_lt_one h6pos]
            linarith
    · simp only
      split_ifs with hlgt
      · exact ⟨div_nonneg (by linarith) (by linarith), by rw [div_le_one (by linarith)]; linarith⟩
      · have hmxpos : 0 < mx + mn := by linarith
        exact ⟨div_nonneg (by linarith) (by linarith), by rw [div_le_one hmxpos]; linarith⟩

/-! ### The lightness of a converted color -/

theorem ToHSL_L (c : RGB) :
    c.ToHSL.L = (max (max ((c.R : ℚ)/255) ((c.G : ℚ)/255)) ((c.B : ℚ)/255) +
      min (min ((c.R : ℚ)/255) ((c.G : ℚ)/255)) ((c.B : ℚ)/255)) / 2 := by
  rw [RGB.ToHSL]
  split_ifs <;> rfl

theorem truncDiv_window {x : ℚ} (h0 : 0 ≤ x) :
    x - 1/255 < (ratTrunc (x * 255) : ℚ) / 255 ∧ (ratTrunc (x * 255) : ℚ) / 255 ≤ x := by
  have hx : (0:ℚ) ≤ x * 255 := by nlinarith
  have h1 := ratTrunc_le hx
  have h2 := lt_ratTrunc_add_one hx
  constructor
  · rw [lt_div_iff (by norm_num : (0:ℚ) < 255)]
    linarith
  · rw [div_le_iff (by norm_num : (0:ℚ) < 255)]
    linarith

theorem truncDiv_mono {x y : ℚ} (h0 : 0 ≤ x) (h : x ≤ y) :
    (ratTrunc (x * 255) : ℚ) / 255 ≤ (ratTrunc (y * 255) : ℚ) / 255 := by
  have := ratTrunc_mono (by nlinarith : (0:ℚ) ≤ x * 255) (by nlinarith : x * 255 ≤ y * 255)
  rw [div_le_div_iff (by norm_num : (0:ℚ) < 255) (by norm_num : (0:ℚ) < 255)]
  exact_mod_cast mul_le_mul_of_nonneg_right this (by norm_num)

theorem ToRGB_L_window {h s l : ℚ} (hh1 : -(1/3) ≤ h) (hh2 : h < 1)
    (hs1 : 0 ≤ s) (hs2 : s ≤ 1) (hl1 : 0 ≤ l) (hl2 : l ≤ 1) :
    l - 1/255 < ((HSL.mk h s l).ToRGB).ToHSL.L ∧ ((HSL.mk h s l).ToRGB).ToHSL.L ≤ l := by
  rcases eq_or_ne s 0 with hs | hs
  · subst hs
    have hgoal : ((HSL.mk h 0 l).ToRGB).ToHSL.L = (ratTrunc (l * 255) : ℚ) / 255 := by
      rw [HSL.ToRGB, if_pos rfl, ToHSL_L]
      simp only [max_self, min_self]
      ring
    rw [hgoal]
    exact truncDiv_window hl1
  · have hs0 : 0 < s := lt_of_le_of_ne hs1 (Ne.symm hs)
    obtain ⟨hp0, hpq, hq1⟩ := pq_bounds hs0 hs2 hl1 hl2
    set q := if l < 1/2 then l * (1 + s) else l + s - l * s with hqdef
    set p := 2 * l - q with hpdef
    have hpql : p + q = 2 * l := by rw [hpdef]; ring
    set vr := hue2rgb p q (h + 1/3) with hvr
    set vg := hue2rgb p q h with hvg
    set vb := hue2rgb p q (h - 1/3) with hvb
    have hrB := hue2rgb_between hpq (by linarith : (-1:ℚ) ≤ h + 1/3) (by linarith : h + 1/3 ≤ 2)
    have hgB := hue2rgb_between hpq (by linarith : (-1:ℚ) ≤ h) (by linarith : h ≤ 2)
    have hbB := hue2rgb_between hpq (by linarith : (-1:ℚ) ≤ h - 1/3) (by linarith : h - 1/3 ≤ 2)
    have hattq : vr = q ∨ vg = q ∨ vb = q := by
      rcases le_or_lt h (-(1/6)) with hc | hc
      · right; right
        rw [hvb, hue2rgb_wrap_neg (by linarith) (by linarith)]
        exact hue2rgb_flatq (by linarith) (by linarith)
      · rcases le_or_lt h (1/6) with hc2 | hc2
        · left
          rw [hvr]
          exact hue2rgb_flatq (by linarith) (by linarith)
        · rcases le_or_lt h (1/2) with hc3 | hc3
          · right; left
            rw [hvg]
            exact hue2rgb_flatq (by linarith) (by linarith)
          · rcases le_or_lt h (5/6) with hc4 | hc4
            · right; right
              rw [hvb]
              exact hue2rgb_flatq (by linarith) (by linarith)
            · left
              rw [hvr, hue2rgb_wrap_gt (by linarith) (by linarith)]
              exact hue2rgb_flatq (by linarith) (by linarith)
    have hattp : vr = p ∨ vg = p ∨ vb = p := by
      rcases lt_or_le h 0 with hc | hc
      · right; left
        rw [hvg, hue2rgb_wrap_neg (by linarith) hc]
        exact hue2rgb_flatp (by linarith) (by linarith)
      · rcases lt_or_le h (1/3) with hc2 | hc2
        · right; right
          rw [hvb, hue2rgb_wrap_neg (by linarith) (by linarith)]
          exact hue2rgb_flatp (by linarith) (by linarith)
        · rcases le_or_lt h (2/3) with hc3 | hc3
          · left
            rw [hvr]
            exact hue2rgb_flatp (by linarith) (by linarith)
          · right; left
            rw [hvg]
            exact hue2rgb_flatp (by linarith) (by linarith)
    have hL : ((HSL.mk h s l).ToRGB).ToHSL.L =
        (max (max ((ratTrunc (vr * 255) : ℚ)/255) ((ratTrunc (vg * 255) : ℚ)/255))
            ((ratTrunc (vb * 255) : ℚ)/255) +
          min (min ((ratTrunc (vr * 255) : ℚ)/255) ((ratTrunc (vg * 255) : ℚ)/255))
            ((ratTrunc (vb * 255) : ℚ)/255)) / 2 := by
      rw [HSL.ToRGB, if_neg hs, ToHSL_L]
    have hrv0 : 0 ≤ vr := le_trans hp0 hrB.1
    have hgv0 : 0 ≤ vg := le_trans hp0 hgB.1
    have hbv0 : 0 ≤ vb := le_trans hp0 hbB.1
    have hmaxq : max (max ((ratTrunc (vr * 255) : ℚ)/255) ((ratTrunc (vg * 255) : ℚ)/255))
        ((ratTrunc (vb * 255) : ℚ)/255) = (ratTrunc (q * 255) : ℚ)/255 := by
      apply le_antisymm
      · exact max_le (max_le (truncDiv_mono hrv0 hrB.2) (truncDiv_mono hgv0 hgB.2))
          (truncDiv_mono hbv0 hbB.2)
      · rcases hattq with hq | hq | hq
        · rw [← hq]
          exact le_trans (le_max_left _ _) (le_max_left _ _)
        · rw [← hq]
          exact le_trans (le_max_right _ _) (le_max_left _ _)
        · rw [← hq]
          exact le_max_right _ _
    have hminp : min (min ((ratTrunc (vr * 255) : ℚ)/255) ((ratTrunc (vg * 255) : ℚ)/255))
        ((ratTrunc (vb * 255) : ℚ)/255) = (ratTrunc (p * 255) : ℚ)/255 := by
      apply le_antisymm
      · rcases hattp with hp | hp | hp
        · rw [← hp]
          exact le_trans (min_le_left _ _) (min_le_left _ _)
        · rw [← hp]
          exact le_trans (min_le_left _ _) (min_le_right _ _)
        · rw [← hp]
          exact min_le_right _ _
      · exact le_min (le_min (truncDiv_mono hp0 hrB.1) (truncDiv_mono hp0 hgB.1))
          (truncDiv_mono hp0 hbB.1)
    rw [hL, hmaxq, hminp]
    obtain ⟨hqw1, hqw2⟩ := truncDiv_window (le_trans hp0 hpq)
    obtain ⟨hpw1, hpw2⟩ := truncDiv_window hp0
    constructor
    · rw [lt_div_iff (by norm_num : (0:ℚ) < 2)]
      nlinarith
    · rw [div_le_iff (by norm_num : (0:ℚ) < 2)]
      nlinarith

/-! ### Exact round trip `HSLtoRGB ∘ RGBtoHSL` -/

theorem qp_recover {mx mn l s : ℚ} (h0 : 0 ≤ mn) (hlt : mn < mx) (hmx1 : mx ≤ 1)
    (hl : l = (mx + mn) / 2)
    (hs : s = if l > 1/2 then (mx - mn) / (2 - mx - mn) else (mx - mn) / (mx + mn)) :
    0 < s ∧ (if l < 1/2 then l * (1 + s) else l + s - l * s) = mx := by
  have hden1 : 0 < 2 - mx - mn := by linarith
  have hden2 : 0 < mx + mn := by linarith
  have hd : 0 < mx - mn := by linarith
  constructor
  · rw [hs]
    split_ifs
    · exact div_pos hd hden1
    · exact div_pos hd hden2
  · rcases lt_trichotomy l (1/2) with hc | hc | hc
    · rw [if_pos hc]
      have hsv : s = (mx - mn) / (mx + mn) := by
        rw [hs, if_neg (by linarith : ¬l > 1/2)]
      rw [hsv, hl]
      field_simp
      ring
    · rw [if_neg (by linarith : ¬l < 1/2)]
      have hsv : s = (mx - mn) / (mx + mn) := by
        rw [hs, if_neg (by linarith : ¬l > 1/2)]
      have hsum : mx + mn = 1 := by
        rw [hl] at hc
        linarith
      rw [hsv, hsum, hl, hsum]
      norm_num
      linarith
    · rw [if_neg (by linarith : ¬l < 1/2)]
      have hsv : s = (mx - mn) / (2 - mx - mn) := by rw [hs, if_pos hc]
      rw [hsv, hl]
      field_simp
      ring

theorem chan_exact (x : ℤ) : ratTrunc ((x : ℚ) / 255 * 255) = x := by
  have hx : ((x : ℚ) / 255) * 255 = (x : ℚ) := by field_simp
  rw [hx, ratTrunc_intCast]

theorem hue_case_rmax_ge {mn mx ng nb : ℚ} (hd : 0 < mx - mn) (hgb : nb ≤ ng)
    (hmnb : mn = nb) (hg1 : mn ≤ ng) (hg2 : ng ≤ mx) (hb1 : mn ≤ nb) (hb2 : nb ≤ mx) :
    hue2rgb mn mx ((ng - nb) / (mx - mn) / 6 + 1/3) = mx ∧
      hue2rgb mn mx ((ng - nb) / (mx - mn) / 6) = ng ∧
      hue2rgb mn mx ((ng - nb) / (mx - mn) / 6 - 1/3) = nb := by
  have hE1 : 0 ≤ (ng - nb) / (mx - mn) := div_nonneg (by linarith) (le_of_lt hd)
  have hE2 : (ng - nb) / (mx - mn) ≤ 1 := by rw [div_le_one hd]; linarith
  have hcan : (mx - mn) * ((ng - nb) / (mx - mn)) = ng - nb := by
    rw [mul_comm, div_mul_cancel₀ _ (ne_of_gt hd)]
  refine ⟨?_, ?_, ?_⟩
  · exact hue2rgb_flatq (by linarith) (by linarith)
  · rw [hue2rgb_rise (by linarith) (by linarith)]
    rw [show mn + (mx - mn) * 6 * ((ng - nb) / (mx - mn) / 6) =
      mn + (mx - mn) * ((ng - nb) / (mx - mn)) by ring]
    rw [hcan, hmnb]
    ring
  · rw [hue2rgb_wrap_neg (by linarith) (by linarith)]
    rw [show (ng - nb) / (mx - mn) / 6 - 1/3 + 1 = (ng - nb) / (mx - mn) / 6 + 2/3 by ring]
    rw [hue2rgb_flatp (by linarith) (by linarith), hmnb]

theorem hue_case_rmax_lt {mn mx ng nb : ℚ} (hd : 0 < mx - mn) (hgb : ng < nb)
    (hmng : mn = ng) (hg1 : mn ≤ ng) (hg2 : ng ≤ mx) (hb1 : mn ≤ nb) (hb2 : nb ≤ mx) :
    hue2rgb mn mx (((ng - nb) / (mx - mn) + 6) / 6 + 1/3) = mx ∧
      hue2rgb mn mx (((ng - nb) / (mx - mn) + 6) / 6) = ng ∧
      hue2rgb mn mx (((ng - nb) / (mx - mn) + 6) / 6 - 1/3) = nb := by
  have hE1 : -1 ≤ (ng - nb) / (mx - mn) := by rw [le_div_iff hd]; linarith
  have hE2 : (ng - nb) / (mx - mn) < 0 := div_neg_of_neg_of_pos (by linarith) hd
  have hcan : (mx - mn) * ((ng - nb) / (mx - mn)) = ng - nb := by
    rw [mul_comm, div_mul_cancel₀ _ (ne_of_gt hd)]
  refine ⟨?_, ?_, ?_⟩
  · rw [hue2rgb_wrap_gt (by linarith) (by linarith)]
    rw [show ((ng - nb) / (mx - mn) + 6) / 6 + 1/3 - 1 = (ng - nb) / (mx - mn) / 6 + 1/3
      by ring]
    exact hue2rgb_flatq (by linarith) (by linarith)
  · rw [hue2rgb_flatp (by linarith) (by linarith), hmng]
  · rw [hue2rgb_fall (by linarith) (by linarith)]
    rw [show mn + (mx - mn) * (2/3 - (((ng - nb) / (mx - mn) + 6) / 6 - 1/3)) * 6 =
      mn - (mx - mn) * ((ng - nb) / (mx - mn)) by ring]
    rw [hcan, hmng]
    ring

theorem hue_case_gmax_rle {mn mx nr nb : ℚ} (hd : 0 < mx - mn) (hrb : nr ≤ nb)
    (hmnr : mn = nr) (hr1 : mn ≤ nr) (hr2 : nr ≤ mx) (hb1 : mn ≤ nb) (hb2 : nb ≤ mx) :
    hue2rgb mn mx (((nb - nr) / (mx - mn) + 2) / 6 + 1/3) = nr ∧
      hue2rgb mn mx (((nb - nr) / (mx - mn) + 2) / 6) = mx ∧
      hue2rgb mn mx (((nb - nr) / (mx - mn) + 2) / 6 - 1/3) = nb := by
  have hE1 : 0 ≤ (nb - nr) / (mx - mn) := div_nonneg (by linarith) (le_of_lt hd)
  have hE2 : (nb - nr) / (mx - mn) ≤ 1 := by rw [div_le_one hd]; linarith
  have hcan : (mx - mn) * ((nb - nr) / (mx - mn)) = nb - nr := by
    rw [mul_comm, div_mul_cancel₀ _ (ne_of_gt hd)]
  refine ⟨?_, ?_, ?_⟩
  · rw [hue2rgb_flatp (by linarith) (by linarith), hmnr]
  · exact hue2rgb_flatq (by linarith) (by linarith)
  · rw [show ((nb - nr) / (mx - mn) + 2) / 6 - 1/3 = (nb - nr) / (mx - mn) / 6 by ring]
    rw [hue2rgb_rise (by linarith) (by linarith)]
    rw [show mn + (mx - mn) * 6 * ((nb - nr) / (mx - mn) / 6) =
      mn + (mx - mn) * ((nb - nr) / (mx - mn)) by ring]
    rw [hcan, hmnr]
    ring

theorem hue_case_gmax_rgt {mn mx nr nb : ℚ} (hd : 0 < mx - mn) (hrb : nb < nr)
    (hmnb : mn = nb) (hr1 : mn ≤ nr) (hr2 : nr ≤ mx) (hb1 : mn ≤ nb) (hb2 : nb ≤ mx) :
    hue2rgb mn mx (((nb - nr) / (mx - mn) + 2) / 6 + 1/3) = nr ∧
      hue2rgb mn mx (((nb - nr) / (mx - mn) + 2) / 6) = mx ∧
      hue2rgb mn mx (((nb - nr) / (mx - mn) + 2) / 6 - 1/3) = nb := by
  have hE1 : -1 ≤ (nb - nr) / (mx - mn) := by rw [le_div_iff hd]; linarith
  have hE2 : (nb - nr) / (mx - mn) < 0 := div_neg_of_neg_of_pos (by linarith) hd
  have hcan : (mx - mn) * ((nb - nr) / (mx - mn)) = nb - nr := by
    rw [mul_comm, div_mul_cancel₀ _ (ne_of_gt hd)]
  refine ⟨?_, ?_, ?_⟩
  · rw [hue2rgb_fall (by linarith) (by linarith)]
    rw [show mn + (mx - mn) * (2/3 - (((nb - nr) / (mx - mn) + 2) / 6 + 1/3)) * 6 =
      mn - (mx - mn) * ((nb - nr) / (mx - mn)) by ring]
    rw [hcan, hmnb]
    ring
  · exact hue2rgb_flatq (by linarith) (by linarith)
  · rw [hue2rgb_wrap_neg (by linarith) (by linarith)]
    rw [show ((nb - nr) / (mx - mn) + 2) / 6 - 1/3 + 1 =
      (nb - nr) / (mx - mn) / 6 + 1 by ring]
    rw [hue2rgb_flatp (by linarith) (by linarith), hmnb]

theorem hue_case_bmax_rle {mn mx nr ng : ℚ} (hd : 0 < mx - mn) (hrg : nr ≤ ng)
    (hmnr : mn = nr) (hr1 : mn ≤ nr) (hr2 : nr ≤ mx) (hg1 : mn ≤ ng) (hg2 : ng ≤ mx) :
    hue2rgb mn mx (((nr - ng) / (mx - mn) + 4) / 6 + 1/3) = nr ∧
      hue2rgb mn mx (((nr - ng) / (mx - mn) + 4) / 6) = ng ∧
      hue2rgb mn mx (((nr - ng) / (mx - mn) + 4) / 6 - 1/3) = mx := by
  have hE1 : -1 ≤ (nr - ng) / (mx - mn) := by rw [le_div_iff hd]; linarith
  have hE2 : (nr - ng) / (mx - mn) ≤ 0 :=
    div_nonpos_of_nonpos_of_nonneg (by linarith) (le_of_lt hd)
  have hcan : (mx - mn) * ((nr - ng) / (mx - mn)) = nr - ng := by
    rw [mul_comm, div_mul_cancel₀ _ (ne_of_gt hd)]
  refine ⟨?_, ?_, ?_⟩
  · rw [hue2rgb_flatp (by linarith) (by linarith), hmnr]
  · rw [hue2rgb_fall (by linarith) (by linarith)]
    rw [show mn + (mx - mn) * (2/3 - ((nr - ng) / (mx - mn) + 4) / 6) * 6 =
      mn - (mx - mn) * ((nr - ng) / (mx - mn)) by ring]
    rw [hcan, hmnr]
    ring
  · exact hue2rgb_flatq (by linarith) (by linarith)

theorem hue_case_bmax_rgt {mn mx nr ng : ℚ} (hd : 0 < mx - mn) (hrg : ng < nr)
    (hmng : mn = ng) (hr1 : mn ≤ nr) (hr2 : nr ≤ mx) (hg1 : mn ≤ ng) (hg2 : ng ≤ mx) :
    hue2rgb mn mx (((nr - ng) / (mx - mn) + 4) / 6 + 1/3) = nr ∧
      hue2rgb mn mx (((nr - ng) / (mx - mn) + 4) / 6) = ng ∧
      hue2rgb mn mx (((nr - ng) / (mx - mn) + 4) / 6 - 1/3) = mx := by
  have hE1 : 0 < (nr - ng) / (mx - mn) := div_pos (by linarith) hd
  have hE2 : (nr - ng) / (mx - mn) ≤ 1 := by rw [div_le_one hd]; linarith
  have hcan : (mx - mn) * ((nr - ng) / (mx - mn)) = nr - ng := by
    rw [mul_comm, div_mul_cancel₀ _ (ne_of_gt hd)]
  refine ⟨?_, ?_, ?_⟩
  · rw [hue2rgb_wrap_gt (by linarith) (by linarith)]
    rw [show ((nr - ng) / (mx - mn) + 4) / 6 + 1/3 - 1 = (nr - ng) / (mx - mn) / 6 by ring]
    rw [hue2rgb_rise (by linarith) (by linarith)]
    rw [show mn + (mx - mn) * 6 * ((nr - ng) / (mx - mn) / 6) =
      mn + (mx - mn) * ((nr - ng) / (mx - mn)) by ring]
    rw [hcan, hmng]
    ring
  · rw [hue2rgb_flatp (by linarith) (by linarith), hmng]
  · exact hue2rgb_flatq (by linarith) (by linarith)

theorem ToHSL_ToRGB_exact (c : RGB) (hR1 : 0 ≤ c.R) (hR2 : c.R ≤ 255)
    (hG1 : 0 ≤ c.G) (hG2 : c.G ≤ 255) (hB1 : 0 ≤ c.B) (hB2 : c.B ≤ 255) :
    (c.ToHSL).ToRGB = c := by
  obtain ⟨cr, cg, cb⟩ := c
  simp only at hR1 hR2 hG1 hG2 hB1 hB2
  rw [RGB.ToHSL]
  simp only
  set nr : ℚ := ((cr : ℚ)) / 255 with hnr
  set ng : ℚ := ((cg : ℚ)) / 255 with hng
  set nb : ℚ := ((cb : ℚ)) / 255 with hnb
  have hrmx : nr ≤ max (max nr ng) nb := le_trans (le_max_left _ _) (le_max_left _ _)
  have hgmx : ng ≤ max (max nr ng) nb := le_trans (le_max_right _ _) (le_max_left _ _)
  have hbmx : nb ≤ max (max nr ng) nb := le_max_right _ _
  have hrmn : min (min nr ng) nb ≤ nr := le_trans (min_le_left _ _) (min_le_left _ _)
  have hgmn : min (min nr ng) nb ≤ ng := le_trans (min_le_left _ _) (min_le_right _ _)
  have hbmn : min (min nr ng) nb ≤ nb := min_le_right _ _
  have hr1 : 0 ≤ nr := by rw [hnr]; positivity
  have hr2 : nr ≤ 1 := by rw [hnr, div_le_one (by norm_num)]; exact_mod_cast hR2
  have hg1 : 0 ≤ ng := by rw [hng]; positivity
  have hg2 : ng ≤ 1 := by rw [hng, div_le_one (by norm_num)]; exact_mod_cast hG2
  have hb1 : 0 ≤ nb := by rw [hnb]; positivity
  have hb2 : nb ≤ 1 := by rw [hnb, div_le_one (by norm_num)]; exact_mod_cast hB2
  have hmx1 : max (max nr ng) nb ≤ 1 := max_le (max_le hr2 hg2) hb2
  have hmn0 : 0 ≤ min (min nr ng) nb := le_min (le_min hr1 hg1) hb1
  set mx := max (max nr ng) nb with hmx
  set mn := min (min nr ng) nb with hmn
  rcases eq_or_ne mx mn with heq | hne
  · rw [if_pos heq]
    have her : nr = mn := le_antisymm (heq ▸ hrmx) hrmn
    have heg : ng = mn := le_antisymm (heq ▸ hgmx) hgmn
    have heb : nb = mn := le_antisymm (heq ▸ hbmx) hbmn
    rw [HSL.ToRGB]
    rw [if_pos rfl]
    have hl : (mx + mn) / 2 = mn := by rw [heq]; ring
    simp only [hl]
    have hch : ∀ x : ℤ, ((x : ℚ)) / 255 = mn → ratTrunc (mn * 255) = x := by
      intro x hx
      rw [← hx]
      exact chan_exact x
    rw [RGB.mk.injEq]
    exact ⟨hch cr her, hch cg heg, hch cb heb⟩
  · rw [if_neg hne]
    have hlt : mn < mx := lt_of_le_of_ne (le_trans hrmn hrmx) fun hc => hne hc.symm
    have hd : (0:ℚ) < mx - mn := by linarith
    obtain ⟨hs_pos, hq_eq⟩ := qp_recover hmn0 hlt hmx1 rfl rfl
    rw [HSL.ToRGB]
    rw [if_neg (by simp only; exact ne_of_gt hs_pos)]
    simp only
    rw [hq_eq]
    rw [show 2 * ((mx + mn) / 2) - mx = mn by ring]
    by_cases hxr : mx = nr
    · rw [if_pos hxr]
      by_cases hgb : ng < nb
      · rw [if_pos hgb]
        have hmng : mn = ng := by
          rw [hmn, min_eq_right (show ng ≤ nr by rw [← hxr]; exact hgmx),
            min_eq_left (le_of_lt hgb)]
        obtain ⟨e1, e2, e3⟩ := hue_case_rmax_lt hd hgb hmng hgmn hgmx hbmn hbmx
        rw [RGB.mk.injEq]
        refine ⟨?_, ?_, ?_⟩
        · rw [e1, hxr, hnr]
          exact chan_exact cr
        · rw [e2, hng]
          exact chan_exact cg
        · rw [e3, hnb]
          exact chan_exact cb
      · rw [if_neg hgb]
        have hmnb : mn = nb := by
          rw [hmn, min_eq_right]
          apply le_min
          · rw [← hxr]
            exact hbmx
          · exact not_lt.1 hgb
        obtain ⟨e1, e2, e3⟩ := hue_case_rmax_ge hd (not_lt.1 hgb) hmnb hgmn hgmx hbmn hbmx
        rw [RGB.mk.injEq]
        refine ⟨?_, ?_, ?_⟩
        · rw [e1, hxr, hnr]
          exact chan_exact cr
        · rw [e2, hng]
          exact chan_exact cg
        · rw [e3, hnb]
          exact chan_exact cb
    · rw [if_neg hxr]
      have hrlt : nr < mx := lt_of_le_of_ne hrmx fun hc => hxr hc.symm
      by_cases hxg : mx = ng
      · rw [if_pos hxg]
        rcases le_or_lt nr nb with hrb | hrb
        · have hmnr : mn = nr := by
            rw [hmn, min_eq_left (show nr ≤ ng by rw [← hxg]; exact hrmx),
              min_eq_left hrb]
          obtain ⟨e1, e2, e3⟩ := hue_case_gmax_rle hd hrb hmnr hrmn hrmx hbmn hbmx
          rw [RGB.mk.injEq]
          refine ⟨?_, ?_, ?_⟩
          · rw [e1, hnr]
            exact chan_exact cr
          · rw [e2, hxg, hng]
            exact chan_exact cg
          · rw [e3, hnb]
            exact chan_exact cb
        · have hmnb : mn = nb := by
            rw [hmn, min_eq_right (le_min (le_of_lt hrb)
              (show nb ≤ ng by rw [← hxg]; exact hbmx))]
          obtain ⟨e1, e2, e3⟩ := hue_case_gmax_rgt hd hrb hmnb hrmn hrmx hbmn hbmx
          rw [RGB.mk.injEq]
          refine ⟨?_, ?_, ?_⟩
          · rw [e1, hnr]
            exact chan_exact cr
          · rw [e2, hxg, hng]
            exact chan_exact cg
          · rw [e3, hnb]
            exact chan_exact cb
      · rw [if_neg hxg]
        have hglt : ng < mx := lt_of_le_of_ne hgmx fun hc => hxg hc.symm
        have hxb : mx = nb := by
          rcases max_choice (max nr ng) nb with hc | hc
          · rcases max_choice nr ng with hc2 | hc2
            · exact absurd (hmx.trans (hc.trans hc2)) hxr
            · exact absurd (hmx.trans (hc.trans hc2)) hxg
          · exact hmx.trans hc
        rcases le_or_lt nr ng with hrg | hrg
        · have hmnr : mn = nr := by
            rw [hmn, min_eq_left hrg, min_eq_left (show nr ≤ nb by rw [← hxb]; exact hrmx)]
          obtain ⟨e1, e2, e3⟩ := hue_case_bmax_rle hd hrg hmnr hrmn hrmx hgmn hgmx
          rw [RGB.mk.injEq]
          refine ⟨?_, ?_, ?_⟩
          · rw [e1, hnr]
            exact chan_exact cr
          · rw [e2, hng]
            exact chan_exact cg
          · rw [e3, hxb, hnb]
            exact chan_exact cb
        · have hmng : mn = ng := by
            rw [hmn, min_eq_right (le_of_lt hrg),
              min_eq_left (show ng ≤ nb by rw [← hxb]; exact hgmx)]
          obtain ⟨e1, e2, e3⟩ := hue_case_bmax_rgt hd hrg hmng hrmn hrmx hgmn hgmx
          rw [RGB.mk.injEq]
          refine ⟨?_, ?_, ?_⟩
          · rw [e1, hnr]
            exact chan_exact cr
          · rw [e2, hng]
            exact chan_exact cg
          · rw [e3, hxb, hnb]
            exact chan_exact cb

/-! ### Association-list (Go map) lemmas -/

theorem findVal?_setKey_same (m : List (String × String)) (k v : String) :
    findVal? (setKey m k v) k = some v := by
  induction m with
  | nil => simp [setKey, findVal?]
  | cons a r ih =>
    obtain ⟨a1, a2⟩ := a
    rw [setKey]
    split_ifs with h
    · rw [findVal?, if_pos rfl]
    · rw [findVal?, if_neg h]
      exact ih

theorem findVal?_setKey_other (m : List (String × String)) (k v k' : String)
    (h : k ≠ k') : findVal? (setKey m k v) k' = findVal? m k' := by
  induction m with
  | nil => simp [setKey, findVal?, h]
  | cons a r ih =>
    obtain ⟨a1, a2⟩ := a
    rw [setKey]
    split_ifs with ha
    · subst ha
      rw [findVal?, findVal?, if_neg h, if_neg h]
    · rw [findVal?, findVal?]
      split_ifs with hb
      · rfl
      · exact ih

/-! ### Facts about hexadecimal characters and scanning -/

theorem hexChar_facts :
    (hexDigitChars.all fun c => isHexDigitChar c && !isSpaceChar c &&
      decide (c ≠ '-') && decide (c ≠ '+')) = true := by decide

theorem hexPair_facts :
    (hexDigitChars.all fun c1 => hexDigitChars.all fun c2 =>
      decide ((hexByte ((hexVal c1 * 16 + hexVal c2 : ℕ) : ℤ)).data =
        [c1.toLower, c2.toLower]) && decide (hexVal c1 * 16 + hexVal c2 < 256)) = true := by
  decide

theorem hexChar_fact_of_mem {c : Char} (h : c ∈ hexDigitChars) :
    isHexDigitChar c = true ∧ isSpaceChar c = false ∧ c ≠ '-' ∧ c ≠ '+' := by
  have := List.all_eq_true.1 hexChar_facts c h
  simp only [Bool.and_eq_true, Bool.not_eq_true', decide_eq_true_eq] at this
  exact ⟨this.1.1.1, this.1.1.2, this.1.2, this.2⟩

theorem hexPair_fact_of_mem {c1 c2 : Char} (h1 : c1 ∈ hexDigitChars)
    (h2 : c2 ∈ hexDigitChars) :
    (hexByte ((hexVal c1 * 16 + hexVal c2 : ℕ) : ℤ)).data = [c1.toLower, c2.toLower] := by
  have := List.all_eq_true.1 (List.all_eq_true.1 hexPair_facts c1 h1) c2 h2
  simp only [Bool.and_eq_true, decide_eq_true_eq] at this
  exact this.1

theorem readHexDigits_zero (acc cnt : ℕ) (l : List Char) :
    readHexDigits 0 acc cnt l = (acc, cnt, l) := by
  cases l <;> rw [readHexDigits]
  rw [if_pos rfl]

theorem scanHexToken_two {c1 c2 : Char} (rest : List Char)
    (h1 : c1 ∈ hexDigitChars) (h2 : c2 ∈ hexDigitChars) :
    scanHexToken 2 (c1 :: c2 :: rest) =
      some (((hexVal c1 * 16 + hexVal c2 : ℕ) : ℤ), rest) := by
  obtain ⟨hx1, hsp1, hm1, hp1⟩ := hexChar_fact_of_mem h1
  obtain ⟨hx2, hsp2, hm2, hp2⟩ := hexChar_fact_of_mem h2
  simp [scanHexToken, readHexDigits, readHexDigits_zero, hsp1, hm1, hp1, hx1, hx2]

theorem HexToRGB_hex_digits {c1 c2 c3 c4 c5 c6 : Char}
    (h1 : c1 ∈ hexDigitChars) (h2 : c2 ∈ hexDigitChars) (h3 : c3 ∈ hexDigitChars)
    (h4 : c4 ∈ hexDigitChars) (h5 : c5 ∈ hexDigitChars) (h6 : c6 ∈ hexDigitChars) :
    HexToRGB (String.mk ['#', c1, c2, c3, c4, c5, c6]) =
      .ok ⟨((hexVal c1 * 16 + hexVal c2 : ℕ) : ℤ),
        ((hexVal c3 * 16 + hexVal c4 : ℕ) : ℤ),
        ((hexVal c5 * 16 + hexVal c6 : ℕ) : ℤ)⟩ := by
  simp [HexToRGB, scanHexToken_two _ h1 h2, scanHexToken_two _ h3 h4,
    scanHexToken_two _ h5 h6]

theorem HexToRGB_invalid (s : String)
    (h : ¬(s.data.length = 7 ∧ s.data.head? = some '#')) :
    HexToRGB s = .error ("invalid hex color format: " ++ s) := by
  rw [HexToRGB.eq_def]
  split
  · next rest heq =>
    split_ifs with hlen
    · exfalso
      apply h
      rw [heq]
      constructor
      · simp [hlen]
      · rfl
    · rfl
  · rfl

/-! ### Validity of every value produced by the scheme loops -/

theorem fixedHueRoleEntries_valid (e : Entropy) (he : validE e)
    (bk bbk wk bwk : String) (hbk : isValidHex bk = true) (hbbk : isValidHex bbk = true)
    (hwk : isValidHex wk = true) (hbwk : isValidHex bwk = true)
    (sB sS lB lS bD : ℚ) (hsB : 0 ≤ sB) (hsS : 0 ≤ sS) (hs1 : sB + sS ≤ 1)
    (hlB : 0 ≤ lB) (hlS : 0 ≤ lS) (hl1 : lB + lS ≤ 1) (hbD : 0 ≤ bD) :
    ∀ (entries : List (ℚ × String)), (∀ q ∈ entries, -(1/3) ≤ q.1 ∧ q.1 ≤ 1) →
      ∀ k, ∀ p ∈ fixedHueRoleEntries e bk bbk wk bwk sB sS lB lS bD entries k,
        isValidHex p.2 = true := by
  intro entries
  induction entries with
  | nil =>
    intro _ k p hp
    rw [fixedHueRoleEntries] at hp
    exact absurd hp (List.not_mem_nil p)
  | cons q rest ih =>
    intro hent k p hp
    obtain ⟨hOff, name⟩ := q
    have hhead := hent (hOff, name) (List.mem_cons_self _ _)
    have htail : ∀ q ∈ rest, -(1/3) ≤ q.1 ∧ q.1 ≤ 1 :=
      fun q hq => hent q (List.mem_cons_of_mem _ hq)
    rw [fixedHueRoleEntries] at hp
    split_ifs at hp with hb hw
    · rcases List.mem_cons.1 hp with rfl | hp2
      · exact hbk
      rcases List.mem_cons.1 hp2 with rfl | hp3
      · exact hbbk
      exact ih htail k p hp3
    · rcases List.mem_cons.1 hp with rfl | hp2
      · exact hwk
      rcases List.mem_cons.1 hp2 with rfl | hp3
      · exact hbwk
      exact ih htail k p hp3
    · have hek := he k
      have hek1 := he (k + 1)
      have hsat1 : 0 ≤ sB + e k * sS := by nlinarith [hek.1, hek.2]
      have hsat2 : sB + e k * sS ≤ 1 := by nlinarith [hek.1, hek.2]
      have hli1 : 0 ≤ lB + e (k + 1) * lS := by nlinarith [hek1.1, hek1.2]
      have hli2 : lB + e (k + 1) * lS ≤ 1 := by nlinarith [hek1.1, hek1.2]
      rcases List.mem_cons.1 hp with rfl | hp2
      · exact validHex_ofHSL hhead.1 hhead.2 hsat1 hsat2 hli1 hli2
      rcases List.mem_cons.1 hp2 with rfl | hp3
      · exact validHex_ofHSL hhead.1 hhead.2 hsat1 hsat2
          (le_min (by norm_num) (by linarith)) (min_le_left _ _)
      exact ih htail (k + 2) p hp3

theorem paletteRoleEntries_valid (e : Entropy) (he : validE e)
    (hJ sJ lJ bL bS : ℚ) (hhJ1 : 0 ≤ hJ) (hhJ2 : hJ ≤ 1/3) (hsJ : 0 ≤ sJ)
    (hlJ : 0 ≤ lJ) (hbL : 0 ≤ bL) (hbS : 0 ≤ bS) :
    ∀ (base : List (String × String)),
      (∀ q ∈ base, 0 ≤ (hexToRGBOrZero q.2).R ∧ (hexToRGBOrZero q.2).R ≤ 255 ∧
        0 ≤ (hexToRGBOrZero q.2).G ∧ (hexToRGBOrZero q.2).G ≤ 255 ∧
        0 ≤ (hexToRGBOrZero q.2).B ∧ (hexToRGBOrZero q.2).B ≤ 255) →
      ∀ k, ∀ p ∈ paletteRoleEntries e hJ sJ lJ bL bS base k, isValidHex p.2 = true := by
  intro base
  induction base with
  | nil =>
    intro _ k p hp
    rw [paletteRoleEntries] at hp
    exact absurd hp (List.not_mem_nil p)
  | cons q rest ih =>
    intro hbase k p hp
    obtain ⟨name, hx⟩ := q
    obtain ⟨c1, c2, c3, c4, c5, c6⟩ := hbase (name, hx) (List.mem_cons_self _ _)
    have htail := fun q hq => hbase q (List.mem_cons_of_mem _ hq)
    obtain ⟨⟨hH1, hH2⟩, ⟨hS1, hS2⟩, ⟨hL1, hL2⟩⟩ :=
      ToHSL_bounds (hexToRGBOrZero hx) c1 c2 c3 c4 c5 c6
    have hek := he k
    have hek1 := he (k + 1)
    have hek2 := he (k + 2)
    have hh1 : -(1/3) ≤ goMod1 ((hexToRGBOrZero hx).ToHSL.H + (e k - 0.5) * hJ) :=
      (goMod1_bounds (by nlinarith [hek.1, hek.2])).1
    have hh2 : goMod1 ((hexToRGBOrZero hx).ToHSL.H + (e k - 0.5) * hJ) ≤ 1 :=
      le_of_lt (goMod1_bounds (by nlinarith [hek.1, hek.2])).2
    have hs1 : (0:ℚ) ≤ max 0 (min 1 ((hexToRGBOrZero hx).ToHSL.S + (e (k+1) - 0.5) * sJ)) :=
      le_max_left _ _
    have hs2 : max 0 (min 1 ((hexToRGBOrZero hx).ToHSL.S + (e (k+1) - 0.5) * sJ)) ≤ 1 :=
      max_le (by norm_num) (min_le_left _ _)
    have hl1 : (0:ℚ) ≤ max 0 (min 1 ((hexToRGBOrZero hx).ToHSL.L + (e (k+2) - 0.5) * lJ)) :=
      le_max_left _ _
    have hl2 : max 0 (min 1 ((hexToRGBOrZero hx).ToHSL.L + (e (k+2) - 0.5) * lJ)) ≤ 1 :=
      max_le (by norm_num) (min_le_left _ _)
    rw [paletteRoleEntries] at hp
    split_ifs at hp with hprim
    · rcases List.mem_cons.1 hp with rfl | hp2
      · exact validHex_ofHSL hh1 hh2 hs1 hs2 hl1 hl2
      exact ih htail (k + 3) p hp2
    · rcases List.mem_cons.1 hp with rfl | hp2
      · exact validHex_ofHSL hh1 hh2 hs1 hs2 hl1 hl2
      rcases List.mem_cons.1 hp2 with rfl | hp3
      · exact validHex_ofHSL hh1 hh2 (le_min (by norm_num) (by positivity))
          (min_le_left _ _) (le_min (by norm_num) (by positivity)) (min_le_left _ _)
      exact ih htail (k + 3) p hp3

theorem randomRoleEntries_valid (e : Entropy) (he : validE e) (baseHue : ℚ)
    (hb1 : 0 ≤ baseHue) (hb2 : baseHue < 1) :
    ∀ (entries : List (ℚ × String)), (∀ q ∈ entries, 0 ≤ q.1 ∧ q.1 ≤ 1) →
      ∀ k, ∀ p ∈ randomRoleEntries e baseHue entries k, isValidHex p.2 = true := by
  intro entries
  induction entries with
  | nil =>
    intro _ k p hp
    rw [randomRoleEntries] at hp
    exact absurd hp (List.not_mem_nil p)
  | cons q rest ih =>
    intro hent k p hp
    obtain ⟨hOff, name⟩ := q
    have hhead := hent (hOff, name) (List.mem_cons_self _ _)
    have htail := fun q hq => hent q (List.mem_cons_of_mem _ hq)
    have hek := he k
    have hek1 := he (k + 1)
    have hek2 := he (k + 2)
    rw [randomRoleEntries] at hp
    split_ifs at hp with hb hw
    · rcases List.mem_cons.1 hp with rfl | hp2
      · exact validHex_ofHSL (by linarith) (by linarith) (by norm_num) (by norm_num)
          (by nlinarith [hek.1, hek.2]) (by nlinarith [hek.1, hek.2])
      rcases List.mem_cons.1 hp2 with rfl | hp3
      · exact validHex_ofHSL (by linarith) (by linarith)
          (le_min (by norm_num) (by norm_num)) (min_le_left _ _)
          (le_min (by norm_num) (by nlinarith [hek.1, hek.2]))
          (le_trans (min_le_left _ _) (by norm_num))
      exact ih htail (k + 1) p hp3
    · rcases List.mem_cons.1 hp with rfl | hp2
      · exact validHex_ofHSL (by linarith) (by linarith) (by norm_num) (by norm_num)
          (by nlinarith [hek.1, hek.2]) (by nlinarith [hek.1, hek.2])
      rcases List.mem_cons.1 hp2 with rfl | hp3
      · exact validHex_ofHSL (by linarith) (by linarith)
          (le_min (by norm_num) (by norm_num)) (min_le_left _ _)
          (le_min (by norm_num) (by nlinarith [hek.1, hek.2]))
          (le_trans (min_le_left _ _) (by norm_num))
      exact ih htail (k + 1) p hp3
    · have hhue := goMod1_bounds
        (show -(1/3) ≤ baseHue + hOff * 0.618 + e k * 0.05
          by nlinarith [hek.1, hek.2, hhead.1, hhead.2])
      rcases List.mem_cons.1 hp with rfl | hp2
      · exact validHex_ofHSL hhue.1 (le_of_lt hhue.2)
          (by nlinarith [hek1.1, hek1.2]) (by nlinarith [hek1.1, hek1.2])
          (by nlinarith [hek2.1, hek2.2]) (by nlinarith [hek2.1, hek2.2])
      rcases List.mem_cons.1 hp2 with rfl | hp3
      · exact validHex_ofHSL hhue.1 (le_of_lt hhue.2)
          (le_min (by norm_num) (by nlinarith [hek1.1, hek1.2])) (min_le_left _ _)
          (le_min (by norm_num) (by nlinarith [hek2.1, hek2.2]))
          (le_trans (min_le_left _ _) (by norm_num))
      exact ih htail (k + 3) p hp3

theorem pastelRoleEntries_valid (e : Entropy) (he : validE e) (baseHue : ℚ)
    (hb1 : 0 ≤ baseHue) (hb2 : baseHue < 1) :
    ∀ (entries : List (ℚ × String)), (∀ q ∈ entries, 0 ≤ q.1 ∧ q.1 ≤ 1) →
      ∀ k, ∀ p ∈ pastelRoleEntries e baseHue entries k, isValidHex p.2 = true := by
  intro entries
  induction entries with
  | nil =>
    intro _ k p hp
    rw [pastelRoleEntries] at hp
    exact absurd hp (List.not_mem_nil p)
  | cons q rest ih =>
    intro hent k p hp
    obtain ⟨hOff, name⟩ := q
    have hhead := hent (hOff, name) (List.mem_cons_self _ _)
    have htail := fun q hq => hent q (List.mem_cons_of_mem _ hq)
    have hek := he k
    have hek1 := he (k + 1)
    have hek2 := he (k + 2)
    rw [pastelRoleEntries] at hp
    split_ifs at hp with hb hw
    · rcases List.mem_cons.1 hp with rfl | hp2
      · exact (show isValidHex "#f0ede8" = true by decide)
      rcases List.mem_cons.1 hp2 with rfl | hp3
      · exact (show isValidHex "#d4ccc2" = true by decide)
      exact ih htail k p hp3
    · rcases List.mem_cons.1 hp with rfl | hp2
      · exact (show isValidHex "#928374" = true by decide)
      rcases List.mem_cons.1 hp2 with rfl | hp3
      · exact (show isValidHex "#7c6f64" = true by decide)
      exact ih htail k p hp3
    · have hhue := goMod1_bounds
        (show -(1/3) ≤ baseHue + hOff + e k * 0.1 - 0.05
          by nlinarith [hek.1, hek.2, hhead.1, hhead.2])
      rcases List.mem_cons.1 hp with rfl | hp2
      · exact validHex_ofHSL hhue.1 (le_of_lt hhue.2)
          (by nlinarith [hek1.1, hek1.2]) (by nlinarith [hek1.1, hek1.2])
          (by nlinarith [hek2.1, hek2.2]) (by nlinarith [hek2.1, hek2.2])
      rcases List.mem_cons.1 hp2 with rfl | hp3
      · exact validHex_ofHSL hhue.1 (le_of_lt hhue.2)
          (by nlinarith [hek1.1, hek1.2]) (by nlinarith [hek1.1, hek1.2])
          (le_min (by norm_num) (by nlinarith [hek2.1, hek2.2]))
          (le_trans (min_le_left _ _) (by norm_num))
      exact ih htail (k + 3) p hp3

theorem neonRoleEntries_valid (e : Entropy) (he : validE e) :
    ∀ (entries : List (ℚ × String)), (∀ q ∈ entries, 0 ≤ q.1 ∧ q.1 ≤ 1) →
      ∀ k, ∀ p ∈ neonRoleEntries e entries k, isValidHex p.2 = true := by
  intro entries
  induction entries with
  | nil =>
    intro _ k p hp
    rw [neonRoleEntries] at hp
    exact absurd hp (List.not_mem_nil p)
  | cons q rest ih =>
    intro hent k p hp
    obtain ⟨hOff, name⟩ := q
    have hhead := hent (hOff, name) (List.mem_cons_self _ _)
    have htail := fun q hq => hent q (List.mem_cons_of_mem _ hq)
    have hek := he k
    rw [neonRoleEntries] at hp
    split_ifs at hp with hb hw
    · rcases List.mem_cons.1 hp with rfl | hp2
      · exact (show isValidHex "#1a1a1a" = true by decide)
      rcases List.mem_cons.1 hp2 with rfl | hp3
      · exact (show isValidHex "#333333" = true by decide)
      exact ih htail k p hp3
    · rcases List.mem_cons.1 hp with rfl | hp2
      · exact (show isValidHex "#ffffff" = true by decide)
      rcases List.mem_cons.1 hp2 with rfl | hp3
      · exact (show isValidHex "#ffffff" = true by decide)
      exact ih htail k p hp3
    · rcases List.mem_cons.1 hp with rfl | hp2
      · exact validHex_ofHSL (by linarith [hhead.1]) hhead.2 (by norm_num) (by norm_num)
          (by nlinarith [hek.1, hek.2]) (by nlinarith [hek.1, hek.2])
      rcases List.mem_cons.1 hp2 with rfl | hp3
      · exact validHex_ofHSL (by linarith [hhead.1]) hhead.2 (by norm_num) (by norm_num)
          (le_min (by norm_num) (by nlinarith [hek.1, hek.2])) (min_le_left _ _)
      exact ih htail (k + 1) p hp3

theorem monoRoleEntries_valid (baseHue : ℚ) (hb1 : 0 ≤ baseHue) (hb2 : baseHue < 1) :
    ∀ (entries : List (String × (ℚ × ℚ))),
      (∀ q ∈ entries, 0 ≤ q.2.1 ∧ q.2.1 ≤ 1 ∧ 0 ≤ q.2.2 ∧ q.2.2 ≤ 1) →
      ∀ p ∈ monoRoleEntries baseHue entries, isValidHex p.2 = true := by
  intro entries
  induction entries with
  | nil =>
    intro _ p hp
    rw [monoRoleEntries] at hp
    exact absurd hp (List.not_mem_nil p)
  | cons q rest ih =>
    intro hent p hp
    obtain ⟨name, ls⟩ := q
    have hhead := hent (name, ls) (List.mem_cons_self _ _)
    have htail := fun q hq => hent q (List.mem_cons_of_mem _ hq)
    rw [monoRoleEntries] at hp
    rcases List.mem_cons.1 hp with rfl | hp2
    · exact validHex_ofHSL (by linarith) (by linarith) (by norm_num) (by norm_num)
        hhead.1 hhead.2.1
    rcases List.mem_cons.1 hp2 with rfl | hp3
    · exact validHex_ofHSL (by linarith) (by linarith) (by norm_num) (by norm_num)
        hhead.2.2.1 hhead.2.2.2
    exact ih htail p hp3

theorem randomHues_bounded : ∀ q ∈ randomHues.zip roleNames, 0 ≤ q.1 ∧ q.1 ≤ 1 := by
  intro q hq
  simp only [randomHues, roleNames, List.zip_cons_cons, List.zip_nil_right,
    List.mem_cons, List.not_mem_nil, or_false] at hq
  rcases hq with rfl | rfl | rfl | rfl | rfl | rfl | rfl | rfl <;> constructor <;> norm_num

theorem pastelHues_bounded : ∀ q ∈ pastelHues.zip roleNames, 0 ≤ q.1 ∧ q.1 ≤ 1 := by
  intro q hq
  simp only [pastelHues, roleNames, List.zip_cons_cons, List.zip_nil_right,
    List.mem_cons, List.not_mem_nil, or_false] at hq
  rcases hq with rfl | rfl | rfl | rfl | rfl | rfl | rfl | rfl <;> constructor <;> norm_num

theorem neonHues_bounded : ∀ q ∈ neonHues.zip roleNames, 0 ≤ q.1 ∧ q.1 ≤ 1 := by
  intro q hq
  simp only [neonHues, roleNames, List.zip_cons_cons, List.zip_nil_right,
    List.mem_cons, List.not_mem_nil, or_false] at hq
  rcases hq with rfl | rfl | rfl | rfl | rfl | rfl | rfl | rfl <;> constructor <;> norm_num

theorem warmHues_bounded : ∀ q ∈ warmHues.zip roleNames, -(1/3) ≤ q.1 ∧ q.1 ≤ 1 := by
  intro q hq
  simp only [warmHues, roleNames, List.zip_cons_cons, List.zip_nil_right,
    List.mem_cons, List.not_mem_nil, or_false] at hq
  rcases hq with rfl | rfl | rfl | rfl | rfl | rfl | rfl | rfl <;> constructor <;> norm_num

theorem coolHues_bounded : ∀ q ∈ coolHues.zip roleNames, -(1/3) ≤ q.1 ∧ q.1 ≤ 1 := by
  intro q hq
  simp only [coolHues, roleNames, List.zip_cons_cons, List.zip_nil_right,
    List.mem_cons, List.not_mem_nil, or_false] at hq
  rcases hq with rfl | rfl | rfl | rfl | rfl | rfl | rfl | rfl <;> constructor <;> norm_num

theorem natureHues_bounded : ∀ q ∈ natureHues.zip roleNames, -(1/3) ≤ q.1 ∧ q.1 ≤ 1 := by
  intro q hq
  simp only [natureHues, roleNames, List.zip_cons_cons, List.zip_nil_right,
    List.mem_cons, List.not_mem_nil, or_false] at hq
  rcases hq with rfl | rfl | rfl | rfl | rfl | rfl | rfl | rfl <;> constructor <;> norm_num

theorem cyberpunkHues_bounded : ∀ q ∈ cyberpunkHues.zip roleNames, -(1/3) ≤ q.1 ∧ q.1 ≤ 1 := by
  intro q hq
  simp only [cyberpunkHues, roleNames, List.zip_cons_cons, List.zip_nil_right,
    List.mem_cons, List.not_mem_nil, or_false] at hq
  rcases hq with rfl | rfl | rfl | rfl | rfl | rfl | rfl | rfl <;> constructor <;> norm_num

theorem generateRandomColors_valid (e : Entropy) (he : validE e) :
    ∀ p ∈ generateRandomColors e, isValidHex p.2 = true := by
  intro p hp
  have h0 := he 0
  have h1 := he 1
  have h2 := he 2
  simp only [generateRandomColors, List.mem_cons] at hp
  rcases hp with rfl | rfl | rfl | hp
  · exact validHex_ofHSL (by linarith) (by linarith) (by norm_num) (by norm_num)
      (by nlinarith) (by nlinarith)
  · exact validHex_ofHSL (by linarith) (by linarith) (by norm_num) (by norm_num)
      (by nlinarith) (by nlinarith)
  · exact validHex_ofHSL (by linarith) (by linarith) (by norm_num) (by norm_num)
      (by norm_num) (by norm_num)
  · exact randomRoleEntries_valid e he (e 0) h0.1 h0.2 _ randomHues_bounded 3 p hp

theorem generatePastelColors_valid (e : Entropy) (he : validE e) :
    ∀ p ∈ generatePastelColors e, isValidHex p.2 = true := by
  intro p hp
  have h0 := he 0
  simp only [generatePastelColors, List.mem_cons] at hp
  rcases hp with rfl | rfl | rfl | hp
  · exact (show isValidHex "#faf7f4" = true by decide)
  · exact (show isValidHex "#5c5c5c" = true by decide)
  · exact (show isValidHex "#e8e0db" = true by decide)
  · exact pastelRoleEntries_valid e he (e 0) h0.1 h0.2 _ pastelHues_bounded 1 p hp

theorem generateNeonColors_valid (e : Entropy) (he : validE e) :
    ∀ p ∈ generateNeonColors e, isValidHex p.2 = true := by
  intro p hp
  simp only [generateNeonColors, List.mem_cons] at hp
  rcases hp with rfl | rfl | rfl | hp
  · exact (show isValidHex "#0a0a0a" = true by decide)
  · exact (show isValidHex "#00ff00" = true by decide)
  · exact (show isValidHex "#333333" = true by decide)
  · exact neonRoleEntries_valid e he _ neonHues_bounded 0 p hp

theorem monoTable_bounded :
    ∀ q ∈ roleNames.zip (monoLightnesses.zip monoBrightLightnesses),
      0 ≤ q.2.1 ∧ q.2.1 ≤ 1 ∧ 0 ≤ q.2.2 ∧ q.2.2 ≤ 1 := by
  intro q hq
  simp only [roleNames, monoLightnesses, monoBrightLightnesses, List.zip_cons_cons,
    List.zip_nil_right, List.mem_cons, List.not_mem_nil, or_false] at hq
  rcases hq with rfl | rfl | rfl | rfl | rfl | rfl | rfl | rfl <;>
    refine ⟨by norm_num, by norm_num, by norm_num, by norm_num⟩

theorem generateMonochromeColors_valid (e : Entropy) (he : validE e) :
    ∀ p ∈ generateMonochromeColors e, isValidHex p.2 = true := by
  intro p hp
  have h0 := he 0
  simp only [generateMonochromeColors, List.mem_cons] at hp
  rcases hp with rfl | rfl | rfl | hp
  · exact validHex_ofHSL (by linarith) (by linarith) (by norm_num) (by norm_num)
      (by norm_num) (by norm_num)
  · exact validHex_ofHSL (by linarith) (by linarith) (by norm_num) (by norm_num)
      (by norm_num) (by norm_num)
  · exact validHex_ofHSL (by linarith) (by linarith) (by norm_num) (by norm_num)
      (by norm_num) (by norm_num)
  · exact monoRoleEntries_valid (e 0) h0.1 h0.2 _ monoTable_bounded p hp

theorem generateWarmColors_valid (e : Entropy) (he : validE e) :
    ∀ p ∈ generateWarmColors e, isValidHex p.2 = true := by
  intro p hp
  simp only [generateWarmColors, List.mem_cons] at hp
  rcases hp with rfl | rfl | rfl | hp
  · exact (show isValidHex "#2d1b12" = true by decide)
  · exact (show isValidHex "#f4e8d0" = true by decide)
  · exact (show isValidHex "#4a3426" = true by decide)
  · exact fixedHueRoleEntries_valid e he _ _ _ _ (by decide) (by decide) (by decide)
      (by decide) _ _ _ _ _ (by norm_num) (by norm_num) (by norm_num) (by norm_num)
      (by norm_num) (by norm_num) (by norm_num) _ warmHues_bounded 0 p hp

theorem generateCoolColors_valid (e : Entropy) (he : validE e) :
    ∀ p ∈ generateCoolColors e, isValidHex p.2 = true := by
  intro p hp
  simp only [generateCoolColors, List.mem_cons] at hp
  rcases hp with rfl | rfl | rfl | hp
  · exact (show isValidHex "#0f1419" = true by decide)
  · exact (show isValidHex "#e6f1ff" = true by decide)
  · exact (show isValidHex "#1f2937" = true by decide)
  · exact fixedHueRoleEntries_valid e he _ _ _ _ (by decide) (by decide) (by decide)
      (by decide) _ _ _ _ _ (by norm_num) (by norm_num) (by norm_num) (by norm_num)
      (by norm_num) (by norm_num) (by norm_num) _ coolHues_bounded 0 p hp

theorem generateNatureColors_valid (e : Entropy) (he : validE e) :
    ∀ p ∈ generateNatureColors e, isValidHex p.2 = true := by
  intro p hp
  simp only [generateNatureColors, List.mem_cons] at hp
  rcases hp with rfl | rfl | rfl | hp
  · exact (show isValidHex "#1a2318" = true by decide)
  · exact (show isValidHex "#e8f5e8" = true by decide)
  · exact (show isValidHex "#2d3a2b" = true by decide)
  · exact fixedHueRoleEntries_valid e he _ _ _ _ (by decide) (by decide) (by decide)
      (by decide) _ _ _ _ _ (by norm_num) (by norm_num) (by norm_num) (by norm_num)
      (by norm_num) (by norm_num) (by norm_num) _ natureHues_bounded 0 p hp

theorem generateCyberpunkColors_valid (e : Entropy) (he : validE e) :
    ∀ p ∈ generateCyberpunkColors e, isValidHex p.2 = true := by
  intro p hp
  simp only [generateCyberpunkColors, List.mem_cons] at hp
  rcases hp with rfl | rfl | rfl | hp
  · exact (show isValidHex "#0d001a" = true by decide)
  · exact (show isValidHex "#00ff41" = true by decide)
  · exact (show isValidHex "#330066" = true by decide)
  · exact fixedHueRoleEntries_valid e he _ _ _ _ (by decide) (by decide) (by decide)
      (by decide) _ _ _ _ _ (by norm_num) (by norm_num) (by norm_num) (by norm_num)
      (by norm_num) (by norm_num) (by norm_num) _ cyberpunkHues_bounded 0 p hp

theorem draculaBase_ranges :
    ∀ q ∈ draculaBase, 0 ≤ (hexToRGBOrZero q.2).R ∧ (hexToRGBOrZero q.2).R ≤ 255 ∧
      0 ≤ (hexToRGBOrZero q.2).G ∧ (hexToRGBOrZero q.2).G ≤ 255 ∧
      0 ≤ (hexToRGBOrZero q.2).B ∧ (hexToRGBOrZero q.2).B ≤ 255 := by decide

theorem nordBase_ranges :
    ∀ q ∈ nordBase, 0 ≤ (hexToRGBOrZero q.2).R ∧ (hexToRGBOrZero q.2).R ≤ 255 ∧
      0 ≤ (hexToRGBOrZero q.2).G ∧ (hexToRGBOrZero q.2).G ≤ 255 ∧
      0 ≤ (hexToRGBOrZero q.2).B ∧ (hexToRGBOrZero q.2).B ≤ 255 := by decide

theorem solarizedBase_ranges :
    ∀ q ∈ solarizedBase, 0 ≤ (hexToRGBOrZero q.2).R ∧ (hexToRGBOrZero q.2).R ≤ 255 ∧
      0 ≤ (hexToRGBOrZero q.2).G ∧ (hexToRGBOrZero q.2).G ≤ 255 ∧
      0 ≤ (hexToRGBOrZero q.2).B ∧ (hexToRGBOrZero q.2).B ≤ 255 := by decide

theorem gruvboxBase_ranges :
    ∀ q ∈ gruvboxBase, 0 ≤ (hexToRGBOrZero q.2).R ∧ (hexToRGBOrZero q.2).R ≤ 255 ∧
      0 ≤ (hexToRGBOrZero q.2).G ∧ (hexToRGBOrZero q.2).G ≤ 255 ∧
      0 ≤ (hexToRGBOrZero q.2).B ∧ (hexToRGBOrZero q.2).B ≤ 255 := by decide

theorem generateDraculaColors_valid (e : Entropy) (he : validE e) :
    ∀ p ∈ generateDraculaColors e, isValidHex p.2 = true := by
  intro p hp
  rw [generateDraculaColors] at hp
  exact paletteRoleEntries_valid e he _ _ _ _ _ (by norm_num) (by norm_num) (by norm_num)
    (by norm_num) (by norm_num) (by norm_num) _ draculaBase_ranges 0 p hp

theorem generateNordColors_valid (e : Entropy) (he : validE e) :
    ∀ p ∈ generateNordColors e, isValidHex p.2 = true := by
  intro p hp
  rw [generateNordColors] at hp
  exact paletteRoleEntries_valid e he _ _ _ _ _ (by norm_num) (by norm_num) (by norm_num)
    (by norm_num) (by norm_num) (by norm_num) _ nordBase_ranges 0 p hp

theorem generateSolarizedColors_valid (e : Entropy) (he : validE e) :
    ∀ p ∈ generateSolarizedColors e, isValidHex p.2 = true := by
  intro p hp
  rw [generateSolarizedColors] at hp
  exact paletteRoleEntries_valid e he _ _ _ _ _ (by norm_num) (by norm_num) (by norm_num)
    (by norm_num) (by norm_num) (by norm_num) _ solarizedBase_ranges 0 p hp

theorem generateGruvboxColors_valid (e : Entropy) (he : validE e) :
    ∀ p ∈ generateGruvboxColors e, isValidHex p.2 = true := by
  intro p hp
  rw [generateGruvboxColors] at hp
  exact paletteRoleEntries_valid e he _ _ _ _ _ (by norm_num) (by norm_num) (by norm_num)
    (by norm_num) (by norm_num) (by norm_num) _ gruvboxBase_ranges 0 p hp

/-! ### Key sets of the generated mappings -/

theorem generateRandomColors_keys (e : Entropy) :
    ((generateRandomColors e).map Prod.fst).Perm requiredKeys := by
  simp +decide only [generateRandomColors, randomRoleEntries, randomHues, roleNames,
    List.zip_cons_cons, List.zip_nil_right, List.map_cons, List.map_nil,
    if_true, if_false]

theorem generatePastelColors_keys (e : Entropy) :
    ((generatePastelColors e).map Prod.fst).Perm requiredKeys := by
  simp +decide only [generatePastelColors, pastelRoleEntries, pastelHues, roleNames,
    List.zip_cons_cons, List.zip_nil_right, List.map_cons, List.map_nil,
    if_true, if_false]

theorem generateNeonColors_keys (e : Entropy) :
    ((generateNeonColors e).map Prod.fst).Perm requiredKeys := by
  simp +decide only [generateNeonColors, neonRoleEntries, neonHues, roleNames,
    List.zip_cons_cons, List.zip_nil_right, List.map_cons, List.map_nil,
    if_true, if_false]

theorem generateMonochromeColors_keys (e : Entropy) :
    ((generateMonochromeColors e).map Prod.fst).Perm requiredKeys := by
  simp +decide only [generateMonochromeColors, monoRoleEntries, monoLightnesses,
    monoBrightLightnesses, roleNames, List.zip_cons_cons, List.zip_nil_right,
    List.map_cons, List.map_nil, if_true, if_false]

theorem generateWarmColors_keys (e : Entropy) :
    ((generateWarmColors e).map Prod.fst).Perm requiredKeys := by
  simp +decide only [generateWarmColors, fixedHueRoleEntries, warmHues, roleNames,
    List.zip_cons_cons, List.zip_nil_right, List.map_cons, List.map_nil,
    if_true, if_false]

theorem generateCoolColors_keys (e : Entropy) :
    ((generateCoolColors e).map Prod.fst).Perm requiredKeys := by
  simp +decide only [generateCoolColors, fixedHueRoleEntries, coolHues, roleNames,
    List.zip_cons_cons, List.zip_nil_right, List.map_cons, List.map_nil,
    if_true, if_false]

theorem generateNatureColors_keys (e : Entropy) :
    ((generateNatureColors e).map Prod.fst).Perm requiredKeys := by
  simp +decide only [generateNatureColors, fixedHueRoleEntries, natureHues, roleNames,
    List.zip_cons_cons, List.zip_nil_right, List.map_cons, List.map_nil,
    if_true, if_false]

theorem generateCyberpunkColors_keys (e : Entropy) :
    ((generateCyberpunkColors e).map Prod.fst).Perm requiredKeys := by
  simp +decide only [generateCyberpunkColors, fixedHueRoleEntries, cyberpunkHues,
    roleNames, List.zip_cons_cons, List.zip_nil_right, List.map_cons, List.map_nil,
    if_true, if_false]

theorem generateDraculaColors_keys (e : Entropy) :
    ((generateDraculaColors e).map Prod.fst).Perm requiredKeys := by
  simp +decide only [generateDraculaColors, paletteRoleEntries, draculaBase,
    List.map_cons, List.map_nil, if_true, if_false]

theorem generateNordColors_keys (e : Entropy) :
    ((generateNordColors e).map Prod.fst).Perm requiredKeys := by
  simp +decide only [generateNordColors, paletteRoleEntries, nordBase,
    List.map_cons, List.map_nil, if_true, if_false]

theorem generateSolarizedColors_keys (e : Entropy) :
    ((generateSolarizedColors e).map Prod.fst).Perm requiredKeys := by
  simp +decide only [generateSolarizedColors, paletteRoleEntries, solarizedBase,
    List.map_cons, List.map_nil, if_true, if_false]

theorem generateGruvboxColors_keys (e : Entropy) :
    ((generateGruvboxColors e).map Prod.fst).Perm requiredKeys := by
  simp +decide only [generateGruvboxColors, paletteRoleEntries, gruvboxBase,
    List.map_cons, List.map_nil, if_true, if_false]

/-! ### Parsing back a rendered hex color -/

theorem hexDigitChar_mem22 : ∀ k < 16, hexDigitChar k ∈ hexDigitChars := by decide

theorem hexVal_hexDigitChar : ∀ k < 16, hexVal (hexDigitChar k) = k := by decide

theorem string_ext {a b : String} (h : a.data = b.data) : a = b := by
  cases a
  cases b
  simp only at h
  rw [h]

theorem HexToRGB_ToHex (c : RGB) (hR1 : 0 ≤ c.R) (hR2 : c.R ≤ 255)
    (hG1 : 0 ≤ c.G) (hG2 : c.G ≤ 255) (hB1 : 0 ≤ c.B) (hB2 : c.B ≤ 255) :
    HexToRGB c.ToHex = .ok c := by
  have hdata : c.ToHex = String.mk ['#',
      hexDigitChar (c.R.toNat / 16 % 16), hexDigitChar (c.R.toNat % 16),
      hexDigitChar (c.G.toNat / 16 % 16), hexDigitChar (c.G.toNat % 16),
      hexDigitChar (c.B.toNat / 16 % 16), hexDigitChar (c.B.toNat % 16)] := by
    apply string_ext
    simp [RGB.ToHex, String.data_append, hexByte_data]
  have hm : ∀ n : ℕ, hexDigitChar (n % 16) ∈ hexDigitChars :=
    fun n => hexDigitChar_mem22 _ (Nat.mod_lt _ (by norm_num))
  rw [hdata, HexToRGB_hex_digits (hm _) (hm _) (hm _) (hm _) (hm _) (hm _)]
  have hv : ∀ n : ℕ, hexVal (hexDigitChar (n % 16)) = n % 16 :=
    fun n => hexVal_hexDigitChar _ (Nat.mod_lt _ (by norm_num))
  rw [hv, hv, hv, hv, hv, hv]
  rw [Except.ok.injEq, RGB.mk.injEq]
  refine ⟨?_, ?_, ?_⟩ <;> omega

theorem lightnessOfHex_ToHex (c : RGB) (hR1 : 0 ≤ c.R) (hR2 : c.R ≤ 255)
    (hG1 : 0 ≤ c.G) (hG2 : c.G ≤ 255) (hB1 : 0 ≤ c.B) (hB2 : c.B ≤ 255) :
    lightnessOfHex c.ToHex = c.ToHSL.L := by
  rw [lightnessOfHex, HexToRGB_ToHex c hR1 hR2 hG1 hG2 hB1 hB2]

/-! ### Bright-versus-normal lightness comparisons -/

theorem lightness_pair {h1v s1 l1 h2v s2 l2 : ℚ}
    (hh11 : -(1/3) ≤ h1v) (hh12 : h1v < 1) (hs11 : 0 ≤ s1) (hs12 : s1 ≤ 1)
    (hl11 : 0 ≤ l1) (hl12 : l1 ≤ 1)
    (hh21 : -(1/3) ≤ h2v) (hh22 : h2v < 1) (hs21 : 0 ≤ s2) (hs22 : s2 ≤ 1)
    (hl21 : 0 ≤ l2) (hl22 : l2 ≤ 1) (hle : l1 ≤ l2) :
    lightnessOfHex ((HSL.mk h1v s1 l1).ToRGB).ToHex - 1/255 ≤
      lightnessOfHex ((HSL.mk h2v s2 l2).ToRGB).ToHex := by
  obtain ⟨⟨a1, a2⟩, ⟨b1, b2⟩, ⟨c1, c2⟩⟩ :=
    ToRGB_bounds hh11 (le_of_lt hh12) hs11 hs12 hl11 hl12
  obtain ⟨⟨a1', a2'⟩, ⟨b1', b2'⟩, ⟨c1', c2'⟩⟩ :=
    ToRGB_bounds hh21 (le_of_lt hh22) hs21 hs22 hl21 hl22
  rw [lightnessOfHex_ToHex _ a1 a2 b1 b2 c1 c2,
    lightnessOfHex_ToHex _ a1' a2' b1' b2' c1' c2']
  have w1 := ToRGB_L_window hh11 hh12 hs11 hs12 hl11 hl12
  have w2 := ToRGB_L_window hh21 hh22 hs21 hs22 hl21 hl22
  linarith [w1.1, w1.2, w2.1, w2.2]

theorem pair_min_one {hv s l δ : ℚ} (hh1 : -(1/3) ≤ hv) (hh2 : hv < 1)
    (hs1 : 0 ≤ s) (hs2 : s ≤ 1) (hl1 : 0 ≤ l) (hl2 : l ≤ 1) (hδ : 0 ≤ δ) :
    lightnessOfHex ((HSL.mk hv s l).ToRGB).ToHex - 1/255 ≤
      lightnessOfHex ((HSL.mk hv s (min 1 (l + δ))).ToRGB).ToHex :=
  lightness_pair hh1 hh2 hs1 hs2 hl1 hl2 hh1 hh2 hs1 hs2
    (le_min (by norm_num) (by linarith)) (min_le_left _ _) (le_min hl2 (by linarith))

theorem pair_cap {hv s1 s2 l δ cap : ℚ} (hh1 : -(1/3) ≤ hv) (hh2 : hv < 1)
    (hs11 : 0 ≤ s1) (hs12 : s1 ≤ 1) (hs21 : 0 ≤ s2) (hs22 : s2 ≤ 1)
    (hl1 : 0 ≤ l) (hlc : l ≤ cap) (hc1 : cap ≤ 1) (hδ : 0 ≤ δ) :
    lightnessOfHex ((HSL.mk hv s1 l).ToRGB).ToHex - 1/255 ≤
      lightnessOfHex ((HSL.mk hv s2 (min cap (l + δ))).ToRGB).ToHex :=
  lightness_pair hh1 hh2 hs11 hs12 hl1 (le_trans hlc hc1) hh1 hh2 hs21 hs22
    (le_min (le_trans hl1 hlc) (by linarith)) (le_trans (min_le_left _ _) hc1)
    (le_min hlc (by linarith))
/-! ### Concrete HSL values of the palette base colors

These equations let the palette-scheme bright-pair proofs replace the parsed
base colors by explicit rationals. They are proved by kernel evaluation,
which needs the `Rat` arithmetic operations to be reducible. -/

section EvalFacts

set_option allowUnsafeReducibility true
attribute [local semireducible] Rat.add Rat.mul Rat.inv Rat.sub Rat.ofScientific

theorem hsl_dracula_black : (hexToRGBOrZero "#21222c").ToHSL = HSL.mk (43/66) (1/7) (77/510) := by decide

theorem hsl_dracula_red : (hexToRGBOrZero "#ff5555").ToHSL = HSL.mk (0) (1) (2/3) := by decide

theorem hsl_dracula_green : (hexToRGBOrZero "#50fa7b").ToHSL = HSL.mk (383/1020) (17/18) (11/17) := by decide

theorem hsl_dracula_yellow : (hexToRGBOrZero "#f1fa8c").ToHSL = HSL.mk (119/660) (11/12) (13/17) := by decide

theorem hsl_dracula_blue : (hexToRGBOrZero "#bd93f9").ToHSL = HSL.mk (25/34) (17/19) (66/85) := by decide

theorem hsl_dracula_magenta : (hexToRGBOrZero "#ff79c6").ToHSL = HSL.mk (727/804) (1) (188/255) := by decide

theorem hsl_dracula_cyan : (hexToRGBOrZero "#8be9fd").ToHSL = HSL.mk (181/342) (57/59) (196/255) := by decide

theorem hsl_dracula_white : (hexToRGBOrZero "#f8f8f2").ToHSL = HSL.mk (1/6) (3/10) (49/51) := by decide

theorem hsl_nord_black : (hexToRGBOrZero "#3b4252").ToHSL = HSL.mk (85/138) (23/141) (47/170) := by decide

theorem hsl_nord_red : (hexToRGBOrZero "#bf616a").ToHSL = HSL.mk (185/188) (47/111) (48/85) := by decide

theorem hsl_nord_green : (hexToRGBOrZero "#a3be8c").ToHSL = HSL.mk (77/300) (5/18) (11/17) := by decide

theorem hsl_nord_yellow : (hexToRGBOrZero "#ebcb8b").ToHSL = HSL.mk (1/9) (12/17) (11/15) := by decide

theorem hsl_nord_blue : (hexToRGBOrZero "#81a1c1").ToHSL = HSL.mk (7/12) (16/47) (161/255) := by decide

theorem hsl_nord_magenta : (hexToRGBOrZero "#b48ead").ToHSL = HSL.mk (197/228) (19/94) (161/255) := by decide

theorem hsl_nord_cyan : (hexToRGBOrZero "#88c0d0").ToHSL = HSL.mk (29/54) (36/83) (172/255) := by decide

theorem hsl_nord_white : (hexToRGBOrZero "#e5e9f0").ToHSL = HSL.mk (20/33) (11/41) (469/510) := by decide

theorem hsl_solarized_black : (hexToRGBOrZero "#073642").ToHSL = HSL.mk (63/118) (59/73) (73/510) := by decide

theorem hsl_solarized_red : (hexToRGBOrZero "#dc322f").ToHSL = HSL.mk (1/346) (173/243) (89/170) := by decide

theorem hsl_solarized_green : (hexToRGBOrZero "#859900").ToHSL = HSL.mk (173/918) (1) (3/10) := by decide

theorem hsl_solarized_yellow : (hexToRGBOrZero "#b58900").ToHSL = HSL.mk (137/1086) (1) (181/510) := by decide

theorem hsl_solarized_blue : (hexToRGBOrZero "#268bd2").ToHSL = HSL.mk (587/1032) (43/62) (124/255) := by decide

theorem hsl_solarized_magenta : (hexToRGBOrZero "#d33682").ToHSL = HSL.mk (433/471) (157/245) (53/102) := by decide

theorem hsl_solarized_cyan : (hexToRGBOrZero "#2aa198").ToHSL = HSL.mk (58/119) (17/29) (203/510) := by decide

theorem hsl_solarized_white : (hexToRGBOrZero "#eee8d5").ToHSL = HSL.mk (19/150) (25/59) (451/510) := by decide

theorem hsl_gruvbox_black : (hexToRGBOrZero "#282828").ToHSL = HSL.mk (0) (0) (8/51) := by decide

theorem hsl_gruvbox_red : (hexToRGBOrZero "#cc241d").ToHSL = HSL.mk (1/150) (175/233) (233/510) := by decide

theorem hsl_gruvbox_green : (hexToRGBOrZero "#98971a").ToHSL = HSL.mk (125/756) (63/89) (89/255) := by decide

theorem hsl_gruvbox_yellow : (hexToRGBOrZero "#d79921").ToHSL = HSL.mk (10/91) (91/124) (124/255) := by decide

theorem hsl_gruvbox_blue : (hexToRGBOrZero "#458588").ToHSL = HSL.mk (34/67) (67/205) (41/102) := by decide

theorem hsl_gruvbox_magenta : (hexToRGBOrZero "#b16286").ToHSL = HSL.mk (73/79) (79/235) (55/102) := by decide

theorem hsl_gruvbox_cyan : (hexToRGBOrZero "#689d6a").ToHSL = HSL.mk (18/53) (53/249) (87/170) := by decide

theorem hsl_gruvbox_white : (hexToRGBOrZero "#a89984").ToHSL = HSL.mk (7/72) (6/35) (10/17) := by decide

end EvalFacts

/-- In `generateDraculaColors` every bright tone is at least as light as its base tone, up to the 1/255 rendering loss. -/
theorem draculaColors_pairs (e : Entropy) (he : validE e) :
    (lightnessOfHex ((findVal? (generateDraculaColors e) "black").getD "") - 1/255 ≤
      lightnessOfHex ((findVal? (generateDraculaColors e) ("bright_" ++ "black")).getD "")) ∧
    (lightnessOfHex ((findVal? (generateDraculaColors e) "red").getD "") - 1/255 ≤
      lightnessOfHex ((findVal? (generateDraculaColors e) ("bright_" ++ "red")).getD "")) ∧
    (lightnessOfHex ((findVal? (generateDraculaColors e) "green").getD "") - 1/255 ≤
      lightnessOfHex ((findVal? (generateDraculaColors e) ("bright_" ++ "green")).getD "")) ∧
    (lightnessOfHex ((findVal? (generateDraculaColors e) "yellow").getD "") - 1/255 ≤
      lightnessOfHex ((findVal? (generateDraculaColors e) ("bright_" ++ "yellow")).getD "")) ∧
    (lightnessOfHex ((findVal? (generateDraculaColors e) "blue").getD "") - 1/255 ≤
      lightnessOfHex ((findVal? (generateDraculaColors e) ("bright_" ++ "blue")).getD "")) ∧
    (lightnessOfHex ((findVal? (generateDraculaColors e) "magenta").getD "") - 1/255 ≤
      lightnessOfHex ((findVal? (generateDraculaColors e) ("bright_" ++ "magenta")).getD "")) ∧
    (lightnessOfHex ((findVal? (generateDraculaColors e) "cyan").getD "") - 1/255 ≤
      lightnessOfHex ((findVal? (generateDraculaColors e) ("bright_" ++ "cyan")).getD "")) ∧
    (lightnessOfHex ((findVal? (generateDraculaColors e) "white").getD "") - 1/255 ≤
      lightnessOfHex ((findVal? (generateDraculaColors e) ("bright_" ++ "white")).getD "")) := by
  have hl := fun n => (he n).1
  have hu := fun n => (he n).2
  simp +decide only [generateDraculaColors, paletteRoleEntries, draculaBase,
    if_true, if_false, findVal?, Option.getD_some, Nat.reduceAdd, hsl_dracula_black, hsl_dracula_red, hsl_dracula_green, hsl_dracula_yellow, hsl_dracula_blue, hsl_dracula_magenta, hsl_dracula_cyan, hsl_dracula_white]
  refine ⟨?_, ?_, ?_, ?_, ?_, ?_, ?_, ?_⟩
  · apply pair_cap
    case hh1 => exact (goMod1_bounds (by linarith [hl 9, hu 9])).1
    case hh2 => exact (goMod1_bounds (by linarith [hl 9, hu 9])).2
    case hs11 => exact le_max_left _ _
    case hs12 => exact max_le (by norm_num) (min_le_left _ _)
    case hs21 => exact le_min (by norm_num) (add_nonneg (le_max_left _ _) (by norm_num))
    case hs22 => exact min_le_left _ _
    case hl1 => exact le_max_left _ _
    case hlc => exact max_le (by norm_num) (min_le_left _ _)
    case hc1 => norm_num
    case hδ => norm_num
  · apply pair_cap
    case hh1 => exact (goMod1_bounds (by linarith [hl 12, hu 12])).1
    case hh2 => exact (goMod1_bounds (by linarith [hl 12, hu 12])).2
    case hs11 => exact le_max_left _ _
    case hs12 => exact max_le (by norm_num) (min_le_left _ _)
    case hs21 => exact le_min (by norm_num) (add_nonneg (le_max_left _ _) (by norm_num))
    case hs22 => exact min_le_left _ _
    case hl1 => exact le_max_left _ _
    case hlc => exact max_le (by norm_num) (min_le_left _ _)
    case hc1 => norm_num
    case hδ => norm_num
  · apply pair_cap
    case hh1 => exact (goMod1_bounds (by linarith [hl 15, hu 15])).1
    case hh2 => exact (goMod1_bounds (by linarith [hl 15, hu 15])).2
    case hs11 => exact le_max_left _ _
    case hs12 => exact max_le (by norm_num) (min_le_left _ _)
    case hs21 => exact le_min (by norm_num) (add_nonneg (le_max_left _ _) (by norm_num))
    case hs22 => exact min_le_left _ _
    case hl1 => exact le_max_left _ _
    case hlc => exact max_le (by norm_num) (min_le_left _ _)
    case hc1 => norm_num
    case hδ => norm_num
  · apply pair_cap
    case hh1 => exact (goMod1_bounds (by linarith [hl 18, hu 18])).1
    case hh2 => exact (goMod1_bounds (by linarith [hl 18, hu 18])).2
    case hs11 => exact le_max_left _ _
    case hs12 => exact max_le (by norm_num) (min_le_left _ _)
    case hs21 => exact le_min (by norm_num) (add_nonneg (le_max_left _ _) (by norm_num))
    case hs22 => exact min_le_left _ _
    case hl1 => exact le_max_left _ _
    case hlc => exact max_le (by norm_num) (min_le_left _ _)
    case hc1 => norm_num
    case hδ => norm_num
  · apply pair_cap
    case hh1 => exact (goMod1_bounds (by linarith [hl 21, hu 21])).1
    case hh2 => exact (goMod1_bounds (by linarith [hl 21, hu 21])).2
    case hs11 => exact le_max_left _ _
    case hs12 => exact max_le (by norm_num) (min_le_left _ _)
    case hs21 => exact le_min (by norm_num) (add_nonneg (le_max_left _ _) (by norm_num))
    case hs22 => exact min_le_left _ _
    case hl1 => exact le_max_left _ _
    case hlc => exact max_le (by norm_num) (min_le_left _ _)
    case hc1 => norm_num
    case hδ => norm_num
  · apply pair_cap
    case hh1 => exact (goMod1_bounds (by linarith [hl 24, hu 24])).1
    case hh2 => exact (goMod1_bounds (by linarith [hl 24, hu 24])).2
    case hs11 => exact le_max_left _ _
    case hs12 => exact max_le (by norm_num) (min_le_left _ _)
    case hs21 => exact le_min (by norm_num) (add_nonneg (le_max_left _ _) (by norm_num))
    case hs22 => exact min_le_left _ _
    case hl1 => exact le_max_left _ _
    case hlc => exact max_le (by norm_num) (min_le_left _ _)
    case hc1 => norm_num
    case hδ => norm_num
  · apply pair_cap
    case hh1 => exact (goMod1_bounds (by linarith [hl 27, hu 27])).1
    case hh2 => exact (goMod1_bounds (by linarith [hl 27, hu 27])).2
    case hs11 => exact le_max_left _ _
    case hs12 => exact max_le (by norm_num) (min_le_left _ _)
    case hs21 => exact le_min (by norm_num) (add_nonneg (le_max_left _ _) (by norm_num))
    case hs22 => exact min_le_left _ _
    case hl1 => exact le_max_left _ _
    case hlc => exact max_le (by norm_num) (min_le_left _ _)
    case hc1 => norm_num
    case hδ => norm_num
  · apply pair_cap
    case hh1 => exact (goMod1_bounds (by linarith [hl 30, hu 30])).1
    case hh2 => exact (goMod1_bounds (by linarith [hl 30, hu 30])).2
    case hs11 => exact le_max_left _ _
    case hs12 => exact max_le (by norm_num) (min_le_left _ _)
    case hs21 => exact le_min (by norm_num) (add_nonneg (le_max_left _ _) (by norm_num))
    case hs22 => exact min_le_left _ _
    case hl1 => exact le_max_left _ _
    case hlc => exact max_le (by norm_num) (min_le_left _ _)
    case hc1 => norm_num
    case hδ => norm_num

/-- In `generateNordColors` every bright tone is at least as light as its base tone, up to the 1/255 rendering loss. -/
theorem nordColors_pairs (e : Entropy) (he : validE e) :
    (lightnessOfHex ((findVal? (generateNordColors e) "black").getD "") - 1/255 ≤
      lightnessOfHex ((findVal? (generateNordColors e) ("bright_" ++ "black")).getD "")) ∧
    (lightnessOfHex ((findVal? (generateNordColors e) "red").getD "") - 1/255 ≤
      lightnessOfHex ((findVal? (generateNordColors e) ("bright_" ++ "red")).getD "")) ∧
    (lightnessOfHex ((findVal? (generateNordColors e) "green").getD "") - 1/255 ≤
      lightnessOfHex ((findVal? (generateNordColors e) ("bright_" ++ "green")).getD "")) ∧
    (lightnessOfHex ((findVal? (generateNordColors e) "yellow").getD "") - 1/255 ≤
      lightnessOfHex ((findVal? (generateNordColors e) ("bright_" ++ "yellow")).getD "")) ∧
    (lightnessOfHex ((findVal? (generateNordColors e) "blue").getD "") - 1/255 ≤
      lightnessOfHex ((findVal? (generateNordColors e) ("bright_" ++ "blue")).getD "")) ∧
    (lightnessOfHex ((findVal? (generateNordColors e) "magenta").getD "") - 1/255 ≤
      lightnessOfHex ((findVal? (generateNordColors e) ("bright_" ++ "magenta")).getD "")) ∧
    (lightnessOfHex ((findVal? (generateNordColors e) "cyan").getD "") - 1/255 ≤
      lightnessOfHex ((findVal? (generateNordColors e) ("bright_" ++ "cyan")).getD "")) ∧
    (lightnessOfHex ((findVal? (generateNordColors e) "white").getD "") - 1/255 ≤
      lightnessOfHex ((findVal? (generateNordColors e) ("bright_" ++ "white")).getD "")) := by
  have hl := fun n => (he n).1
  have hu := fun n => (he n).2
  simp +decide only [generateNordColors, paletteRoleEntries, nordBase,
    if_true, if_false, findVal?, Option.getD_some, Nat.reduceAdd, hsl_nord_black, hsl_nord_red, hsl_nord_green, hsl_nord_yellow, hsl_nord_blue, hsl_nord_magenta, hsl_nord_cyan, hsl_nord_white]
  refine ⟨?_, ?_, ?_, ?_, ?_, ?_, ?_, ?_⟩
  · apply pair_cap
    case hh1 => exact (goMod1_bounds (by linarith [hl 9, hu 9])).1
    case hh2 => exact (goMod1_bounds (by linarith [hl 9, hu 9])).2
    case hs11 => exact le_max_left _ _
    case hs12 => exact max_le (by norm_num) (min_le_left _ _)
    case hs21 => exact le_min (by norm_num) (add_nonneg (le_max_left _ _) (by norm_num))
    case hs22 => exact min_le_left _ _
    case hl1 => exact le_max_left _ _
    case hlc => exact max_le (by norm_num) (min_le_left _ _)
    case hc1 => norm_num
    case hδ => norm_num
  · apply pair_cap
    case hh1 => exact (goMod1_bounds (by linarith [hl 12, hu 12])).1
    case hh2 => exact (goMod1_bounds (by linarith [hl 12, hu 12])).2
    case hs11 => exact le_max_left _ _
    case hs12 => exact max_le (by norm_num) (min_le_left _ _)
    case hs21 => exact le_min (by norm_num) (add_nonneg (le_max_left _ _) (by norm_num))
    case hs22 => exact min_le_left _ _
    case hl1 => exact le_max_left _ _
    case hlc => exact max_le (by norm_num) (min_le_left _ _)
    case hc1 => norm_num
    case hδ => norm_num
  · apply pair_cap
    case hh1 => exact (goMod1_bounds (by linarith [hl 15, hu 15])).1
    case hh2 => exact (goMod1_bounds (by linarith [hl 15, hu 15])).2
    case hs11 => exact le_max_left _ _
    case hs12 => exact max_le (by norm_num) (min_le_left _ _)
    case hs21 => exact le_min (by norm_num) (add_nonneg (le_max_left _ _) (by norm_num))
    case hs22 => exact min_le_left _ _
    case hl1 => exact le_max_left _ _
    case hlc => exact max_le (by norm_num) (min_le_left _ _)
    case hc1 => norm_num
    case hδ => norm_num
  · apply pair_cap
    case hh1 => exact (goMod1_bounds (by linarith [hl 18, hu 18])).1
    case hh2 => exact (goMod1_bounds (by linarith [hl 18, hu 18])).2
    case hs11 => exact le_max_left _ _
    case hs12 => exact max_le (by norm_num) (min_le_left _ _)
    case hs21 => exact le_min (by norm_num) (add_nonneg (le_max_left _ _) (by norm_num))
    case hs22 => exact min_le_left _ _
    case hl1 => exact le_max_left _ _
    case hlc => exact max_le (by norm_num) (min_le_left _ _)
    case hc1 => norm_num
    case hδ => norm_num
  · apply pair_cap
    case hh1 => exact (goMod1_bounds (by linarith [hl 21, hu 21])).1
    case hh2 => exact (goMod1_bounds (by linarith [hl 21, hu 21])).2
    case hs11 => exact le_max_left _ _
    case hs12 => exact max_le (by norm_num) (min_le_left _ _)
    case hs21 => exact le_min (by norm_num) (add_nonneg (le_max_left _ _) (by norm_num))
    case hs22 => exact min_le_left _ _
    case hl1 => exact le_max_left _ _
    case hlc => exact max_le (by norm_num) (min_le_left _ _)
    case hc1 => norm_num
    case hδ => norm_num
  · apply pair_cap
    case hh1 => exact (goMod1_bounds (by linarith [hl 24, hu 24])).1
    case hh2 => exact (goMod1_bounds (by linarith [hl 24, hu 24])).2
    case hs11 => exact le_max_left _ _
    case hs12 => exact max_le (by norm_num) (min_le_left _ _)
    case hs21 => exact le_min (by norm_num) (add_nonneg (le_max_left _ _) (by norm_num))
    case hs22 => exact min_le_left _ _
    case hl1 => exact le_max_left _ _
    case hlc => exact max_le (by norm_num) (min_le_left _ _)
    case hc1 => norm_num
    case hδ => norm_num
  · apply pair_cap
    case hh1 => exact (goMod1_bounds (by linarith [hl 27, hu 27])).1
    case hh2 => exact (goMod1_bounds (by linarith [hl 27, hu 27])).2
    case hs11 => exact le_max_left _ _
    case hs12 => exact max_le (by norm_num) (min_le_left _ _)
    case hs21 => exact le_min (by norm_num) (add_nonneg (le_max_left _ _) (by norm_num))
    case hs22 => exact min_le_left _ _
    case hl1 => exact le_max_left _ _
    case hlc => exact max_le (by norm_num) (min_le_left _ _)
    case hc1 => norm_num
    case hδ => norm_num
  · apply pair_cap
    case hh1 => exact (goMod1_bounds (by linarith [hl 30, hu 30])).1
    case hh2 => exact (goMod1_bounds (by linarith [hl 30, hu 30])).2
    case hs11 => exact le_max_left _ _
    case hs12 => exact max_le (by norm_num) (min_le_left _ _)
    case hs21 => exact le_min (by norm_num) (add_nonneg (le_max_left _ _) (by norm_num))
    case hs22 => exact min_le_left _ _
    case hl1 => exact le_max_left _ _
    case hlc => exact max_le (by norm_num) (min_le_left _ _)
    case hc1 => norm_num
    case hδ => norm_num

/-- In `generateSolarizedColors` every bright tone is at least as light as its base tone, up to the 1/255 rendering loss. -/
theorem solarizedColors_pairs (e : Entropy) (he : validE e) :
    (lightnessOfHex ((findVal? (generateSolarizedColors e) "black").getD "") - 1/255 ≤
      lightnessOfHex ((findVal? (generateSolarizedColors e) ("bright_" ++ "black")).getD "")) ∧
    (lightnessOfHex ((findVal? (generateSolarizedColors e) "red").getD "") - 1/255 ≤
      lightnessOfHex ((findVal? (generateSolarizedColors e) ("bright_" ++ "red")).getD "")) ∧
    (lightnessOfHex ((findVal? (generateSolarizedColors e) "green").getD "") - 1/255 ≤
      lightnessOfHex ((findVal? (generateSolarizedColors e) ("bright_" ++ "green")).getD "")) ∧
    (lightnessOfHex ((findVal? (generateSolarizedColors e) "yellow").getD "") - 1/255 ≤
      lightnessOfHex ((findVal? (generateSolarizedColors e) ("bright_" ++ "yellow")).getD "")) ∧
    (lightnessOfHex ((findVal? (generateSolarizedColors e) "blue").getD "") - 1/255 ≤
      lightnessOfHex ((findVal? (generateSolarizedColors e) ("bright_" ++ "blue")).getD "")) ∧
    (lightnessOfHex ((findVal? (generateSolarizedColors e) "magenta").getD "") - 1/255 ≤
      lightnessOfHex ((findVal? (generateSolarizedColors e) ("bright_" ++ "magenta")).getD "")) ∧
    (lightnessOfHex ((findVal? (generateSolarizedColors e) "cyan").getD "") - 1/255 ≤
      lightnessOfHex ((findVal? (generateSolarizedColors e) ("bright_" ++ "cyan")).getD "")) ∧
    (lightnessOfHex ((findVal? (generateSolarizedColors e) "white").getD "") - 1/255 ≤
      lightnessOfHex ((findVal? (generateSolarizedColors e) ("bright_" ++ "white")).getD "")) := by
  have hl := fun n => (he n).1
  have hu := fun n => (he n).2
  simp +decide only [generateSolarizedColors, paletteRoleEntries, solarizedBase,
    if_true, if_false, findVal?, Option.getD_some, Nat.reduceAdd, hsl_solarized_black, hsl_solarized_red, hsl_solarized_green, hsl_solarized_yellow, hsl_solarized_blue, hsl_solarized_magenta, hsl_solarized_cyan, hsl_solarized_white]
  refine ⟨?_, ?_, ?_, ?_, ?_, ?_, ?_, ?_⟩
  · apply pair_cap
    case hh1 => exact (goMod1_bounds (by linarith [hl 9, hu 9])).1
    case hh2 => exact (goMod1_bounds (by linarith [hl 9, hu 9])).2
    case hs11 => exact le_max_left _ _
    case hs12 => exact max_le (by norm_num) (min_le_left _ _)
    case hs21 => exact le_min (by norm_num) (add_nonneg (le_max_left _ _) (by norm_num))
    case hs22 => exact min_le_left _ _
    case hl1 => exact le_max_left _ _
    case hlc => exact max_le (by norm_num) (min_le_left _ _)
    case hc1 => norm_num
    case hδ => norm_num
  · apply pair_cap
    case hh1 => exact (goMod1_bounds (by linarith [hl 12, hu 12])).1
    case hh2 => exact (goMod1_bounds (by linarith [hl 12, hu 12])).2
    case hs11 => exact le_max_left _ _
    case hs12 => exact max_le (by norm_num) (min_le_left _ _)
    case hs21 => exact le_min (by norm_num) (add_nonneg (le_max_left _ _) (by norm_num))
    case hs22 => exact min_le_left _ _
    case hl1 => exact le_max_left _ _
    case hlc => exact max_le (by norm_num) (min_le_left _ _)
    case hc1 => norm_num
    case hδ => norm_num
  · apply pair_cap
    case hh1 => exact (goMod1_bounds (by linarith [hl 15, hu 15])).1
    case hh2 => exact (goMod1_bounds (by linarith [hl 15, hu 15])).2
    case hs11 => exact le_max_left _ _
    case hs12 => exact max_le (by norm_num) (min_le_left _ _)
    case hs21 => exact le_min (by norm_num) (add_nonneg (le_max_left _ _) (by norm_num))
    case hs22 => exact min_le_left _ _
    case hl1 => exact le_max_left _ _
    case hlc => exact max_le (by norm_num) (min_le_left _ _)
    case hc1 => norm_num
    case hδ => norm_num
  · apply pair_cap
    case hh1 => exact (goMod1_bounds (by linarith [hl 18, hu 18])).1
    case hh2 => exact (goMod1_bounds (by linarith [hl 18, hu 18])).2
    case hs11 => exact le_max_left _ _
    case hs12 => exact max_le (by norm_num) (min_le_left _ _)
    case hs21 => exact le_min (by norm_num) (add_nonneg (le_max_left _ _) (by norm_num))
    case hs22 => exact min_le_left _ _
    case hl1 => exact le_max_left _ _
    case hlc => exact max_le (by norm_num) (min_le_left _ _)
    case hc1 => norm_num
    case hδ => norm_num
  · apply pair_cap
    case hh1 => exact (goMod1_bounds (by linarith [hl 21, hu 21])).1
    case hh2 => exact (goMod1_bounds (by linarith [hl 21, hu 21])).2
    case hs11 => exact le_max_left _ _
    case hs12 => exact max_le (by norm_num) (min_le_left _ _)
    case hs21 => exact le_min (by norm_num) (add_nonneg (le_max_left _ _) (by norm_num))
    case hs22 => exact min_le_left _ _
    case hl1 => exact le_max_left _ _
    case hlc => exact max_le (by norm_num) (min_le_left _ _)
    case hc1 => norm_num
    case hδ => norm_num
  · apply pair_cap
    case hh1 => exact (goMod1_bounds (by linarith [hl 24, hu 24])).1
    case hh2 => exact (goMod1_bounds (by linarith [hl 24, hu 24])).2
    case hs11 => exact le_max_left _ _
    case hs12 => exact max_le (by norm_num) (min_le_left _ _)
    case hs21 => exact le_min (by norm_num) (add_nonneg (le_max_left _ _) (by norm_num))
    case hs22 => exact min_le_left _ _
    case hl1 => exact le_max_left _ _
    case hlc => exact max_le (by norm_num) (min_le_left _ _)
    case hc1 => norm_num
    case hδ => norm_num
  · apply pair_cap
    case hh1 => exact (goMod1_bounds (by linarith [hl 27, hu 27])).1
    case hh2 => exact (goMod1_bounds (by linarith [hl 27, hu 27])).2
    case hs11 => exact le_max_left _ _
    case hs12 => exact max_le (by norm_num) (min_le_left _ _)
    case hs21 => exact le_min (by norm_num) (add_nonneg (le_max_left _ _) (by norm_num))
    case hs22 => exact min_le_left _ _
    case hl1 => exact le_max_left _ _
    case hlc => exact max_le (by norm_num) (min_le_left _ _)
    case hc1 => norm_num
    case hδ => norm_num
  · apply pair_cap
    case hh1 => exact (goMod1_bounds (by linarith [hl 30, hu 30])).1
    case hh2 => exact (goMod1_bounds (by linarith [hl 30, hu 30])).2
    case hs11 => exact le_max_left _ _
    case hs12 => exact max_le (by norm_num) (min_le_left _ _)
    case hs21 => exact le_min (by norm_num) (add_nonneg (le_max_left _ _) (by norm_num))
    case hs22 => exact min_le_left _ _
    case hl1 => exact le_max_left _ _
    case hlc => exact max_le (by norm_num) (min_le_left _ _)
    case hc1 => norm_num
    case hδ => norm_num

/-- In `generateGruvboxColors` every bright tone is at least as light as its base tone, up to the 1/255 rendering loss. -/
theorem gruvboxColors_pairs (e : Entropy) (he : validE e) :
    (lightnessOfHex ((findVal? (generateGruvboxColors e) "black").getD "") - 1/255 ≤
      lightnessOfHex ((findVal? (generateGruvboxColors e) ("bright_" ++ "black")).getD "")) ∧
    (lightnessOfHex ((findVal? (generateGruvboxColors e) "red").getD "") - 1/255 ≤
      lightnessOfHex ((findVal? (generateGruvboxColors e) ("bright_" ++ "red")).getD "")) ∧
    (lightnessOfHex ((findVal? (generateGruvboxColors e) "green").getD "") - 1/255 ≤
      lightnessOfHex ((findVal? (generateGruvboxColors e) ("bright_" ++ "green")).getD "")) ∧
    (lightnessOfHex ((findVal? (generateGruvboxColors e) "yellow").getD "") - 1/255 ≤
      lightnessOfHex ((findVal? (generateGruvboxColors e) ("bright_" ++ "yellow")).getD "")) ∧
    (lightnessOfHex ((findVal? (generateGruvboxColors e) "blue").getD "") - 1/255 ≤
      lightnessOfHex ((findVal? (generateGruvboxColors e) ("bright_" ++ "blue")).getD "")) ∧
    (lightnessOfHex ((findVal? (generateGruvboxColors e) "magenta").getD "") - 1/255 ≤
      lightnessOfHex ((findVal? (generateGruvboxColors e) ("bright_" ++ "magenta")).getD "")) ∧
    (lightnessOfHex ((findVal? (generateGruvboxColors e) "cyan").getD "") - 1/255 ≤
      lightnessOfHex ((findVal? (generateGruvboxColors e) ("bright_" ++ "cyan")).getD "")) ∧
    (lightnessOfHex ((findVal? (generateGruvboxColors e) "white").getD "") - 1/255 ≤
      lightnessOfHex ((findVal? (generateGruvboxColors e) ("bright_" ++ "white")).getD "")) := by
  have hl := fun n => (he n).1
  have hu := fun n => (he n).2
  simp +decide only [generateGruvboxColors, paletteRoleEntries, gruvboxBase,
    if_true, if_false, findVal?, Option.getD_some, Nat.reduceAdd, hsl_gruvbox_black, hsl_gruvbox_red, hsl_gruvbox_green, hsl_gruvbox_yellow, hsl_gruvbox_blue, hsl_gruvbox_magenta, hsl_gruvbox_cyan, hsl_gruvbox_white]
  refine ⟨?_, ?_, ?_, ?_, ?_, ?_, ?_, ?_⟩
  · apply pair_cap
    case hh1 => exact (goMod1_bounds (by linarith [hl 9, hu 9])).1
    case hh2 => exact (goMod1_bounds (by linarith [hl 9, hu 9])).2
    case hs11 => exact le_max_left _ _
    case hs12 => exact max_le (by norm_num) (min_le_left _ _)
    case hs21 => exact le_min (by norm_num) (add_nonneg (le_max_left _ _) (by norm_num))
    case hs22 => exact min_le_left _ _
    case hl1 => exact le_max_left _ _
    case hlc => exact max_le (by norm_num) (min_le_left _ _)
    case hc1 => norm_num
    case hδ => norm_num
  · apply pair_cap
    case hh1 => exact (goMod1_bounds (by linarith [hl 12, hu 12])).1
    case hh2 => exact (goMod1_bounds (by linarith [hl 12, hu 12])).2
    case hs11 => exact le_max_left _ _
    case hs12 => exact max_le (by norm_num) (min_le_left _ _)
    case hs21 => exact le_min (by norm_num) (add_nonneg (le_max_left _ _) (by norm_num))
    case hs22 => exact min_le_left _ _
    case hl1 => exact le_max_left _ _
    case hlc => exact max_le (by norm_num) (min_le_left _ _)
    case hc1 => norm_num
    case hδ => norm_num
  · apply pair_cap
    case hh1 => exact (goMod1_bounds (by linarith [hl 15, hu 15])).1
    case hh2 => exact (goMod1_bounds (by linarith [hl 15, hu 15])).2
    case hs11 => exact le_max_left _ _
    case hs12 => exact max_le (by norm_num) (min_le_left _ _)
    case hs21 => exact le_min (by norm_num) (add_nonneg (le_max_left _ _) (by norm_num))
    case hs22 => exact min_le_left _ _
    case hl1 => exact le_max_left _ _
    case hlc => exact max_le (by norm_num) (min_le_left _ _)
    case hc1 => norm_num
    case hδ => norm_num
  · apply pair_cap
    case hh1 => exact (goMod1_bounds (by linarith [hl 18, hu 18])).1
    case hh2 => exact (goMod1_bounds (by linarith [hl 18, hu 18])).2
    case hs11 => exact le_max_left _ _
    case hs12 => exact max_le (by norm_num) (min_le_left _ _)
    case hs21 => exact le_min (by norm_num) (add_nonneg (le_max_left _ _) (by norm_num))
    case hs22 => exact min_le_left _ _
    case hl1 => exact le_max_left _ _
    case hlc => exact max_le (by norm_num) (min_le_left _ _)
    case hc1 => norm_num
    case hδ => norm_num
  · apply pair_cap
    case hh1 => exact (goMod1_bounds (by linarith [hl 21, hu 21])).1
    case hh2 => exact (goMod1_bounds (by linarith [hl 21, hu 21])).2
    case hs11 => exact le_max_left _ _
    case hs12 => exact max_le (by norm_num) (min_le_left _ _)
    case hs21 => exact le_min (by norm_num) (add_nonneg (le_max_left _ _) (by norm_num))
    case hs22 => exact min_le_left _ _
    case hl1 => exact le_max_left _ _
    case hlc => exact max_le (by norm_num) (min_le_left _ _)
    case hc1 => norm_num
    case hδ => norm_num
  · apply pair_cap
    case hh1 => exact (goMod1_bounds (by linarith [hl 24, hu 24])).1
    case hh2 => exact (goMod1_bounds (by linarith [hl 24, hu 24])).2
    case hs11 => exact le_max_left _ _
    case hs12 => exact max_le (by norm_num) (min_le_left _ _)
    case hs21 => exact le_min (by norm_num) (add_nonneg (le_max_left _ _) (by norm_num))
    case hs22 => exact min_le_left _ _
    case hl1 => exact le_max_left _ _
    case hlc => exact max_le (by norm_num) (min_le_left _ _)
    case hc1 => norm_num
    case hδ => norm_num
  · apply pair_cap
    case hh1 => exact (goMod1_bounds (by linarith [hl 27, hu 27])).1
    case hh2 => exact (goMod1_bounds (by linarith [hl 27, hu 27])).2
    case hs11 => exact le_max_left _ _
    case hs12 => exact max_le (by norm_num) (min_le_left _ _)
    case hs21 => exact le_min (by norm_num) (add_nonneg (le_max_left _ _) (by norm_num))
    case hs22 => exact min_le_left _ _
    case hl1 => exact le_max_left _ _
    case hlc => exact max_le (by norm_num) (min_le_left _ _)
    case hc1 => norm_num
    case hδ => norm_num
  · apply pair_cap
    case hh1 => exact (goMod1_bounds (by linarith [hl 30, hu 30])).1
    case hh2 => exact (goMod1_bounds (by linarith [hl 30, hu 30])).2
    case hs11 => exact le_max_left _ _
    case hs12 => exact max_le (by norm_num) (min_le_left _ _)
    case hs21 => exact le_min (by norm_num) (add_nonneg (le_max_left _ _) (by norm_num))
    case hs22 => exact min_le_left _ _
    case hl1 => exact le_max_left _ _
    case hlc => exact max_le (by norm_num) (min_le_left _ _)
    case hc1 => norm_num
    case hδ => norm_num

/-- In `generateRandomColors` the bright tone of black and of each chromatic role is at least as light as its base tone, up to the 1/255 rendering loss (white is the exception: its base lightness can exceed the capped bright lightness). -/
theorem randomColors_pairs (e : Entropy) (he : validE e) :
    (lightnessOfHex ((findVal? (generateRandomColors e) "black").getD "") - 1/255 ≤
      lightnessOfHex ((findVal? (generateRandomColors e) ("bright_" ++ "black")).getD "")) ∧
    (lightnessOfHex ((findVal? (generateRandomColors e) "red").getD "") - 1/255 ≤
      lightnessOfHex ((findVal? (generateRandomColors e) ("bright_" ++ "red")).getD "")) ∧
    (lightnessOfHex ((findVal? (generateRandomColors e) "green").getD "") - 1/255 ≤
      lightnessOfHex ((findVal? (generateRandomColors e) ("bright_" ++ "green")).getD "")) ∧
    (lightnessOfHex ((findVal? (generateRandomColors e) "yellow").getD "") - 1/255 ≤
      lightnessOfHex ((findVal? (generateRandomColors e) ("bright_" ++ "yellow")).getD "")) ∧
    (lightnessOfHex ((findVal? (generateRandomColors e) "blue").getD "") - 1/255 ≤
      lightnessOfHex ((findVal? (generateRandomColors e) ("bright_" ++ "blue")).getD "")) ∧
    (lightnessOfHex ((findVal? (generateRandomColors e) "magenta").getD "") - 1/255 ≤
      lightnessOfHex ((findVal? (generateRandomColors e) ("bright_" ++ "magenta")).getD "")) ∧
    (lightnessOfHex ((findVal? (generateRandomColors e) "cyan").getD "") - 1/255 ≤
      lightnessOfHex ((findVal? (generateRandomColors e) ("bright_" ++ "cyan")).getD "")) := by
  have hl := fun n => (he n).1
  have hu := fun n => (he n).2
  simp +decide only [generateRandomColors, randomRoleEntries, randomHues, roleNames,
    List.zip_cons_cons, List.zip_nil_right, if_true, if_false, findVal?, Option.getD_some, Nat.reduceAdd]
  refine ⟨?_, ?_, ?_, ?_, ?_, ?_, ?_⟩
  · apply pair_cap
    case hh1 => linarith [hl 0]
    case hh2 => linarith [hu 0]
    case hs11 => norm_num
    case hs12 => norm_num
    case hs21 => exact le_min (by norm_num) (by norm_num)
    case hs22 => exact min_le_left _ _
    case hl1 => linarith [hl 3]
    case hlc => linarith [hu 3]
    case hc1 => norm_num
    case hδ => norm_num
  · apply pair_cap
    case hh1 => exact (goMod1_bounds (by linarith [hl 0, hl 4])).1
    case hh2 => exact (goMod1_bounds (by linarith [hl 0, hl 4])).2
    case hs11 => linarith [hl 5]
    case hs12 => linarith [hu 5]
    case hs21 => exact le_min (by norm_num) (by linarith [hl 5])
    case hs22 => exact min_le_left _ _
    case hl1 => linarith [hl 6]
    case hlc => linarith [hu 6]
    case hc1 => norm_num
    case hδ => norm_num
  · apply pair_cap
    case hh1 => exact (goMod1_bounds (by linarith [hl 0, hl 7])).1
    case hh2 => exact (goMod1_bounds (by linarith [hl 0, hl 7])).2
    case hs11 => linarith [hl 8]
    case hs12 => linarith [hu 8]
    case hs21 => exact le_min (by norm_num) (by linarith [hl 8])
    case hs22 => exact min_le_left _ _
    case hl1 => linarith [hl 9]
    case hlc => linarith [hu 9]
    case hc1 => norm_num
    case hδ => norm_num
  · apply pair_cap
    case hh1 => exact (goMod1_bounds (by linarith [hl 0, hl 10])).1
    case hh2 => exact (goMod1_bounds (by linarith [hl 0, hl 10])).2
    case hs11 => linarith [hl 11]
    case hs12 => linarith [hu 11]
    case hs21 => exact le_min (by norm_num) (by linarith [hl 11])
    case hs22 => exact min_le_left _ _
    case hl1 => linarith [hl 12]
    case hlc => linarith [hu 12]
    case hc1 => norm_num
    case hδ => norm_num
  · apply pair_cap
    case hh1 => exact (goMod1_bounds (by linarith [hl 0, hl 13])).1
    case hh2 => exact (goMod1_bounds (by linarith [hl 0, hl 13])).2
    case hs11 => linarith [hl 14]
    case hs12 => linarith [hu 14]
    case hs21 => exact le_min (by norm_num) (by linarith [hl 14])
    case hs22 => exact min_le_left _ _
    case hl1 => linarith [hl 15]
    case hlc => linarith [hu 15]
    case hc1 => norm_num
    case hδ => norm_num
  · apply pair_cap
    case hh1 => exact (goMod1_bounds (by linarith [hl 0, hl 16])).1
    case hh2 => exact (goMod1_bounds (by linarith [hl 0, hl 16])).2
    case hs11 => linarith [hl 17]
    case hs12 => linarith [hu 17]
    case hs21 => exact le_min (by norm_num) (by linarith [hl 17])
    case hs22 => exact min_le_left _ _
    case hl1 => linarith [hl 18]
    case hlc => linarith [hu 18]
    case hc1 => norm_num
    case hδ => norm_num
  · apply pair_cap
    case hh1 => exact (goMod1_bounds (by linarith [hl 0, hl 19])).1
    case hh2 => exact (goMod1_bounds (by linarith [hl 0, hl 19])).2
    case hs11 => linarith [hl 20]
    case hs12 => linarith [hu 20]
    case hs21 => exact le_min (by norm_num) (by linarith [hl 20])
    case hs22 => exact min_le_left _ _
    case hl1 => linarith [hl 21]
    case hlc => linarith [hu 21]
    case hc1 => norm_num
    case hδ => norm_num

/-- In `generatePastelColors` the bright tone of each chromatic role is at least as light as its base tone, up to the 1/255 rendering loss (black and white use fixed literals whose bright variants are darker). -/
theorem pastelColors_pairs (e : Entropy) (he : validE e) :
    (lightnessOfHex ((findVal? (generatePastelColors e) "red").getD "") - 1/255 ≤
      lightnessOfHex ((findVal? (generatePastelColors e) ("bright_" ++ "red")).getD "")) ∧
    (lightnessOfHex ((findVal? (generatePastelColors e) "green").getD "") - 1/255 ≤
      lightnessOfHex ((findVal? (generatePastelColors e) ("bright_" ++ "green")).getD "")) ∧
    (lightnessOfHex ((findVal? (generatePastelColors e) "yellow").getD "") - 1/255 ≤
      lightnessOfHex ((findVal? (generatePastelColors e) ("bright_" ++ "yellow")).getD "")) ∧
    (lightnessOfHex ((findVal? (generatePastelColors e) "blue").getD "") - 1/255 ≤
      lightnessOfHex ((findVal? (generatePastelColors e) ("bright_" ++ "blue")).getD "")) ∧
    (lightnessOfHex ((findVal? (generatePastelColors e) "magenta").getD "") - 1/255 ≤
      lightnessOfHex ((findVal? (generatePastelColors e) ("bright_" ++ "magenta")).getD "")) ∧
    (lightnessOfHex ((findVal? (generatePastelColors e) "cyan").getD "") - 1/255 ≤
      lightnessOfHex ((findVal? (generatePastelColors e) ("bright_" ++ "cyan")).getD "")) := by
  have hl := fun n => (he n).1
  have hu := fun n => (he n).2
  simp +decide only [generatePastelColors, pastelRoleEntries, pastelHues, roleNames,
    List.zip_cons_cons, List.zip_nil_right, if_true, if_false, findVal?, Option.getD_some, Nat.reduceAdd]
  refine ⟨?_, ?_, ?_, ?_, ?_, ?_⟩
  · apply pair_cap
    case hh1 => exact (goMod1_bounds (by linarith [hl 0, hl 1])).1
    case hh2 => exact (goMod1_bounds (by linarith [hl 0, hl 1])).2
    case hs11 => linarith [hl 2]
    case hs12 => linarith [hu 2]
    case hs21 => linarith [hl 2]
    case hs22 => linarith [hu 2]
    case hl1 => linarith [hl 3]
    case hlc => linarith [hu 3]
    case hc1 => norm_num
    case hδ => norm_num
  · apply pair_cap
    case hh1 => exact (goMod1_bounds (by linarith [hl 0, hl 4])).1
    case hh2 => exact (goMod1_bounds (by linarith [hl 0, hl 4])).2
    case hs11 => linarith [hl 5]
    case hs12 => linarith [hu 5]
    case hs21 => linarith [hl 5]
    case hs22 => linarith [hu 5]
    case hl1 => linarith [hl 6]
    case hlc => linarith [hu 6]
    case hc1 => norm_num
    case hδ => norm_num
  · apply pair_cap
    case hh1 => exact (goMod1_bounds (by linarith [hl 0, hl 7])).1
    case hh2 => exact (goMod1_bounds (by linarith [hl 0, hl 7])).2
    case hs11 => linarith [hl 8]
    case hs12 => linarith [hu 8]
    case hs21 => linarith [hl 8]
    case hs22 => linarith [hu 8]
    case hl1 => linarith [hl 9]
    case hlc => linarith [hu 9]
    case hc1 => norm_num
    case hδ => norm_num
  · apply pair_cap
    case hh1 => exact (goMod1_bounds (by linarith [hl 0, hl 10])).1
    case hh2 => exact (goMod1_bounds (by linarith [hl 0, hl 10])).2
    case hs11 => linarith [hl 11]
    case hs12 => linarith [hu 11]
    case hs21 => linarith [hl 11]
    case hs22 => linarith [hu 11]
    case hl1 => linarith [hl 12]
    case hlc => linarith [hu 12]
    case hc1 => norm_num
    case hδ => norm_num
  · apply pair_cap
    case hh1 => exact (goMod1_bounds (by linarith [hl 0, hl 13])).1
    case hh2 => exact (goMod1_bounds (by linarith [hl 0, hl 13])).2
    case hs11 => linarith [hl 14]
    case hs12 => linarith [hu 14]
    case hs21 => linarith [hl 14]
    case hs22 => linarith [hu 14]
    case hl1 => linarith [hl 15]
    case hlc => linarith [hu 15]
    case hc1 => norm_num
    case hδ => norm_num
  · apply pair_cap
    case hh1 => exact (goMod1_bounds (by linarith [hl 0, hl 16])).1
    case hh2 => exact (goMod1_bounds (by linarith [hl 0, hl 16])).2
    case hs11 => linarith [hl 17]
    case hs12 => linarith [hu 17]
    case hs21 => linarith [hl 17]
    case hs22 => linarith [hu 17]
    case hl1 => linarith [hl 18]
    case hlc => linarith [hu 18]
    case hc1 => norm_num
    case hδ => norm_num

/-- In `generateNeonColors` the bright tone of each chromatic role is at least as light as its base tone, up to the 1/255 rendering loss. -/
theorem neonColors_pairs (e : Entropy) (he : validE e) :
    (lightnessOfHex ((findVal? (generateNeonColors e) "red").getD "") - 1/255 ≤
      lightnessOfHex ((findVal? (generateNeonColors e) ("bright_" ++ "red")).getD "")) ∧
    (lightnessOfHex ((findVal? (generateNeonColors e) "green").getD "") - 1/255 ≤
      lightnessOfHex ((findVal? (generateNeonColors e) ("bright_" ++ "green")).getD "")) ∧
    (lightnessOfHex ((findVal? (generateNeonColors e) "yellow").getD "") - 1/255 ≤
      lightnessOfHex ((findVal? (generateNeonColors e) ("bright_" ++ "yellow")).getD "")) ∧
    (lightnessOfHex ((findVal? (generateNeonColors e) "blue").getD "") - 1/255 ≤
      lightnessOfHex ((findVal? (generateNeonColors e) ("bright_" ++ "blue")).getD "")) ∧
    (lightnessOfHex ((findVal? (generateNeonColors e) "magenta").getD "") - 1/255 ≤
      lightnessOfHex ((findVal? (generateNeonColors e) ("bright_" ++ "magenta")).getD "")) ∧
    (lightnessOfHex ((findVal? (generateNeonColors e) "cyan").getD "") - 1/255 ≤
      lightnessOfHex ((findVal? (generateNeonColors e) ("bright_" ++ "cyan")).getD "")) := by
  have hl := fun n => (he n).1
  have hu := fun n => (he n).2
  simp +decide only [generateNeonColors, neonRoleEntries, neonHues, roleNames,
    List.zip_cons_cons, List.zip_nil_right, if_true, if_false, findVal?, Option.getD_some, Nat.reduceAdd]
  refine ⟨?_, ?_, ?_, ?_, ?_, ?_⟩
  · apply pair_cap
    case hh1 => norm_num
    case hh2 => norm_num
    case hs11 => norm_num
    case hs12 => norm_num
    case hs21 => norm_num
    case hs22 => norm_num
    case hl1 => linarith [hl 0]
    case hlc => linarith [hu 0]
    case hc1 => norm_num
    case hδ => norm_num
  · apply pair_cap
    case hh1 => norm_num
    case hh2 => norm_num
    case hs11 => norm_num
    case hs12 => norm_num
    case hs21 => norm_num
    case hs22 => norm_num
    case hl1 => linarith [hl 1]
    case hlc => linarith [hu 1]
    case hc1 => norm_num
    case hδ => norm_num
  · apply pair_cap
    case hh1 => norm_num
    case hh2 => norm_num
    case hs11 => norm_num
    case hs12 => norm_num
    case hs21 => norm_num
    case hs22 => norm_num
    case hl1 => linarith [hl 2]
    case hlc => linarith [hu 2]
    case hc1 => norm_num
    case hδ => norm_num
  · apply pair_cap
    case hh1 => norm_num
    case hh2 => norm_num
    case hs11 => norm_num
    case hs12 => norm_num
    case hs21 => norm_num
    case hs22 => norm_num
    case hl1 => linarith [hl 3]
    case hlc => linarith [hu 3]
    case hc1 => norm_num
    case hδ => norm_num
  · apply pair_cap
    case hh1 => norm_num
    case hh2 => norm_num
    case hs11 => norm_num
    case hs12 => norm_num
    case hs21 => norm_num
    case hs22 => norm_num
    case hl1 => linarith [hl 4]
    case hlc => linarith [hu 4]
    case hc1 => norm_num
    case hδ => norm_num
  · apply pair_cap
    case hh1 => norm_num
    case hh2 => norm_num
    case hs11 => norm_num
    case hs12 => norm_num
    case hs21 => norm_num
    case hs22 => norm_num
    case hl1 => linarith [hl 5]
    case hlc => linarith [hu 5]
    case hc1 => norm_num
    case hδ => norm_num

/-- In `generateWarmColors` the bright tone of each chromatic role is at least as light as its base tone, up to the 1/255 rendering loss. -/
theorem warmColors_pairs (e : Entropy) (he : validE e) :
    (lightnessOfHex ((findVal? (generateWarmColors e) "red").getD "") - 1/255 ≤
      lightnessOfHex ((findVal? (generateWarmColors e) ("bright_" ++ "red")).getD "")) ∧
    (lightnessOfHex ((findVal? (generateWarmColors e) "green").getD "") - 1/255 ≤
      lightnessOfHex ((findVal? (generateWarmColors e) ("bright_" ++ "green")).getD "")) ∧
    (lightnessOfHex ((findVal? (generateWarmColors e) "yellow").getD "") - 1/255 ≤
      lightnessOfHex ((findVal? (generateWarmColors e) ("bright_" ++ "yellow")).getD "")) ∧
    (lightnessOfHex ((findVal? (generateWarmColors e) "blue").getD "") - 1/255 ≤
      lightnessOfHex ((findVal? (generateWarmColors e) ("bright_" ++ "blue")).getD "")) ∧
    (lightnessOfHex ((findVal? (generateWarmColors e) "magenta").getD "") - 1/255 ≤
      lightnessOfHex ((findVal? (generateWarmColors e) ("bright_" ++ "magenta")).getD "")) ∧
    (lightnessOfHex ((findVal? (generateWarmColors e) "cyan").getD "") - 1/255 ≤
      lightnessOfHex ((findVal? (generateWarmColors e) ("bright_" ++ "cyan")).getD "")) := by
  have hl := fun n => (he n).1
  have hu := fun n => (he n).2
  simp +decide only [generateWarmColors, fixedHueRoleEntries, warmHues, roleNames,
    List.zip_cons_cons, List.zip_nil_right, if_true, if_false, findVal?, Option.getD_some, Nat.reduceAdd]
  refine ⟨?_, ?_, ?_, ?_, ?_, ?_⟩
  · apply pair_cap
    case hh1 => norm_num
    case hh2 => norm_num
    case hs11 => linarith [hl 0]
    case hs12 => linarith [hu 0]
    case hs21 => linarith [hl 0]
    case hs22 => linarith [hu 0]
    case hl1 => linarith [hl 1]
    case hlc => linarith [hu 1]
    case hc1 => norm_num
    case hδ => norm_num
  · apply pair_cap
    case hh1 => norm_num
    case hh2 => norm_num
    case hs11 => linarith [hl 2]
    case hs12 => linarith [hu 2]
    case hs21 => linarith [hl 2]
    case hs22 => linarith [hu 2]
    case hl1 => linarith [hl 3]
    case hlc => linarith [hu 3]
    case hc1 => norm_num
    case hδ => norm_num
  · apply pair_cap
    case hh1 => norm_num
    case hh2 => norm_num
    case hs11 => linarith [hl 4]
    case hs12 => linarith [hu 4]
    case hs21 => linarith [hl 4]
    case hs22 => linarith [hu 4]
    case hl1 => linarith [hl 5]
    case hlc => linarith [hu 5]
    case hc1 => norm_num
    case hδ => norm_num
  · apply pair_cap
    case hh1 => norm_num
    case hh2 => norm_num
    case hs11 => linarith [hl 6]
    case hs12 => linarith [hu 6]
    case hs21 => linarith [hl 6]
    case hs22 => linarith [hu 6]
    case hl1 => linarith [hl 7]
    case hlc => linarith [hu 7]
    case hc1 => norm_num
    case hδ => norm_num
  · apply pair_cap
    case hh1 => norm_num
    case hh2 => norm_num
    case hs11 => linarith [hl 8]
    case hs12 => linarith [hu 8]
    case hs21 => linarith [hl 8]
    case hs22 => linarith [hu 8]
    case hl1 => linarith [hl 9]
    case hlc => linarith [hu 9]
    case hc1 => norm_num
    case hδ => norm_num
  · apply pair_cap
    case hh1 => norm_num
    case hh2 => norm_num
    case hs11 => linarith [hl 10]
    case hs12 => linarith [hu 10]
    case hs21 => linarith [hl 10]
    case hs22 => linarith [hu 10]
    case hl1 => linarith [hl 11]
    case hlc => linarith [hu 11]
    case hc1 => norm_num
    case hδ => norm_num

/-- In `generateCoolColors` the bright tone of each chromatic role is at least as light as its base tone, up to the 1/255 rendering loss. -/
theorem coolColors_pairs (e : Entropy) (he : validE e) :
    (lightnessOfHex ((findVal? (generateCoolColors e) "red").getD "") - 1/255 ≤
      lightnessOfHex ((findVal? (generateCoolColors e) ("bright_" ++ "red")).getD "")) ∧
    (lightnessOfHex ((findVal? (generateCoolColors e) "green").getD "") - 1/255 ≤
      lightnessOfHex ((findVal? (generateCoolColors e) ("bright_" ++ "green")).getD "")) ∧
    (lightnessOfHex ((findVal? (generateCoolColors e) "yellow").getD "") - 1/255 ≤
      lightnessOfHex ((findVal? (generateCoolColors e) ("bright_" ++ "yellow")).getD "")) ∧
    (lightnessOfHex ((findVal? (generateCoolColors e) "blue").getD "") - 1/255 ≤
      lightnessOfHex ((findVal? (generateCoolColors e) ("bright_" ++ "blue")).getD "")) ∧
    (lightnessOfHex ((findVal? (generateCoolColors e) "magenta").getD "") - 1/255 ≤
      lightnessOfHex ((findVal? (generateCoolColors e) ("bright_" ++ "magenta")).getD "")) ∧
    (lightnessOfHex ((findVal? (generateCoolColors e) "cyan").getD "") - 1/255 ≤
      lightnessOfHex ((findVal? (generateCoolColors e) ("bright_" ++ "cyan")).getD "")) := by
  have hl := fun n => (he n).1
  have hu := fun n => (he n).2
  simp +decide only [generateCoolColors, fixedHueRoleEntries, coolHues, roleNames,
    List.zip_cons_cons, List.zip_nil_right, if_true, if_false, findVal?, Option.getD_some, Nat.reduceAdd]
  refine ⟨?_, ?_, ?_, ?_, ?_, ?_⟩
  · apply pair_cap
    case hh1 => norm_num
    case hh2 => norm_num
    case hs11 => linarith [hl 0]
    case hs12 => linarith [hu 0]
    case hs21 => linarith [hl 0]
    case hs22 => linarith [hu 0]
    case hl1 => linarith [hl 1]
    case hlc => linarith [hu 1]
    case hc1 => norm_num
    case hδ => norm_num
  · apply pair_cap
    case hh1 => norm_num
    case hh2 => norm_num
    case hs11 => linarith [hl 2]
    case hs12 => linarith [hu 2]
    case hs21 => linarith [hl 2]
    case hs22 => linarith [hu 2]
    case hl1 => linarith [hl 3]
    case hlc => linarith [hu 3]
    case hc1 => norm_num
    case hδ => norm_num
  · apply pair_cap
    case hh1 => norm_num
    case hh2 => norm_num
    case hs11 => linarith [hl 4]
    case hs12 => linarith [hu 4]
    case hs21 => linarith [hl 4]
    case hs22 => linarith [hu 4]
    case hl1 => linarith [hl 5]
    case hlc => linarith [hu 5]
    case hc1 => norm_num
    case hδ => norm_num
  · apply pair_cap
    case hh1 => norm_num
    case hh2 => norm_num
    case hs11 => linarith [hl 6]
    case hs12 => linarith [hu 6]
    case hs21 => linarith [hl 6]
    case hs22 => linarith [hu 6]
    case hl1 => linarith [hl 7]
    case hlc => linarith [hu 7]
    case hc1 => norm_num
    case hδ => norm_num
  · apply pair_cap
    case hh1 => norm_num
    case hh2 => norm_num
    case hs11 => linarith [hl 8]
    case hs12 => linarith [hu 8]
    case hs21 => linarith [hl 8]
    case hs22 => linarith [hu 8]
    case hl1 => linarith [hl 9]
    case hlc => linarith [hu 9]
    case hc1 => norm_num
    case hδ => norm_num
  · apply pair_cap
    case hh1 => norm_num
    case hh2 => norm_num
    case hs11 => linarith [hl 10]
    case hs12 => linarith [hu 10]
    case hs21 => linarith [hl 10]
    case hs22 => linarith [hu 10]
    case hl1 => linarith [hl 11]
    case hlc => linarith [hu 11]
    case hc1 => norm_num
    case hδ => norm_num

/-- In `generateNatureColors` the bright tone of each chromatic role is at least as light as its base tone, up to the 1/255 rendering loss. -/
theorem natureColors_pairs (e : Entropy) (he : validE e) :
    (lightnessOfHex ((findVal? (generateNatureColors e) "red").getD "") - 1/255 ≤
      lightnessOfHex ((findVal? (generateNatureColors e) ("bright_" ++ "red")).getD "")) ∧
    (lightnessOfHex ((findVal? (generateNatureColors e) "green").getD "") - 1/255 ≤
      lightnessOfHex ((findVal? (generateNatureColors e) ("bright_" ++ "green")).getD "")) ∧
    (lightnessOfHex ((findVal? (generateNatureColors e) "yellow").getD "") - 1/255 ≤
      lightnessOfHex ((findVal? (generateNatureColors e) ("bright_" ++ "yellow")).getD "")) ∧
    (lightnessOfHex ((findVal? (generateNatureColors e) "blue").getD "") - 1/255 ≤
      lightnessOfHex ((findVal? (generateNatureColors e) ("bright_" ++ "blue")).getD "")) ∧
    (lightnessOfHex ((findVal? (generateNatureColors e) "magenta").getD "") - 1/255 ≤
      lightnessOfHex ((findVal? (generateNatureColors e) ("bright_" ++ "magenta")).getD "")) ∧
    (lightnessOfHex ((findVal? (generateNatureColors e) "cyan").getD "") - 1/255 ≤
      lightnessOfHex ((findVal? (generateNatureColors e) ("bright_" ++ "cyan")).getD "")) := by
  have hl := fun n => (he n).1
  have hu := fun n => (he n).2
  simp +decide only [generateNatureColors, fixedHueRoleEntries, natureHues, roleNames,
    List.zip_cons_cons, List.zip_nil_right, if_true, if_false, findVal?, Option.getD_some, Nat.reduceAdd]
  refine ⟨?_, ?_, ?_, ?_, ?_, ?_⟩
  · apply pair_cap
    case hh1 => norm_num
    case hh2 => norm_num
    case hs11 => linarith [hl 0]
    case hs12 => linarith [hu 0]
    case hs21 => linarith [hl 0]
    case hs22 => linarith [hu 0]
    case hl1 => linarith [hl 1]
    case hlc => linarith [hu 1]
    case hc1 => norm_num
    case hδ => norm_num
  · apply pair_cap
    case hh1 => norm_num
    case hh2 => norm_num
    case hs11 => linarith [hl 2]
    case hs12 => linarith [hu 2]
    case hs21 => linarith [hl 2]
    case hs22 => linarith [hu 2]
    case hl1 => linarith [hl 3]
    case hlc => linarith [hu 3]
    case hc1 => norm_num
    case hδ => norm_num
  · apply pair_cap
    case hh1 => norm_num
    case hh2 => norm_num
    case hs11 => linarith [hl 4]
    case hs12 => linarith [hu 4]
    case hs21 => linarith [hl 4]
    case hs22 => linarith [hu 4]
    case hl1 => linarith [hl 5]
    case hlc => linarith [hu 5]
    case hc1 => norm_num
    case hδ => norm_num
  · apply pair_cap
    case hh1 => norm_num
    case hh2 => norm_num
    case hs11 => linarith [hl 6]
    case hs12 => linarith [hu 6]
    case hs21 => linarith [hl 6]
    case hs22 => linarith [hu 6]
    case hl1 => linarith [hl 7]
    case hlc => linarith [hu 7]
    case hc1 => norm_num
    case hδ => norm_num
  · apply pair_cap
    case hh1 => norm_num
    case hh2 => norm_num
    case hs11 => linarith [hl 8]
    case hs12 => linarith [hu 8]
    case hs21 => linarith [hl 8]
    case hs22 => linarith [hu 8]
    case hl1 => linarith [hl 9]
    case hlc => linarith [hu 9]
    case hc1 => norm_num
    case hδ => norm_num
  · apply pair_cap
    case hh1 => norm_num
    case hh2 => norm_num
    case hs11 => linarith [hl 10]
    case hs12 => linarith [hu 10]
    case hs21 => linarith [hl 10]
    case hs22 => linarith [hu 10]
    case hl1 => linarith [hl 11]
    case hlc => linarith [hu 11]
    case hc1 => norm_num
    case hδ => norm_num

/-- In `generateCyberpunkColors` the bright tone of each chromatic role is at least as light as its base tone, up to the 1/255 rendering loss. -/
theorem cyberpunkColors_pairs (e : Entropy) (he : validE e) :
    (lightnessOfHex ((findVal? (generateCyberpunkColors e) "red").getD "") - 1/255 ≤
      lightnessOfHex ((findVal? (generateCyberpunkColors e) ("bright_" ++ "red")).getD "")) ∧
    (lightnessOfHex ((findVal? (generateCyberpunkColors e) "green").getD "") - 1/255 ≤
      lightnessOfHex ((findVal? (generateCyberpunkColors e) ("bright_" ++ "green")).getD "")) ∧
    (lightnessOfHex ((findVal? (generateCyberpunkColors e) "yellow").getD "") - 1/255 ≤
      lightnessOfHex ((findVal? (generateCyberpunkColors e) ("bright_" ++ "yellow")).getD "")) ∧
    (lightnessOfHex ((findVal? (generateCyberpunkColors e) "blue").getD "") - 1/255 ≤
      lightnessOfHex ((findVal? (generateCyberpunkColors e) ("bright_" ++ "blue")).getD "")) ∧
    (lightnessOfHex ((findVal? (generateCyberpunkColors e) "magenta").getD "") - 1/255 ≤
      lightnessOfHex ((findVal? (generateCyberpunkColors e) ("bright_" ++ "magenta")).getD "")) ∧
    (lightnessOfHex ((findVal? (generateCyberpunkColors e) "cyan").getD "") - 1/255 ≤
      lightnessOfHex ((findVal? (generateCyberpunkColors e) ("bright_" ++ "cyan")).getD "")) := by
  have hl := fun n => (he n).1
  have hu := fun n => (he n).2
  simp +decide only [generateCyberpunkColors, fixedHueRoleEntries, cyberpunkHues, roleNames,
    List.zip_cons_cons, List.zip_nil_right, if_true, if_false, findVal?, Option.getD_some, Nat.reduceAdd]
  refine ⟨?_, ?_, ?_, ?_, ?_, ?_⟩
  · apply pair_cap
    case hh1 => norm_num
    case hh2 => norm_num
    case hs11 => linarith [hl 0]
    case hs12 => linarith [hu 0]
    case hs21 => linarith [hl 0]
    case hs22 => linarith [hu 0]
    case hl1 => linarith [hl 1]
    case hlc => linarith [hu 1]
    case hc1 => norm_num
    case hδ => norm_num
  · apply pair_cap
    case hh1 => norm_num
    case hh2 => norm_num
    case hs11 => linarith [hl 2]
    case hs12 => linarith [hu 2]
    case hs21 => linarith [hl 2]
    case hs22 => linarith [hu 2]
    case hl1 => linarith [hl 3]
    case hlc => linarith [hu 3]
    case hc1 => norm_num
    case hδ => norm_num
  · apply pair_cap
    case hh1 => norm_num
    case hh2 => norm_num
    case hs11 => linarith [hl 4]
    case hs12 => linarith [hu 4]
    case hs21 => linarith [hl 4]
    case hs22 => linarith [hu 4]
    case hl1 => linarith [hl 5]
    case hlc => linarith [hu 5]
    case hc1 => norm_num
    case hδ => norm_num
  · apply pair_cap
    case hh1 => norm_num
    case hh2 => norm_num
    case hs11 => linarith [hl 6]
    case hs12 => linarith [hu 6]
    case hs21 => linarith [hl 6]
    case hs22 => linarith [hu 6]
    case hl1 => linarith [hl 7]
    case hlc => linarith [hu 7]
    case hc1 => norm_num
    case hδ => norm_num
  · apply pair_cap
    case hh1 => norm_num
    case hh2 => norm_num
    case hs11 => linarith [hl 8]
    case hs12 => linarith [hu 8]
    case hs21 => linarith [hl 8]
    case hs22 => linarith [hu 8]
    case hl1 => linarith [hl 9]
    case hlc => linarith [hu 9]
    case hc1 => norm_num
    case hδ => norm_num
  · apply pair_cap
    case hh1 => norm_num
    case hh2 => norm_num
    case hs11 => linarith [hl 10]
    case hs12 => linarith [hu 10]
    case hs21 => linarith [hl 10]
    case hs22 => linarith [hu 10]
    case hl1 => linarith [hl 11]
    case hlc => linarith [hu 11]
    case hc1 => norm_num
    case hδ => norm_num

/-- In `generateMonochromeColors` every bright tone is at least as light as its base tone, up to the 1/255 rendering loss. -/
theorem monochromeColors_pairs (e : Entropy) (he : validE e) :
    (lightnessOfHex ((findVal? (generateMonochromeColors e) "black").getD "") - 1/255 ≤
      lightnessOfHex ((findVal? (generateMonochromeColors e) ("bright_" ++ "black")).getD "")) ∧
    (lightnessOfHex ((findVal? (generateMonochromeColors e) "red").getD "") - 1/255 ≤
      lightnessOfHex ((findVal? (generateMonochromeColors e) ("bright_" ++ "red")).getD "")) ∧
    (lightnessOfHex ((findVal? (generateMonochromeColors e) "green").getD "") - 1/255 ≤
      lightnessOfHex ((findVal? (generateMonochromeColors e) ("bright_" ++ "green")).getD "")) ∧
    (lightnessOfHex ((findVal? (generateMonochromeColors e) "yellow").getD "") - 1/255 ≤
      lightnessOfHex ((findVal? (generateMonochromeColors e) ("bright_" ++ "yellow")).getD "")) ∧
    (lightnessOfHex ((findVal? (generateMonochromeColors e) "blue").getD "") - 1/255 ≤
      lightnessOfHex ((findVal? (generateMonochromeColors e) ("bright_" ++ "blue")).getD "")) ∧
    (lightnessOfHex ((findVal? (generateMonochromeColors e) "magenta").getD "") - 1/255 ≤
      lightnessOfHex ((findVal? (generateMonochromeColors e) ("bright_" ++ "magenta")).getD "")) ∧
    (lightnessOfHex ((findVal? (generateMonochromeColors e) "cyan").getD "") - 1/255 ≤
      lightnessOfHex ((findVal? (generateMonochromeColors e) ("bright_" ++ "cyan")).getD "")) ∧
    (lightnessOfHex ((findVal? (generateMonochromeColors e) "white").getD "") - 1/255 ≤
      lightnessOfHex ((findVal? (generateMonochromeColors e) ("bright_" ++ "white")).getD "")) := by
  have hl := fun n => (he n).1
  have hu := fun n => (he n).2
  simp +decide only [generateMonochromeColors, monoRoleEntries, monoLightnesses, monoBrightLightnesses, roleNames,
    List.zip_cons_cons, List.zip_nil_right, if_true, if_false, findVal?, Option.getD_some, Nat.reduceAdd]
  refine ⟨?_, ?_, ?_, ?_, ?_, ?_, ?_, ?_⟩
  · apply lightness_pair
    case hh11 => linarith [hl 0]
    case hh12 => linarith [hu 0]
    case hs11 => norm_num
    case hs12 => norm_num
    case hl11 => norm_num
    case hl12 => norm_num
    case hh21 => linarith [hl 0]
    case hh22 => linarith [hu 0]
    case hs21 => norm_num
    case hs22 => norm_num
    case hl21 => norm_num
    case hl22 => norm_num
    case hle => norm_num
  · apply lightness_pair
    case hh11 => linarith [hl 0]
    case hh12 => linarith [hu 0]
    case hs11 => norm_num
    case hs12 => norm_num
    case hl11 => norm_num
    case hl12 => norm_num
    case hh21 => linarith [hl 0]
    case hh22 => linarith [hu 0]
    case hs21 => norm_num
    case hs22 => norm_num
    case hl21 => norm_num
    case hl22 => norm_num
    case hle => norm_num
  · apply lightness_pair
    case hh11 => linarith [hl 0]
    case hh12 => linarith [hu 0]
    case hs11 => norm_num
    case hs12 => norm_num
    case hl11 => norm_num
    case hl12 => norm_num
    case hh21 => linarith [hl 0]
    case hh22 => linarith [hu 0]
    case hs21 => norm_num
    case hs22 => norm_num
    case hl21 => norm_num
    case hl22 => norm_num
    case hle => norm_num
  · apply lightness_pair
    case hh11 => linarith [hl 0]
    case hh12 => linarith [hu 0]
    case hs11 => norm_num
    case hs12 => norm_num
    case hl11 => norm_num
    case hl12 => norm_num
    case hh21 => linarith [hl 0]
    case hh22 => linarith [hu 0]
    case hs21 => norm_num
    case hs22 => norm_num
    case hl21 => norm_num
    case hl22 => norm_num
    case hle => norm_num
  · apply lightness_pair
    case hh11 => linarith [hl 0]
    case hh12 => linarith [hu 0]
    case hs11 => norm_num
    case hs12 => norm_num
    case hl11 => norm_num
    case hl12 => norm_num
    case hh21 => linarith [hl 0]
    case hh22 => linarith [hu 0]
    case hs21 => norm_num
    case hs22 => norm_num
    case hl21 => norm_num
    case hl22 => norm_num
    case hle => norm_num
  · apply lightness_pair
    case hh11 => linarith [hl 0]
    case hh12 => linarith [hu 0]
    case hs11 => norm_num
    case hs12 => norm_num
    case hl11 => norm_num
    case hl12 => norm_num
    case hh21 => linarith [hl 0]
    case hh22 => linarith [hu 0]
    case hs21 => norm_num
    case hs22 => norm_num
    case hl21 => norm_num
    case hl22 => norm_num
    case hle => norm_num
  · apply lightness_pair
    case hh11 => linarith [hl 0]
    case hh12 => linarith [hu 0]
    case hs11 => norm_num
    case hs12 => norm_num
    case hl11 => norm_num
    case hl12 => norm_num
    case hh21 => linarith [hl 0]
    case hh22 => linarith [hu 0]
    case hs21 => norm_num
    case hs22 => norm_num
    case hl21 => norm_num
    case hl22 => norm_num
    case hle => norm_num
  · apply lightness_pair
    case hh11 => linarith [hl 0]
    case hh12 => linarith [hu 0]
    case hs11 => norm_num
    case hs12 => norm_num
    case hl11 => norm_num
    case hl12 => norm_num
    case hh21 => linarith [hl 0]
    case hh22 => linarith [hu 0]
    case hs21 => norm_num
    case hs22 => norm_num
    case hl21 => norm_num
    case hl22 => norm_num
    case hle => norm_num

/-! ### Luminance and contrast facts -/

theorem toLinear_nonneg (y : ℚ) (hy : 0 ≤ y) : 0 ≤ toLinear y := by
  rw [toLinear]
  split
  · positivity
  · positivity

theorem toLinear_small (y : ℚ) (h0 : 0 ≤ y) (h1 : y ≤ 1/15) : toLinear y ≤ 1/50 := by
  have h0' : (0 : ℝ) ≤ (y : ℝ) := by exact_mod_cast h0
  have h1'' : ((y : ℚ) : ℝ) ≤ ((1/15 : ℚ) : ℝ) := Rat.cast_le.mpr h1
  have h1' : (y : ℝ) ≤ 1/15 := by norm_num at h1''; exact h1''
  rw [toLinear]
  rcases le_or_lt ((y : ℝ)) 0.03928 with h | h
  · rw [if_pos h]
    norm_num at h ⊢
    linarith
  · rw [if_neg (not_le.mpr h)]
    set x : ℝ := ((y : ℝ) + 0.055) / 1.055 with hx
    have hx0 : 0 < x := by rw [hx]; positivity
    have hx1 : x ≤ 73/633 := by
      rw [hx, div_le_iff₀ (by norm_num)]
      norm_num
      linarith
    have hle1 : x ≤ 1 := by linarith
    have h24 : x ^ (2.4 : ℝ) ≤ x ^ (2 : ℝ) :=
      Real.rpow_le_rpow_of_exponent_ge hx0 hle1 (by norm_num)
    have h2 : x ^ (2 : ℝ) = x * x := by
      rw [show (2 : ℝ) = ((2 : ℕ) : ℝ) by norm_num, Real.rpow_natCast]
      ring
    have hxx : x * x ≤ (73/633) * (73/633) :=
      mul_le_mul hx1 hx1 (le_of_lt hx0) (by norm_num)
    calc x ^ (2.4 : ℝ) ≤ x ^ (2 : ℝ) := h24
      _ = x * x := h2
      _ ≤ (73/633) * (73/633) := hxx
      _ ≤ 1/50 := by norm_num

theorem GetLuminance_nonneg (c : RGB) (hR : 0 ≤ c.R) (hG : 0 ≤ c.G)
    (hB : 0 ≤ c.B) : 0 ≤ GetLuminance c := by
  rw [GetLuminance]
  have hR' : (0 : ℚ) ≤ (c.R : ℚ) := by exact_mod_cast hR
  have hG' : (0 : ℚ) ≤ (c.G : ℚ) := by exact_mod_cast hG
  have hB' : (0 : ℚ) ≤ (c.B : ℚ) := by exact_mod_cast hB
  have h1 := toLinear_nonneg ((c.R : ℚ) / 255) (by positivity)
  have h2 := toLinear_nonneg ((c.G : ℚ) / 255) (by positivity)
  have h3 := toLinear_nonneg ((c.B : ℚ) / 255) (by positivity)
  linarith

theorem GetLuminance_black : GetLuminance (RGB.mk 0 0 0) = 0 := by
  rw [GetLuminance]
  have h : toLinear (((0 : ℤ) : ℚ) / 255) = 0 := by
    rw [toLinear, if_pos] <;> norm_num
  simp only [h]
  ring

theorem GetLuminance_dim (c : RGB) (hR0 : 0 ≤ c.R) (hR1 : c.R ≤ 17)
    (hG0 : 0 ≤ c.G) (hG1 : c.G ≤ 17) (hB0 : 0 ≤ c.B) (hB1 : c.B ≤ 17) :
    GetLuminance c ≤ 1/50 := by
  rw [GetLuminance]
  have hR1' : (c.R : ℚ) ≤ 17 := by exact_mod_cast hR1
  have hG1' : (c.G : ℚ) ≤ 17 := by exact_mod_cast hG1
  have hB1' : (c.B : ℚ) ≤ 17 := by exact_mod_cast hB1
  have hR0' : (0 : ℚ) ≤ (c.R : ℚ) := by exact_mod_cast hR0
  have hG0' : (0 : ℚ) ≤ (c.G : ℚ) := by exact_mod_cast hG0
  have hB0' : (0 : ℚ) ≤ (c.B : ℚ) := by exact_mod_cast hB0
  have h1 := toLinear_small ((c.R : ℚ) / 255) (by positivity)
    (by rw [div_le_iff₀ (by norm_num)]; linarith)
  have h2 := toLinear_small ((c.G : ℚ) / 255) (by positivity)
    (by rw [div_le_iff₀ (by norm_num)]; linarith)
  have h3 := toLinear_small ((c.B : ℚ) / 255) (by positivity)
    (by rw [div_le_iff₀ (by norm_num)]; linarith)
  have g1 := toLinear_nonneg ((c.R : ℚ) / 255) (by positivity)
  have g2 := toLinear_nonneg ((c.G : ℚ) / 255) (by positivity)
  have g3 := toLinear_nonneg ((c.B : ℚ) / 255) (by positivity)
  linarith

/-- Any color with all channels at most 17 has contrast ratio at most 1.4
against pure black. -/
theorem ratio_black_dim (c : RGB) (hR0 : 0 ≤ c.R) (hR1 : c.R ≤ 17)
    (hG0 : 0 ≤ c.G) (hG1 : c.G ≤ 17) (hB0 : 0 ≤ c.B) (hB1 : c.B ≤ 17) :
    GetContrastRatioR c (RGB.mk 0 0 0) ≤ 1.4 := by
  rw [GetContrastRatioR, GetLuminance_black]
  have hn := GetLuminance_nonneg c hR0 hG0 hB0
  have hd := GetLuminance_dim c hR0 hR1 hG0 hG1 hB0 hB1
  rw [max_eq_left hn, min_eq_right hn]
  rw [div_le_iff₀ (by norm_num)]
  linarith

/-- Channels of the saturation-zero render of a dim lightness stay at most 17. -/
theorem gray_render_dim {l : ℚ} (h0 : 0 ≤ l) (h1 : l ≤ 1/15) :
    (HSL.mk 0 0 l).ToRGB = RGB.mk (ratTrunc (l * 255)) (ratTrunc (l * 255)) (ratTrunc (l * 255)) ∧
      0 ≤ ratTrunc (l * 255) ∧ ratTrunc (l * 255) ≤ 17 := by
  refine ⟨by rw [HSL.ToRGB, if_pos rfl], ratTrunc_nonneg (by positivity), ?_⟩
  have h17 : ratTrunc (l * 255) ≤ (17 : ℤ) := by
    apply ratTrunc_le_intCast (by positivity)
    have hc : ((17 : ℤ) : ℚ) = 17 := by norm_num
    rw [hc]
    linarith
  exact h17

/-- The adjustment loop of `EnsureContrast` against a black background,
started at a gray of lightness at most `1/15`, never finds a passing
candidate when the target ratio is `4.5`: the direction guard walks the
lightness downward and every candidate stays dim. -/
theorem ensureLoop_black_stuck (orig : RGB) :
    ∀ (n : ℕ) (l : ℚ), 0 ≤ l → l ≤ 1/15 →
      ensureLoop (RGB.mk 0 0 0) (9/2) 0 orig n
        (HSL.mk 0 0 l) = orig := by
  intro n
  induction n with
  | zero => intro l _ _; rw [ensureLoop]
  | succ n ih =>
    intro l h0 h1
    simp only [ensureLoop]
    rw [if_neg (by norm_num : ¬((0 : ℝ) > 1/2))]
    have h20 : (0 : ℚ) ≤ max 0 (l - 0.01) := le_max_left _ _
    have h21 : max 0 (l - 0.01) ≤ 1/15 := max_le (by norm_num) (by linarith)
    obtain ⟨hren, hc0, hc1⟩ := gray_render_dim h20 h21
    rw [hren]
    have hfail : ¬(GetContrastRatioR
        (RGB.mk (ratTrunc (max 0 (l - 0.01) * 255)) (ratTrunc (max 0 (l - 0.01) * 255))
          (ratTrunc (max 0 (l - 0.01) * 255))) (RGB.mk 0 0 0) ≥ 9/2) := by
      intro hge
      have hdim := ratio_black_dim
        (RGB.mk (ratTrunc (max 0 (l - 0.01) * 255)) (ratTrunc (max 0 (l - 0.01) * 255))
          (ratTrunc (max 0 (l - 0.01) * 255))) hc0 hc1 hc0 hc1 hc0 hc1
      rw [ge_iff_le] at hge
      linarith
    rw [if_neg hfail]
    exact ih _ h20 h21

theorem gray17_ToHSL : (RGB.mk 17 17 17).ToHSL = HSL.mk 0 0 (1/15) := by
  rw [RGB.ToHSL]
  norm_num

/-- `EnsureContrast` on background `#000000`, foreground `#111111`,
`minRatio = 4.5` returns the foreground unchanged. -/
theorem ensureContrast_black_gray17 :
    EnsureContrast (RGB.mk 17 17 17) (RGB.mk 0 0 0) (9/2) = RGB.mk 17 17 17 := by
  rw [EnsureContrast]
  have hd := ratio_black_dim (RGB.mk 17 17 17)
    (by norm_num) (by norm_num) (by norm_num) (by norm_num) (by norm_num) (by norm_num)
  rw [if_neg (by rw [ge_iff_le]; intro h; linarith)]
  rw [gray17_ToHSL, GetLuminance_black]
  exact ensureLoop_black_stuck _ 100 (1/15) (by norm_num) (by norm_num)

/-! ### The search structure of `EnsureContrast` -/

theorem candL_zero (fg bg : RGB) : candL fg bg 0 = fg.ToHSL.L := by rw [candL]

theorem ensureLoop_eq_find (fg bg : RGB) (minR : ℝ) (orig : RGB) :
    ∀ (n k : ℕ),
      ensureLoop bg minR (GetLuminance bg) orig n
        (HSL.mk fg.ToHSL.H fg.ToHSL.S (candL fg bg k)) =
      ((((List.range n).map fun i => contrastCandidate fg bg (k + i + 1)).find?
        fun c => decide (GetContrastRatioR c bg ≥ minR)).getD orig) := by
  intro n
  induction n with
  | zero => intro k; rw [ensureLoop]; simp
  | succ n ih =>
    intro k
    simp only [ensureLoop]
    have hstep :
        (if GetLuminance bg > 1/2 then min 1 (candL fg bg k + 0.01)
          else max 0 (candL fg bg k - 0.01)) = candL fg bg (k + 1) := by
      rw [candL]
    rw [hstep]
    have hcand : (HSL.mk fg.ToHSL.H fg.ToHSL.S (candL fg bg (k + 1))).ToRGB =
        contrastCandidate fg bg (k + 1) := rfl
    rw [hcand]
    rw [List.range_succ_eq_map, List.map_cons, List.map_map]
    have hfun : ((fun i => contrastCandidate fg bg (k + i + 1)) ∘ Nat.succ) =
        fun i => contrastCandidate fg bg ((k + 1) + i + 1) := by
      funext i
      show contrastCandidate fg bg (k + (i + 1) + 1) = _
      congr 1
      omega
    rw [hfun]
    by_cases h : GetContrastRatioR (contrastCandidate fg bg (k + 1)) bg ≥ minR
    · rw [if_pos h]
      rw [List.find?_cons_of_pos _ (by simpa using h)]
      rfl
    · rw [if_neg h]
      rw [List.find?_cons_of_neg _ (by simpa using h)]
      exact ih (k + 1)

theorem ensureContrast_eq_search (fg bg : RGB) (minR : ℝ) :
    EnsureContrast fg bg minR =
      if GetContrastRatioR fg bg ≥ minR then fg else contrastSearchSpec fg bg minR := by
  rw [EnsureContrast, contrastSearchSpec]
  by_cases h : GetContrastRatioR fg bg ≥ minR
  · rw [if_pos h, if_pos h]
  · rw [if_neg h, if_neg h]
    have h0 : (HSL.mk fg.ToHSL.H fg.ToHSL.S (candL fg bg 0)) = fg.ToHSL := by
      rw [candL_zero]
    have hmain := ensureLoop_eq_find fg bg minR fg 100 0
    rw [h0] at hmain
    have hfun2 : (fun i => contrastCandidate fg bg (0 + i + 1)) =
        fun i => contrastCandidate fg bg (i + 1) := by
      funext i
      congr 1
      omega
    rw [hfun2] at hmain
    exact hmain
/-! ### The claims -/

theorem validE_eHalf : validE eHalf :=
  fun _ => ⟨by norm_num [eHalf], by norm_num [eHalf]⟩

/-- C1 (corrected: the enumerated key set has 19 members, not 18): for each of
the 12 scheme identifiers, `generateColorScheme` succeeds and returns a
mapping whose keys are exactly the required role keys — background,
foreground, selection_background, the 8 role names and their 8 bright
counterparts — and every value is a syntactically valid lowercase `#rrggbb`
hex string. -/
theorem C1_scheme_completeness (sid : String) (hsid : sid ∈ twelveIds)
    (e : Entropy) (he : validE e) :
    ∃ m, generateColorScheme e sid = .ok m ∧
      (m.map Prod.fst).Perm requiredKeys ∧
      ∀ p ∈ m, isValidHex p.2 = true := by
  fin_cases hsid
  · exact ⟨_, rfl, generateRandomColors_keys e, generateRandomColors_valid e he⟩
  · exact ⟨_, rfl, generatePastelColors_keys e, generatePastelColors_valid e he⟩
  · exact ⟨_, rfl, generateNeonColors_keys e, generateNeonColors_valid e he⟩
  · exact ⟨_, rfl, generateMonochromeColors_keys e, generateMonochromeColors_valid e he⟩
  · exact ⟨_, rfl, generateWarmColors_keys e, generateWarmColors_valid e he⟩
  · exact ⟨_, rfl, generateCoolColors_keys e, generateCoolColors_valid e he⟩
  · exact ⟨_, rfl, generateNatureColors_keys e, generateNatureColors_valid e he⟩
  · exact ⟨_, rfl, generateCyberpunkColors_keys e, generateCyberpunkColors_valid e he⟩
  · exact ⟨_, rfl, generateDraculaColors_keys e, generateDraculaColors_valid e he⟩
  · exact ⟨_, rfl, generateNordColors_keys e, generateNordColors_valid e he⟩
  · exact ⟨_, rfl, generateSolarizedColors_keys e, generateSolarizedColors_valid e he⟩
  · exact ⟨_, rfl, generateGruvboxColors_keys e, generateGruvboxColors_valid e he⟩

/-- C1 witness: the random scheme at the all-halves entropy stream. -/
theorem C1_scheme_completeness_witness :
    ("random" ∈ twelveIds ∧ validE eHalf) ∧
      ∃ m, generateColorScheme eHalf "random" = .ok m ∧
        (m.map Prod.fst).Perm requiredKeys ∧
        ∀ p ∈ m, isValidHex p.2 = true :=
  ⟨⟨by decide, validE_eHalf⟩,
    C1_scheme_completeness "random" (by decide) eHalf validE_eHalf⟩

/-- C1 counterexample to the count `18`: the key set enumerated by the claim
has 19 members, and the neon mapping indeed carries 19 entries. -/
theorem C1_nineteen_keys :
    requiredKeys.length = 19 ∧
      ∃ m, generateColorScheme eHalf "neon" = .ok m ∧ m.length = 19 :=
  ⟨by decide, generateNeonColors eHalf, rfl, by decide⟩

/-- C2 (refuted — code bug): on background `#000000`, foreground `#111111`,
`minRatio = 4.5`, `EnsureContrast` returns `#111111` unchanged.  The direction
guard reads `bgLum > 0.5` and therefore *darkens* the foreground on a dark
background (the inline comments describe the opposite), every darkened gray
keeps the ratio below 1.4, and the returned color's contrast ratio stays far
below 4.49 while its lightness was never increased from `1/15`. -/
theorem C2_contrast_direction_bug :
    EnsureContrast (RGB.mk 17 17 17) (RGB.mk 0 0 0) (9/2) = RGB.mk 17 17 17 ∧
      GetContrastRatioR (RGB.mk 17 17 17) (RGB.mk 0 0 0) ≤ 1.4 ∧
      (RGB.mk 17 17 17).ToHSL = HSL.mk 0 0 (1/15) :=
  ⟨ensureContrast_black_gray17,
    ratio_black_dim (RGB.mk 17 17 17) (by norm_num) (by norm_num) (by norm_num)
      (by norm_num) (by norm_num) (by norm_num),
    gray17_ToHSL⟩
/-- C3 (amended): in every generated scheme, every role pair that is actually
ramped satisfies the bright-at-least-as-light property up to the `1/255`
rendering loss: all eight pairs for the monochrome and palette schemes, the
six chromatic pairs for the fixed-literal schemes, and black plus the six
chromatic pairs for the random scheme.  The random scheme's `white` pair is
ramped yet can violate the property (see the counterexample), and the
fixed-literal black/white pairs of pastel are rendered darker by design. -/
theorem C3_bright_pairs (e : Entropy) (he : validE e) :
    brightPairsOK (generateRandomColors e) ("black" :: chromaticRoles) ∧
    brightPairsOK (generatePastelColors e) (chromaticRoles) ∧
    brightPairsOK (generateNeonColors e) (chromaticRoles) ∧
    brightPairsOK (generateMonochromeColors e) (roleNames) ∧
    brightPairsOK (generateWarmColors e) (chromaticRoles) ∧
    brightPairsOK (generateCoolColors e) (chromaticRoles) ∧
    brightPairsOK (generateNatureColors e) (chromaticRoles) ∧
    brightPairsOK (generateCyberpunkColors e) (chromaticRoles) ∧
    brightPairsOK (generateDraculaColors e) (roleNames) ∧
    brightPairsOK (generateNordColors e) (roleNames) ∧
    brightPairsOK (generateSolarizedColors e) (roleNames) ∧
    brightPairsOK (generateGruvboxColors e) (roleNames) := by
  refine ⟨?_, ?_, ?_, ?_, ?_, ?_, ?_, ?_, ?_, ?_, ?_, ?_⟩
  · have h := randomColors_pairs e he
    intro r hr
    simp only [chromaticRoles, List.mem_cons, List.not_mem_nil, or_false] at hr
    rcases hr with rfl | rfl | rfl | rfl | rfl | rfl | rfl
    · exact h.1
    · exact h.2.1
    · exact h.2.2.1
    · exact h.2.2.2.1
    · exact h.2.2.2.2.1
    · exact h.2.2.2.2.2.1
    · exact h.2.2.2.2.2.2
  · have h := pastelColors_pairs e he
    intro r hr
    simp only [chromaticRoles, List.mem_cons, List.not_mem_nil, or_false] at hr
    rcases hr with rfl | rfl | rfl | rfl | rfl | rfl
    · exact h.1
    · exact h.2.1
    · exact h.2.2.1
    · exact h.2.2.2.1
    · exact h.2.2.2.2.1
    · exact h.2.2.2.2.2
  · have h := neonColors_pairs e he
    intro r hr
    simp only [chromaticRoles, List.mem_cons, List.not_mem_nil, or_false] at hr
    rcases hr with rfl | rfl | rfl | rfl | rfl | rfl
    · exact h.1
    · exact h.2.1
    · exact h.2.2.1
    · exact h.2.2.2.1
    · exact h.2.2.2.2.1
    · exact h.2.2.2.2.2
  · have h := monochromeColors_pairs e he
    intro r hr
    simp only [roleNames, List.mem_cons, List.not_mem_nil, or_false] at hr
    rcases hr with rfl | rfl | rfl | rfl | rfl | rfl | rfl | rfl
    · exact h.1
    · exact h.2.1
    · exact h.2.2.1
    · exact h.2.2.2.1
    · exact h.2.2.2.2.1
    · exact h.2.2.2.2.2.1
    · exact h.2.2.2.2.2.2.1
    · exact h.2.2.2.2.2.2.2
  · have h := warmColors_pairs e he
    intro r hr
    simp only [chromaticRoles, List.mem_cons, List.not_mem_nil, or_false] at hr
    rcases hr with rfl | rfl | rfl | rfl | rfl | rfl
    · exact h.1
    · exact h.2.1
    · exact h.2.2.1
    · exact h.2.2.2.1
    · exact h.2.2.2.2.1
    · exact h.2.2.2.2.2
  · have h := coolColors_pairs e he
    intro r hr
    simp only [chromaticRoles, List.mem_cons, List.not_mem_nil, or_false] at hr
    rcases hr with rfl | rfl | rfl | rfl | rfl | rfl
    · exact h.1
    · exact h.2.1
    · exact h.2.2.1
    · exact h.2.2.2.1
    · exact h.2.2.2.2.1
    · exact h.2.2.2.2.2
  · have h := natureColors_pairs e he
    intro r hr
    simp only [chromaticRoles, List.mem_cons, List.not_mem_nil, or_false] at hr
    rcases hr with rfl | rfl | rfl | rfl | rfl | rfl
    · exact h.1
    · exact h.2.1
    · exact h.2.2.1
    · exact h.2.2.2.1
    · exact h.2.2.2.2.1
    · exact h.2.2.2.2.2
  · have h := cyberpunkColors_pairs e he
    intro r hr
    simp only [chromaticRoles, List.mem_cons, List.not_mem_nil, or_false] at hr
    rcases hr with rfl | rfl | rfl | rfl | rfl | rfl
    · exact h.1
    · exact h.2.1
    · exact h.2.2.1
    · exact h.2.2.2.1
    · exact h.2.2.2.2.1
    · exact h.2.2.2.2.2
  · have h := draculaColors_pairs e he
    intro r hr
    simp only [roleNames, List.mem_cons, List.not_mem_nil, or_false] at hr
    rcases hr with rfl | rfl | rfl | rfl | rfl | rfl | rfl | rfl
    · exact h.1
    · exact h.2.1
    · exact h.2.2.1
    · exact h.2.2.2.1
    · exact h.2.2.2.2.1
    · exact h.2.2.2.2.2.1
    · exact h.2.2.2.2.2.2.1
    · exact h.2.2.2.2.2.2.2
  · have h := nordColors_pairs e he
    intro r hr
    simp only [roleNames, List.mem_cons, List.not_mem_nil, or_false] at hr
    rcases hr with rfl | rfl | rfl | rfl | rfl | rfl | rfl | rfl
    · exact h.1
    · exact h.2.1
    · exact h.2.2.1
    · exact h.2.2.2.1
    · exact h.2.2.2.2.1
    · exact h.2.2.2.2.2.1
    · exact h.2.2.2.2.2.2.1
    · exact h.2.2.2.2.2.2.2
  · have h := solarizedColors_pairs e he
    intro r hr
    simp only [roleNames, List.mem_cons, List.not_mem_nil, or_false] at hr
    rcases hr with rfl | rfl | rfl | rfl | rfl | rfl | rfl | rfl
    · exact h.1
    · exact h.2.1
    · exact h.2.2.1
    · exact h.2.2.2.1
    · exact h.2.2.2.2.1
    · exact h.2.2.2.2.2.1
    · exact h.2.2.2.2.2.2.1
    · exact h.2.2.2.2.2.2.2
  · have h := gruvboxColors_pairs e he
    intro r hr
    simp only [roleNames, List.mem_cons, List.not_mem_nil, or_false] at hr
    rcases hr with rfl | rfl | rfl | rfl | rfl | rfl | rfl | rfl
    · exact h.1
    · exact h.2.1
    · exact h.2.2.1
    · exact h.2.2.2.1
    · exact h.2.2.2.2.1
    · exact h.2.2.2.2.2.1
    · exact h.2.2.2.2.2.2.1
    · exact h.2.2.2.2.2.2.2

/-- C3 witness: the amended statement holds at the all-halves entropy stream. -/
theorem C3_bright_pairs_witness :
    validE eHalf ∧
    (brightPairsOK (generateRandomColors eHalf) ("black" :: chromaticRoles) ∧
      brightPairsOK (generatePastelColors eHalf) (chromaticRoles) ∧
      brightPairsOK (generateNeonColors eHalf) (chromaticRoles) ∧
      brightPairsOK (generateMonochromeColors eHalf) (roleNames) ∧
      brightPairsOK (generateWarmColors eHalf) (chromaticRoles) ∧
      brightPairsOK (generateCoolColors eHalf) (chromaticRoles) ∧
      brightPairsOK (generateNatureColors eHalf) (chromaticRoles) ∧
      brightPairsOK (generateCyberpunkColors eHalf) (chromaticRoles) ∧
      brightPairsOK (generateDraculaColors eHalf) (roleNames) ∧
      brightPairsOK (generateNordColors eHalf) (roleNames) ∧
      brightPairsOK (generateSolarizedColors eHalf) (roleNames) ∧
      brightPairsOK (generateGruvboxColors eHalf) (roleNames)) :=
  ⟨validE_eHalf, C3_bright_pairs eHalf validE_eHalf⟩

/-- C4 (corrected: 13 identifiers are accepted, not 12): `generateColorScheme`
returns the `unknown color scheme` error exactly on identifiers outside the
accepted set, which is the 12 enumerated identifiers *plus* the `monochrome`
alias of `mono`. -/
theorem C4_unknown_scheme (e : Entropy) (sid : String) :
    (sid ∉ acceptedIds →
      generateColorScheme e sid = .error ("unknown color scheme: " ++ sid)) ∧
    (sid ∈ acceptedIds → ∃ m, generateColorScheme e sid = .ok m) := by
  constructor
  · intro h
    simp only [acceptedIds, List.mem_cons, List.not_mem_nil, or_false, not_or] at h
    obtain ⟨h1, h2, h3, h4, h5, h6, h7, h8, h9, h10, h11, h12, h13⟩ := h
    rw [generateColorScheme, if_neg h1, if_neg h2, if_neg h3, if_neg h4, if_neg h5,
      if_neg h6, if_neg h7, if_neg h8, if_neg h9, if_neg h10, if_neg h11, if_neg h12,
      if_neg h13]
  · intro h
    simp only [acceptedIds, List.mem_cons, List.not_mem_nil, or_false] at h
    rcases h with rfl | rfl | rfl | rfl | rfl | rfl | rfl | rfl | rfl | rfl | rfl | rfl | rfl
    all_goals exact ⟨_, rfl⟩

/-- C4 witness: `not-a-scheme` is rejected with the exact error message, and
the alias `monochrome` is accepted. -/
theorem C4_unknown_scheme_witness :
    ("not-a-scheme" ∉ acceptedIds ∧
      generateColorScheme eHalf "not-a-scheme" =
        .error ("unknown color scheme: " ++ "not-a-scheme")) ∧
    ("monochrome" ∈ acceptedIds ∧
      ∃ m, generateColorScheme eHalf "monochrome" = .ok m) :=
  ⟨⟨by decide, (C4_unknown_scheme eHalf "not-a-scheme").1 (by decide)⟩,
    ⟨by decide, (C4_unknown_scheme eHalf "monochrome").2 (by decide)⟩⟩

/-- C4 counterexample to the 12-item set: `monochrome` is not one of the 12
enumerated identifiers, yet the dispatch accepts it. -/
theorem C4_monochrome_accepted :
    "monochrome" ∉ twelveIds ∧
      generateColorScheme eHalf "monochrome" = .ok (generateMonochromeColors eHalf) :=
  ⟨by decide, rfl⟩

/-- C5: for every string of `'#'` followed by six hexadecimal digits,
`HexToRGB` succeeds and re-rendering the parsed color with `ToHex` gives the
lowercase normalization of the input. -/
theorem C5_hex_roundtrip (c1 c2 c3 c4 c5 c6 : Char)
    (h1 : c1 ∈ hexDigitChars) (h2 : c2 ∈ hexDigitChars) (h3 : c3 ∈ hexDigitChars)
    (h4 : c4 ∈ hexDigitChars) (h5 : c5 ∈ hexDigitChars) (h6 : c6 ∈ hexDigitChars) :
    ∃ c : RGB, HexToRGB (String.mk ['#', c1, c2, c3, c4, c5, c6]) = .ok c ∧
      c.ToHex = lowerStr (String.mk ['#', c1, c2, c3, c4, c5, c6]) := by
  refine ⟨_, HexToRGB_hex_digits h1 h2 h3 h4 h5 h6, ?_⟩
  apply string_ext
  show (RGB.ToHex _).data = _
  rw [RGB.ToHex]
  simp only [String.data_append]
  rw [hexPair_fact_of_mem h1 h2, hexPair_fact_of_mem h3 h4, hexPair_fact_of_mem h5 h6]
  simp [lowerStr]

/-- C5 witness: the round trip at `#Ab09fF`. -/
theorem C5_hex_roundtrip_witness :
    ('A' ∈ hexDigitChars ∧ 'b' ∈ hexDigitChars ∧ '0' ∈ hexDigitChars ∧
      '9' ∈ hexDigitChars ∧ 'f' ∈ hexDigitChars ∧ 'F' ∈ hexDigitChars) ∧
      ∃ c : RGB, HexToRGB (String.mk ['#', 'A', 'b', '0', '9', 'f', 'F']) = .ok c ∧
        c.ToHex = lowerStr (String.mk ['#', 'A', 'b', '0', '9', 'f', 'F']) :=
  ⟨⟨by decide, by decide, by decide, by decide, by decide, by decide⟩,
    C5_hex_roundtrip 'A' 'b' '0' '9' 'f' 'F' (by decide) (by decide) (by decide)
      (by decide) (by decide) (by decide)⟩

/-- C6: the HSL round trip moves every channel by at most one — in fact, for
channels in `[0, 255]` it reproduces the input exactly. -/
theorem C6_hsl_roundtrip (c : RGB) (hR1 : 0 ≤ c.R) (hR2 : c.R ≤ 255)
    (hG1 : 0 ≤ c.G) (hG2 : c.G ≤ 255) (hB1 : 0 ≤ c.B) (hB2 : c.B ≤ 255) :
    (c.ToHSL.ToRGB.R - c.R).natAbs ≤ 1 ∧ (c.ToHSL.ToRGB.G - c.G).natAbs ≤ 1 ∧
      (c.ToHSL.ToRGB.B - c.B).natAbs ≤ 1 := by
  rw [ToHSL_ToRGB_exact c hR1 hR2 hG1 hG2 hB1 hB2]
  simp

/-- C6 witness: the round trip at the channel triple `(12, 200, 255)`. -/
theorem C6_hsl_roundtrip_witness :
    ((0 : ℤ) ≤ 12 ∧ (12 : ℤ) ≤ 255 ∧ (0 : ℤ) ≤ 200 ∧ (200 : ℤ) ≤ 255 ∧
      (0 : ℤ) ≤ 255 ∧ (255 : ℤ) ≤ 255) ∧
    (((RGB.mk 12 200 255).ToHSL.ToRGB.R - (RGB.mk 12 200 255).R).natAbs ≤ 1 ∧
      ((RGB.mk 12 200 255).ToHSL.ToRGB.G - (RGB.mk 12 200 255).G).natAbs ≤ 1 ∧
      ((RGB.mk 12 200 255).ToHSL.ToRGB.B - (RGB.mk 12 200 255).B).natAbs ≤ 1) :=
  ⟨⟨by norm_num, by norm_num, by norm_num, by norm_num, by norm_num, by norm_num⟩,
    C6_hsl_roundtrip (RGB.mk 12 200 255) (by norm_num) (by norm_num) (by norm_num)
      (by norm_num) (by norm_num) (by norm_num)⟩

/-- C7 (corrected: the stated shape is sufficient but not necessary):
`HexToRGB` succeeds on every `'#'` plus six hex digits input with the three
2-digit byte values, and fails with the invalid-format error whenever the
length is not 7 or the leading character is not `'#'` — but among 7-character
`'#'`-prefixed inputs the `Sscanf`-style scanner also accepts bodies that are
not six hex digits (see the counterexample). -/
theorem C7_hex_parse (s : String) (c1 c2 c3 c4 c5 c6 : Char)
    (h1 : c1 ∈ hexDigitChars) (h2 : c2 ∈ hexDigitChars) (h3 : c3 ∈ hexDigitChars)
    (h4 : c4 ∈ hexDigitChars) (h5 : c5 ∈ hexDigitChars) (h6 : c6 ∈ hexDigitChars)
    (hs : ¬(s.data.length = 7 ∧ s.data.head? = some '#')) :
    HexToRGB (String.mk ['#', c1, c2, c3, c4, c5, c6]) =
      .ok (RGB.mk ((hexVal c1 * 16 + hexVal c2 : ℕ) : ℤ)
        ((hexVal c3 * 16 + hexVal c4 : ℕ) : ℤ)
        ((hexVal c5 * 16 + hexVal c6 : ℕ) : ℤ)) ∧
    HexToRGB s = .error ("invalid hex color format: " ++ s) :=
  ⟨HexToRGB_hex_digits h1 h2 h3 h4 h5 h6, HexToRGB_invalid s hs⟩

/-- C7 witness: `#123456` parses to `(18, 52, 86)` and `zzz` is rejected. -/
theorem C7_hex_parse_witness :
    ('1' ∈ hexDigitChars ∧ '2' ∈ hexDigitChars ∧ '3' ∈ hexDigitChars ∧
      '4' ∈ hexDigitChars ∧ '5' ∈ hexDigitChars ∧ '6' ∈ hexDigitChars ∧
      ¬(("zzz" : String).data.length = 7 ∧ ("zzz" : String).data.head? = some '#')) ∧
    (HexToRGB (String.mk ['#', '1', '2', '3', '4', '5', '6']) =
      .ok (RGB.mk ((hexVal '1' * 16 + hexVal '2' : ℕ) : ℤ)
        ((hexVal '3' * 16 + hexVal '4' : ℕ) : ℤ)
        ((hexVal '5' * 16 + hexVal '6' : ℕ) : ℤ)) ∧
      HexToRGB "zzz" = .error ("invalid hex color format: " ++ "zzz")) :=
  ⟨⟨by decide, by decide, by decide, by decide, by decide, by decide, by decide⟩,
    C7_hex_parse "zzz" '1' '2' '3' '4' '5' '6' (by decide) (by decide) (by decide)
      (by decide) (by decide) (by decide) (by decide)⟩

/-- C7 counterexample to "exactly": two 7-character `'#'`-prefixed inputs with
non-hex-digit bodies that the scanner nevertheless accepts — `#12 345` (the
`%02x` verb skips the space) and `#-f1122` (the verb accepts a sign, yielding
a negative red channel). -/
theorem C7_lenient_inputs :
    HexToRGB "#12 345" = .ok (RGB.mk 18 52 5) ∧
      HexToRGB "#-f1122" = .ok (RGB.mk (-15) 17 34) :=
  ⟨rfl, rfl⟩

/-- C8: `EnsureContrast` returns the foreground when the ratio is already
met, and otherwise returns the first of the 100 candidates of the fixed
`±0.01` saturating lightness walk that passes the ratio test, or the original
foreground when none passes — it never fails. -/
theorem C8_contrast_search (fg bg : RGB) (minR : ℝ) :
    EnsureContrast fg bg minR =
      if GetContrastRatioR fg bg ≥ minR then fg
      else contrastSearchSpec fg bg minR :=
  ensureContrast_eq_search fg bg minR

/-- C9: with both flags false the variant step is the identity on the
generated result; the dark variant forces the foreground to `#e5e5e5`,
rewrites the background to 30% of its (leniently parsed) channels — or to
`#1a1a1a` when the background key is absent — and leaves every other key
unchanged. -/
theorem C9_variant_frame (e : Entropy) (sid : String) (m : List (String × String)) :
    generateColorSchemeWithVariant e sid false false = generateColorScheme e sid ∧
    findVal? (convertToDarkVariant m) "foreground" = some "#e5e5e5" ∧
    (∀ k, k ≠ "background" → k ≠ "foreground" →
      findVal? (convertToDarkVariant m) k = findVal? m k) ∧
    (∀ bg, findVal? m "background" = some bg →
      findVal? (convertToDarkVariant m) "background" =
        some (rgbToHex (ratTrunc (((hexToRGBLoose bg).1 : ℚ) * 0.3))
          (ratTrunc (((hexToRGBLoose bg).2.1 : ℚ) * 0.3))
          (ratTrunc (((hexToRGBLoose bg).2.2 : ℚ) * 0.3)))) ∧
    (findVal? m "background" = none →
      findVal? (convertToDarkVariant m) "background" = some "#1a1a1a") := by
  refine ⟨?_, ?_, ?_, ?_, ?_⟩
  · rw [generateColorSchemeWithVariant]
    cases generateColorScheme e sid <;> rfl
  · rw [convertToDarkVariant]
    exact findVal?_setKey_same _ _ _
  · intro k hbg hfg
    rw [convertToDarkVariant]
    rw [findVal?_setKey_other _ _ _ _ (Ne.symm hfg), findVal?_setKey_other _ _ _ _ (Ne.symm hbg)]
  · intro bg hbg
    simp only [convertToDarkVariant, hbg]
    rw [findVal?_setKey_other _ _ _ _ (by decide : ("foreground" : String) ≠ "background")]
    exact findVal?_setKey_same _ _ _
  · intro hnone
    simp only [convertToDarkVariant, hnone]
    rw [findVal?_setKey_other _ _ _ _ (by decide : ("foreground" : String) ≠ "background")]
    exact findVal?_setKey_same _ _ _

/-- C9 witness: on a two-key mapping the dark variant leaves the unrelated
`cursor` key unchanged and rescales the present background. -/
theorem C9_variant_frame_witness :
    (("cursor" : String) ≠ "background" ∧ ("cursor" : String) ≠ "foreground" ∧
      findVal? [("background", "#446688"), ("cursor", "#abcdef")] "background" =
        some "#446688") ∧
    (findVal? (convertToDarkVariant [("background", "#446688"), ("cursor", "#abcdef")])
        "cursor" = findVal? [("background", "#446688"), ("cursor", "#abcdef")] "cursor" ∧
      findVal? (convertToDarkVariant [("background", "#446688"), ("cursor", "#abcdef")])
        "background" =
        some (rgbToHex
          (ratTrunc (((hexToRGBLoose "#446688").1 : ℚ) * 0.3))
          (ratTrunc (((hexToRGBLoose "#446688").2.1 : ℚ) * 0.3))
          (ratTrunc (((hexToRGBLoose "#446688").2.2 : ℚ) * 0.3)))) :=
  ⟨⟨by decide, by decide, by decide⟩,
    (C9_variant_frame eHalf "random" [("background", "#446688"), ("cursor", "#abcdef")]).2.2.1
      "cursor" (by decide) (by decide),
    (C9_variant_frame eHalf "random" [("background", "#446688"), ("cursor", "#abcdef")]).2.2.2.1
      "#446688" (by decide)⟩

/-- C10: with both flags set, only the dark conversion is applied — the light
flag is ignored because the dark branch is tested first. -/
theorem C10_dark_wins (e : Entropy) (sid : String) :
    generateColorSchemeWithVariant e sid true true =
      (generateColorScheme e sid).map convertToDarkVariant := by
  rw [generateColorSchemeWithVariant]
  cases generateColorScheme e sid <;> rfl

/-! ### Evaluated counterexample for C3 -/

section EvalCounterexamples

set_option allowUnsafeReducibility true
attribute [local semireducible] Rat.add Rat.mul Rat.inv Rat.sub Rat.ofScientific

/-- C3 counterexample to "every ramped pair": in `generateRandomColors` the
`white`/`bright_white` pair is lightness-ramped, yet with every entropy draw
equal to `1/2` the rendered `bright_white` (lightness `229/255`) is *darker*
than `white` (lightness `235/255`) by more than the rounding tolerance: the
bright lightness is capped at `min 0.9 (light + 0.25)` while the base white
lightness `0.85 + 0.5·0.15 = 0.925` exceeds the cap. -/
theorem C3_random_white_exception :
    lightnessOfHex ((findVal? (generateRandomColors eHalf) ("bright_" ++ "white")).getD "")
        + 1/255 <
      lightnessOfHex ((findVal? (generateRandomColors eHalf) "white").getD "") := by
  decide

end EvalCounterexamples
